import Mathlib

/-!
# VRuskaEngine IPC server: handle tables, session lifecycle and arbitration

A shallow embedding of the request handlers of
`src/xrt/ipc/server/ipc_server_handler.c`, the arbitration, connection and
shared-memory set-up code of `src/xrt/ipc/server/ipc_server_process.c`, the
session helper of `src/xrt/auxiliary/util/u_system.c` and the ring buffer of
`src/xrt/auxiliary/util/u_resampler.c`.

Conventions of the embedding:

* a C pointer is an `Option`: `none` is `NULL`;
* a fixed-capacity C array is a function from the index, the capacity is
  the constant the loops of the source compare against;
* `volatile struct ipc_client_state *ics` is the pair of the server and the
  index `t` of the thread slot that holds the client state, so that
  `ics->server` is the server itself;
* every call into a collaborator (compositor, system compositor, space
  overseer, system) is appended to `ipc_server.calls`, in program order, and
  what the collaborator answers is an argument of the handler;
* `uint32_t` fields are natural numbers, reduced modulo `2 ^ 32` where the
  source does arithmetic on them.
-/

namespace VRuska

/-! ## Constants -/

/-- `IPC_MAX_SLOTS` of `ipc_protocol.h`. -/
def IPC_MAX_SLOTS : Nat := 128

/-- `IPC_MAX_CLIENTS` of `ipc_protocol.h`. -/
def IPC_MAX_CLIENTS : Nat := 8

/-- The number of values of a `uint32_t`. -/
def UINT32_SIZE : Nat := 2 ^ 32

/-- `INT64_MIN`. -/
def INT64_MIN : Int := -(2 ^ 63)

/-- The conversion of a 64-bit signed value to `uint32_t` (reduction modulo `2 ^ 32`). -/
def to_uint32 (z : Int) : Nat := (z % (2 ^ 32 : Int)).toNat

/-! ## Results and collaborator objects -/

/-- The values of `xrt_result_t` the modelled code returns or tests; any other
value a collaborator answers is `XRT_ERROR_OTHER` with its code. -/
inductive xrt_result_t where
  | XRT_SUCCESS
  | XRT_ERROR_IPC_FAILURE
  | XRT_ERROR_IPC_SESSION_NOT_CREATED
  | XRT_ERROR_IPC_SESSION_ALREADY_CREATED
  | XRT_ERROR_IPC_COMPOSITOR_NOT_CREATED
  | XRT_ERROR_COMPOSITOR_NOT_SUPPORTED
  | XRT_ERROR_SWAPCHAIN_FLAG_VALID_BUT_UNSUPPORTED
  | XRT_ERROR_ALLOCATION
  | XRT_ERROR_OTHER (code : Int)
deriving DecidableEq, Repr

open xrt_result_t

/-- A `struct xrt_session *` that is not `NULL`. -/
abbrev xrt_session := Nat

/-- A `struct xrt_compositor *` that is not `NULL`. -/
abbrev xrt_compositor := Nat

/-- A `struct xrt_space *` that is not `NULL`. -/
abbrev xrt_space := Nat

/-- A sync handle; `none` is `XRT_GRAPHICS_SYNC_HANDLE_INVALID`. -/
abbrev xrt_graphics_sync_handle_t := Option Nat

/-- An IPC connection handle; `none` is a handle for which `xrt_ipc_handle_is_valid` is
false. -/
abbrev xrt_ipc_handle_t := Option Nat

/-- The states of a server thread slot, `enum ipc_thread_state`. -/
inductive ipc_thread_state where
  | IPC_THREAD_READY
  | IPC_THREAD_STARTING
  | IPC_THREAD_RUNNING
  | IPC_THREAD_STOPPING
deriving DecidableEq, Repr

/-- What the handlers read of a `struct xrt_swapchain`. -/
structure xrt_swapchain where
  handle : Nat
  image_count : Nat
deriving DecidableEq, Repr

/-- The fields of `struct xrt_input`; `value` stands for the `union xrt_input_value`. -/
structure xrt_input where
  active : Bool
  timestamp : Int
  name : Nat
  value : Int
deriving DecidableEq, Repr

/-- The fields of `struct xrt_output`. -/
structure xrt_output where
  name : Nat
deriving DecidableEq, Repr

/-- The `struct xrt_binding_input_pair`: `from` and `device`. -/
structure xrt_binding_input_pair where
  from_name : Nat
  device_name : Nat
deriving DecidableEq, Repr

/-- The `struct xrt_binding_output_pair`: `from` and `device`. -/
structure xrt_binding_output_pair where
  from_name : Nat
  device_name : Nat
deriving DecidableEq, Repr

/-- The `struct xrt_binding_profile`: the arrays `inputs` and `outputs` with their counts
`input_count` and `output_count` are lists. -/
structure xrt_binding_profile where
  name : Nat
  inputs : List xrt_binding_input_pair
  outputs : List xrt_binding_output_pair
deriving DecidableEq, Repr

/-- What the server reads of a `struct xrt_tracking_origin`. -/
structure xrt_tracking_origin where
  handle : Nat
  type : Nat
deriving DecidableEq, Repr

/-- What the server reads of a `struct xrt_device`: `view_count` is
`xdev->hmd->view_count`, and each array with its count (`inputs` and `input_count`,
`outputs` and `output_count`, `binding_profiles` and `binding_profile_count`) is a list. -/
structure xrt_device where
  handle : Nat
  view_count : Nat
  name : Nat := 0
  device_type : Nat := 0
  tracking_origin : Option xrt_tracking_origin := none
  inputs : List xrt_input := []
  outputs : List xrt_output := []
  binding_profiles : List xrt_binding_profile := []
deriving DecidableEq, Repr

/-- What the handlers read of a `struct xrt_swapchain_create_info`. -/
structure xrt_swapchain_create_info where
  width : Nat
  height : Nat
  format : Int
deriving DecidableEq, Repr

/-- What the handlers read of a `struct xrt_session_info`. -/
structure xrt_session_info where
  is_overlay : Bool
  z_order : Nat
deriving DecidableEq, Repr

/-- The layer type tag `enum xrt_layer_type`; a value of no enumerator is `OTHER`. -/
inductive xrt_layer_type where
  | XRT_LAYER_PROJECTION
  | XRT_LAYER_PROJECTION_DEPTH
  | XRT_LAYER_QUAD
  | XRT_LAYER_CUBE
  | XRT_LAYER_CYLINDER
  | XRT_LAYER_EQUIRECT1
  | XRT_LAYER_EQUIRECT2
  | XRT_LAYER_PASSTHROUGH
  | OTHER (value : Int)
deriving DecidableEq, Repr

open xrt_layer_type

/-- The layer kinds of the one-swapchain layers that go through `do_single`. -/
inductive single_layer_kind where
  | quad
  | cube
  | cylinder
  | equirect1
  | equirect2
deriving DecidableEq, Repr

/-- A call into a collaborator, as recorded in `ipc_server.calls`. -/
inductive xrt_call where
  | comp_layer_begin (xc : xrt_compositor)
  | comp_layer_projection (xc : xrt_compositor) (xdev : xrt_device) (xcs : List xrt_swapchain)
  | comp_layer_projection_depth (xc : xrt_compositor) (xdev : xrt_device)
      (xcs : List xrt_swapchain) (d_xcs : List xrt_swapchain)
  | comp_layer_single (kind : single_layer_kind) (xc : xrt_compositor) (xdev : xrt_device)
      (xcs : xrt_swapchain)
  | comp_layer_passthrough (xc : xrt_compositor) (xdev : xrt_device)
  | comp_layer_commit (xc : xrt_compositor) (sync_handle : xrt_graphics_sync_handle_t)
  | graphics_sync_unref (handle : xrt_graphics_sync_handle_t)
  | comp_create_swapchain (xc : Option xrt_compositor) (info : xrt_swapchain_create_info)
  | comp_import_swapchain (xc : Option xrt_compositor) (info : xrt_swapchain_create_info)
      (handle_count : Nat)
  | swapchain_unref (xsc : xrt_swapchain)
  | u_session_create
  | syscomp_create_native_compositor (xsi : xrt_session_info)
  | syscomp_set_state (xc : Option xrt_compositor) (visible : Bool) (focused : Bool)
  | syscomp_set_z_order (xc : Option xrt_compositor) (z_order : Int)
  | syscomp_set_main_app_visibility (xc : Option xrt_compositor) (visible : Bool)
  | comp_destroy (xc : xrt_compositor)
  | session_destroy (xs : xrt_session)
  | space_overseer_create_offset_space (parent : xrt_space)
  | space_overseer_locate_space (base_space : xrt_space) (space : xrt_space)
  | space_unref (xs : xrt_space)
  | comp_predict_frame (xc : Option xrt_compositor)
  | ipc_handle_close (ipc_handle : Option Nat)
  | os_thread_join (index : Nat)
  | os_thread_start (index : Nat)
  | space_overseer_create_local_space (local_index : Nat) (local_floor_index : Nat)
  | device_update_inputs (xdev : xrt_device)
  | space_overseer_create_pose_space (xdev : xrt_device) (name : Nat)
  | device_begin_plane_detection_ext (xdev : Option xrt_device) (plane_detection_id : Nat)
  | device_destroy_plane_detection_ext (xdev : Option xrt_device) (plane_detection_id : Nat)
deriving DecidableEq, Repr

/-! ## Shared memory and server state -/

/-- The fields of `struct xrt_layer_data` the handlers read. -/
structure xrt_layer_data where
  type : xrt_layer_type
  view_count : Nat
deriving DecidableEq, Repr

/-- The `struct ipc_layer_entry` of `ipc_protocol.h`. -/
structure ipc_layer_entry where
  xdev_id : Nat
  swapchain_ids : Nat → Nat
  data : xrt_layer_data

/-- The `struct ipc_layer_slot` of `ipc_protocol.h`. -/
structure ipc_layer_slot where
  layer_count : Nat
  layers : Nat → ipc_layer_entry

/-- The `struct ipc_app_state` of `ipc_protocol.h` (`z_order` is a `uint32_t`). -/
structure ipc_app_state where
  id : Nat
  primary_application : Bool
  session_active : Bool
  session_visible : Bool
  session_focused : Bool
  session_overlay : Bool
  io_active : Bool
  z_order : Nat
deriving DecidableEq, Repr

/-- One entry of `ics->swapchain_data`. -/
structure ipc_swapchain_data where
  active : Bool
  width : Nat
  height : Nat
  format : Int
  image_count : Nat
deriving DecidableEq, Repr

/-- The fields of `struct ipc_client_state` the modelled handlers use. The struct is
declared in `ipc_server.h`, which is not among the sources: the counters and the space
indices are taken to be `uint32_t`, `server_thread_index` to be a signed integer (it is
compared with `-1` and `0`). The tables are functions on all indices: at an index at or
past the capacity of an array, the value is the word the C expression reads behind the
array. -/
structure ipc_client_state where
  xs : Option xrt_session
  xc : Option xrt_compositor
  client_state : ipc_app_state
  io_active : Bool
  server_thread_index : Int
  swapchain_count : Nat
  xscs : Nat → Option xrt_swapchain
  swapchain_data : Nat → ipc_swapchain_data
  xspcs : Nat → Option xrt_space
  local_space_index : Nat
  local_floor_space_index : Nat
  local_space_overseer_index : Nat
  local_floor_space_overseer_index : Nat
  imc_ipc_handle : xrt_ipc_handle_t := none
  plane_detection_size : Nat := 0
  plane_detection_count : Nat := 0
  plane_detection_ids : Nat → Nat := fun _ => 0
  plane_detection_xdev : Nat → Option xrt_device := fun _ => none

/-- The persistent tables of `struct xrt_space_overseer` the handlers use. -/
structure xrt_space_overseer where
  semantic_root : Option xrt_space
  semantic_view : Option xrt_space
  semantic_stage : Option xrt_space
  semantic_unbounded : Option xrt_space
  localspace : Nat → Option xrt_space
  localfloorspace : Nat → Option xrt_space

/-- The fields of `struct ipc_shared_tracking_origin` other than the name and the
offset. -/
structure ipc_shared_tracking_origin where
  type : Nat
deriving DecidableEq, Repr

/-- The `struct ipc_shared_binding_profile` of `ipc_protocol.h`. -/
structure ipc_shared_binding_profile where
  name : Nat
  input_count : Nat
  first_input_index : Nat
  output_count : Nat
  first_output_index : Nat
deriving DecidableEq, Repr

/-- The `struct ipc_shared_device` of `ipc_protocol.h`, without the strings and the
`supported` flags. -/
structure ipc_shared_device where
  name : Nat
  device_type : Nat
  tracking_origin_index : Nat
  binding_profile_count : Nat
  first_binding_profile_index : Nat
  input_count : Nat
  first_input_index : Nat
  output_count : Nat
  first_output_index : Nat
deriving DecidableEq, Repr

/-- The device part of `struct ipc_shared_memory` (`ipc_protocol.h`): the tracking
origins, the device descriptors and the arrays their index ranges point into. -/
structure ipc_shared_memory where
  itrack_count : Nat
  itracks : Nat → ipc_shared_tracking_origin
  isdev_count : Nat
  isdevs : Nat → ipc_shared_device
  inputs : Nat → xrt_input
  outputs : Nat → xrt_output
  binding_profiles : Nat → ipc_shared_binding_profile
  input_pairs : Nat → xrt_binding_input_pair
  output_pairs : Nat → xrt_binding_output_pair

/-- A zeroed `struct ipc_shared_device`. -/
def ipc_shared_device.zero : ipc_shared_device :=
  { name := 0, device_type := 0, tracking_origin_index := 0, binding_profile_count := 0,
    first_binding_profile_index := 0, input_count := 0, first_input_index := 0,
    output_count := 0, first_output_index := 0 }

/-- A zeroed shared memory block. -/
def ipc_shared_memory.zero : ipc_shared_memory :=
  { itrack_count := 0
    itracks := fun _ => { type := 0 }
    isdev_count := 0
    isdevs := fun _ => ipc_shared_device.zero
    inputs := fun _ => { active := false, timestamp := 0, name := 0, value := 0 }
    outputs := fun _ => { name := 0 }
    binding_profiles := fun _ =>
      { name := 0, input_count := 0, first_input_index := 0, output_count := 0,
        first_output_index := 0 }
    input_pairs := fun _ => { from_name := 0, device_name := 0 }
    output_pairs := fun _ => { from_name := 0, device_name := 0 } }

/-- The fields of `struct ipc_server` the modelled code uses; `threads i` is
`s->threads[i].ics`, the three `*_client_*` fields are `s->global_state`,
`slots` is `s->ism->slots`, `has_xsysc` tells whether the system has a system
compositor, `calls` is the record of the collaborator calls made so far,
`thread_state i` is `s->threads[i].state`, `ism` is the device part of `s->ism`, and
`idevs i` and `idevs_io_active i` are the members `xdev` and `io_active` of
`s->idevs[i]`. -/
structure ipc_server where
  threads : Nat → ipc_client_state
  active_client_index : Int
  last_active_client_index : Int
  connected_client_count : Nat
  current_slot_index : Nat
  id_generator : Nat
  idevs : Nat → Option xrt_device
  xso : xrt_space_overseer
  slots : Nat → ipc_layer_slot
  has_xsysc : Bool
  calls : List xrt_call
  thread_state : Nat → ipc_thread_state := fun _ => .IPC_THREAD_READY
  xtracks : Nat → Option xrt_tracking_origin := fun _ => none
  ism : ipc_shared_memory := ipc_shared_memory.zero
  idevs_io_active : Nat → Bool := fun _ => false

/-- Store `ics` back into thread slot `t` of the server. -/
def ipc_server.set_ics (s : ipc_server) (t : Nat) (ics : ipc_client_state) : ipc_server :=
  { s with threads := Function.update s.threads t ics }

/-- Record one collaborator call. -/
def ipc_server.call (s : ipc_server) (c : xrt_call) : ipc_server :=
  { s with calls := s.calls ++ [c] }

/-- A zeroed `struct ipc_app_state`. -/
def ipc_app_state.zero : ipc_app_state :=
  { id := 0, primary_application := false, session_active := false, session_visible := false,
    session_focused := false, session_overlay := false, io_active := false, z_order := 0 }

/-- A zeroed `struct ipc_client_state` (`U_ZERO`, or the `calloc` of the server). -/
def ipc_client_state.zero : ipc_client_state :=
  { xs := none, xc := none, client_state := ipc_app_state.zero, io_active := false,
    server_thread_index := 0, swapchain_count := 0,
    xscs := fun _ => none,
    swapchain_data := fun _ =>
      { active := false, width := 0, height := 0, format := 0, image_count := 0 },
    xspcs := fun _ => none,
    local_space_index := 0, local_floor_space_index := 0,
    local_space_overseer_index := 0, local_floor_space_overseer_index := 0 }

/-! ## Swapchain table (`ipc_server_handler.c`) -/

/-- The scan every handle table of the source uses,
`for (; index < capacity; index++) { if (is_free(index)) { break; } }`, started at
`index`; the value is `index` when the loop ends. The loop body runs at most `capacity`
times, which is the `fuel` the callers give it. -/
def first_free_loop (capacity : Nat) (is_free : Nat → Bool) : Nat → Nat → Nat
  | 0, index => index
  | fuel + 1, index =>
    if index < capacity then
      if is_free index then index
      else first_free_loop capacity is_free fuel (index + 1)
    else index

/-- The scan from index 0 over the whole table. -/
def first_free (capacity : Nat) (is_free : Nat → Bool) : Nat :=
  first_free_loop capacity is_free capacity 0

/-- The function `validate_swapchain_state`: the first index whose `swapchain_data`
entry is not active, or `XRT_ERROR_IPC_FAILURE` when the scan reaches the capacity. The
capacity `IPC_MAX_CLIENT_SWAPCHAINS` is declared in `ipc_server.h` and is an argument. -/
def validate_swapchain_state (IPC_MAX_CLIENT_SWAPCHAINS : Nat) (ics : ipc_client_state) :
    Except xrt_result_t Nat :=
  let index := first_free IPC_MAX_CLIENT_SWAPCHAINS (fun i => !(ics.swapchain_data i).active)
  if index ≥ IPC_MAX_CLIENT_SWAPCHAINS then .error XRT_ERROR_IPC_FAILURE
  else .ok index

/-- The function `set_swapchain_info`. -/
def set_swapchain_info (ics : ipc_client_state) (index : Nat) (info : xrt_swapchain_create_info)
    (xsc : xrt_swapchain) : ipc_client_state :=
  { ics with
    xscs := Function.update ics.xscs index (some xsc)
    swapchain_data := Function.update ics.swapchain_data index
      { active := true, width := info.width, height := info.height, format := info.format,
        image_count := xsc.image_count } }

/-- The handler `ipc_handle_swapchain_create`. The pair `(comp_xret, comp_xsc)` is what
`xrt_comp_create_swapchain` answers when it is called; the outputs are `out_id` and
`out_image_count`. -/
def ipc_handle_swapchain_create (IPC_MAX_CLIENT_SWAPCHAINS : Nat) (s : ipc_server) (t : Nat)
    (info : xrt_swapchain_create_info) (comp_xret : xrt_result_t) (comp_xsc : xrt_swapchain) :
    xrt_result_t × Option (Nat × Nat) × ipc_server :=
  let ics := s.threads t
  match validate_swapchain_state IPC_MAX_CLIENT_SWAPCHAINS ics with
  | .error xret => (xret, none, s)
  | .ok index =>
    let s1 := s.call (.comp_create_swapchain ics.xc info)
    if comp_xret ≠ XRT_SUCCESS then (comp_xret, none, s1)
    else
      let ics1 := { ics with swapchain_count := (ics.swapchain_count + 1) % UINT32_SIZE }
      let ics2 := set_swapchain_info ics1 index info comp_xsc
      (XRT_SUCCESS, some (index, comp_xsc.image_count), s1.set_ics t ics2)

/-- The handler `ipc_handle_swapchain_import`; `(comp_xret, comp_xsc)` is what
`xrt_comp_import_swapchain` answers when it is called; the output is `out_id`. -/
def ipc_handle_swapchain_import (IPC_MAX_CLIENT_SWAPCHAINS : Nat) (s : ipc_server) (t : Nat)
    (info : xrt_swapchain_create_info) (handle_count : Nat)
    (comp_xret : xrt_result_t) (comp_xsc : xrt_swapchain) :
    xrt_result_t × Option Nat × ipc_server :=
  let ics := s.threads t
  match validate_swapchain_state IPC_MAX_CLIENT_SWAPCHAINS ics with
  | .error xret => (xret, none, s)
  | .ok index =>
    let s1 := s.call (.comp_import_swapchain ics.xc info handle_count)
    if comp_xret ≠ XRT_SUCCESS then (comp_xret, none, s1)
    else
      let ics1 := { ics with swapchain_count := (ics.swapchain_count + 1) % UINT32_SIZE }
      let ics2 := set_swapchain_info ics1 index info comp_xsc
      (XRT_SUCCESS, some index, s1.set_ics t ics2)

/-- The helper `xrt_swapchain_reference(&ics->xscs[id], NULL)`: drops the reference the
entry holds, if any, and clears the entry. -/
def xrt_swapchain_reference_null (s : ipc_server) (t : Nat) (id : Nat) : ipc_server :=
  let ics := s.threads t
  let s1 := match ics.xscs id with
    | some xsc => s.call (.swapchain_unref xsc)
    | none => s
  s1.set_ics t { ics with xscs := Function.update ics.xscs id none }

/-- The handler `ipc_handle_swapchain_destroy`, for an `id` inside the table (the source
does not compare `id` with the capacity). -/
def ipc_handle_swapchain_destroy (s : ipc_server) (t : Nat) (id : Nat) :
    xrt_result_t × ipc_server :=
  let ics := s.threads t
  if ics.xc = none then (XRT_ERROR_IPC_SESSION_NOT_CREATED, s)
  else
    let s1 := s.set_ics t
      { ics with swapchain_count := (ics.swapchain_count + UINT32_SIZE - 1) % UINT32_SIZE }
    let s2 := xrt_swapchain_reference_null s1 t id
    let ics2 := s2.threads t
    let s3 := s2.set_ics t
      { ics2 with
        swapchain_data := Function.update ics2.swapchain_data id
          { (ics2.swapchain_data id) with active := false } }
    (XRT_SUCCESS, s3)

/-- The number of indices below `n` whose `swapchain_data` entry is active. -/
def active_swapchains (ics : ipc_client_state) : Nat → Nat
  | 0 => 0
  | n + 1 => active_swapchains ics n + (if (ics.swapchain_data n).active then 1 else 0)

/-! ## Space table (`ipc_server_handler.c`) -/

/-- The function `validate_space_id`; `space_id` is an `int64_t`, and the capacity
`IPC_MAX_CLIENT_SPACES` is declared in `ipc_server.h` and is an argument. -/
def validate_space_id (IPC_MAX_CLIENT_SPACES : Nat) (ics : ipc_client_state) (space_id : Int) :
    Except xrt_result_t xrt_space :=
  if space_id < 0 then .error XRT_ERROR_IPC_FAILURE
  else if space_id ≥ (IPC_MAX_CLIENT_SPACES : Int) then .error XRT_ERROR_IPC_FAILURE
  else
    match ics.xspcs space_id.toNat with
    | none => .error XRT_ERROR_IPC_FAILURE
    | some xspc => .ok xspc

/-- The function `get_new_space_id`. -/
def get_new_space_id (IPC_MAX_CLIENT_SPACES : Nat) (ics : ipc_client_state) :
    Except xrt_result_t Nat :=
  let index := first_free IPC_MAX_CLIENT_SPACES (fun i => (ics.xspcs i).isNone)
  if index ≥ IPC_MAX_CLIENT_SPACES then .error XRT_ERROR_IPC_FAILURE
  else .ok index

/-- The function `track_space`: `xrt_space_reference(&ics->xspcs[id], xs)` on the free
entry `id` stores `xs` there. -/
def track_space (IPC_MAX_CLIENT_SPACES : Nat) (ics : ipc_client_state) (xs : Option xrt_space) :
    Except xrt_result_t Nat × ipc_client_state :=
  match get_new_space_id IPC_MAX_CLIENT_SPACES ics with
  | .error xret => (.error xret, ics)
  | .ok id => (.ok id, { ics with xspcs := Function.update ics.xspcs id xs })

/-- The handler `ipc_handle_space_create_offset`; `(xso_xret, xso_xs)` is what
`xrt_space_overseer_create_offset_space` answers when it is called, and the second
component of the result is `*out_space_id` when it is written. -/
def ipc_handle_space_create_offset (IPC_MAX_CLIENT_SPACES : Nat) (s : ipc_server) (t : Nat)
    (parent_id : Nat) (xso_xret : xrt_result_t) (xso_xs : xrt_space) :
    xrt_result_t × Option Nat × ipc_server :=
  match validate_space_id IPC_MAX_CLIENT_SPACES (s.threads t) parent_id with
  | .error xret => (xret, none, s)
  | .ok parent =>
    let s1 := s.call (.space_overseer_create_offset_space parent)
    if xso_xret ≠ XRT_SUCCESS then (xso_xret, none, s1)
    else
      let r := track_space IPC_MAX_CLIENT_SPACES (s1.threads t) (some xso_xs)
      let s2 := (s1.set_ics t r.2).call (.space_unref xso_xs)
      match r.1 with
      | .error xret => (xret, none, s2)
      | .ok space_id => (XRT_SUCCESS, some space_id, s2)

/-- The handler `ipc_handle_space_locate_space`; `xso_xret` is what
`xrt_space_overseer_locate_space` answers when it is called. -/
def ipc_handle_space_locate_space (IPC_MAX_CLIENT_SPACES : Nat) (s : ipc_server) (t : Nat)
    (base_space_id : Nat) (space_id : Nat) (xso_xret : xrt_result_t) :
    xrt_result_t × ipc_server :=
  match validate_space_id IPC_MAX_CLIENT_SPACES (s.threads t) base_space_id with
  | .error xret => (xret, s)
  | .ok base_space =>
    match validate_space_id IPC_MAX_CLIENT_SPACES (s.threads t) space_id with
    | .error xret => (xret, s)
    | .ok space => (xso_xret, s.call (.space_overseer_locate_space base_space space))

/-- The call `xrt_space_reference(dst, NULL)` on a table entry holding `old`: the
reference is dropped when there is one. -/
def xrt_space_reference_null (s : ipc_server) (old : Option xrt_space) : ipc_server :=
  match old with
  | some xs => s.call (.space_unref xs)
  | none => s

/-- The handler `ipc_handle_space_destroy`. -/
def ipc_handle_space_destroy (IPC_MAX_CLIENT_SPACES : Nat) (s : ipc_server) (t : Nat)
    (space_id : Nat) : xrt_result_t × ipc_server :=
  let ics := s.threads t
  match validate_space_id IPC_MAX_CLIENT_SPACES ics space_id with
  | .error xret => (xret, s)
  | .ok _ =>
    let s1 := (xrt_space_reference_null s (ics.xspcs space_id)).set_ics t
      { ics with xspcs := Function.update ics.xspcs space_id none }
    let s2 :=
      if space_id = ics.local_space_index then
        let s1a := xrt_space_reference_null s1 (s1.xso.localspace ics.local_space_overseer_index)
        { s1a with xso := { s1a.xso with
            localspace := Function.update s1a.xso.localspace ics.local_space_overseer_index none } }
      else s1
    let s3 :=
      if space_id = ics.local_floor_space_index then
        let s2a := xrt_space_reference_null s2
          (s2.xso.localfloorspace ics.local_floor_space_overseer_index)
        { s2a with xso := { s2a.xso with
            localfloorspace :=
              Function.update s2a.xso.localfloorspace ics.local_floor_space_overseer_index none } }
      else s2
    (XRT_SUCCESS, s3)

/-! ## Layer submission (`ipc_server_handler.c`) -/

/-- Modelled from the spec: `get_xdev` is declared in `ipc_server.h`, which is not among
the sources; a layer's device id is resolved against the server's device table, the
lookup `ics->server->idevs[device_id].xdev` that `validate_device_id` also makes. -/
def get_xdev (s : ipc_server) (device_id : Nat) : Option xrt_device :=
  s.idevs device_id

/-- The loop of `_update_projection_layer` over `k < view_count`: collects
`ics->xscs[layer->swapchain_ids[k]]`, `none` on the first empty entry. -/
def _update_projection_layer_loop (ics : ipc_client_state) (layer : ipc_layer_entry)
    (view_count : Nat) : Nat → Nat → List xrt_swapchain → Option (List xrt_swapchain)
  | 0, _, xcs => some xcs
  | fuel + 1, k, xcs =>
    if k < view_count then
      match ics.xscs (layer.swapchain_ids k) with
      | none => none
      | some xsc => _update_projection_layer_loop ics layer view_count fuel (k + 1) (xcs ++ [xsc])
    else some xcs

/-- The function `_update_projection_layer`. -/
def _update_projection_layer (s : ipc_server) (t : Nat) (xc : xrt_compositor)
    (layer : ipc_layer_entry) : Bool × ipc_server :=
  match get_xdev s layer.xdev_id with
  | none => (false, s)
  | some xdev =>
    match _update_projection_layer_loop (s.threads t) layer xdev.view_count xdev.view_count 0 [] with
    | none => (false, s)
    | some xcs => (true, s.call (.comp_layer_projection xc xdev xcs))

/-- The loop of `_update_projection_layer_depth` over `j < data->view_count`: collects the
colour and depth swapchains, `none` on the first empty entry. -/
def _update_projection_layer_depth_loop (ics : ipc_client_state) (layer : ipc_layer_entry) :
    Nat → Nat → List xrt_swapchain → List xrt_swapchain →
      Option (List xrt_swapchain × List xrt_swapchain)
  | 0, _, xcs, d_xcs => some (xcs, d_xcs)
  | fuel + 1, j, xcs, d_xcs =>
    if j < layer.data.view_count then
      match ics.xscs (layer.swapchain_ids j),
        ics.xscs (layer.swapchain_ids (j + layer.data.view_count)) with
      | some xsc, some d_xsc =>
        _update_projection_layer_depth_loop ics layer fuel (j + 1) (xcs ++ [xsc]) (d_xcs ++ [d_xsc])
      | _, _ => none
    else some (xcs, d_xcs)

/-- The function `_update_projection_layer_depth`. -/
def _update_projection_layer_depth (s : ipc_server) (t : Nat) (xc : xrt_compositor)
    (layer : ipc_layer_entry) : Bool × ipc_server :=
  match get_xdev s layer.xdev_id with
  | none => (false, s)
  | some xdev =>
    match _update_projection_layer_depth_loop (s.threads t) layer layer.data.view_count 0 [] [] with
    | none => (false, s)
    | some (xcs, d_xcs) => (true, s.call (.comp_layer_projection_depth xc xdev xcs d_xcs))

/-- The function `do_single`: the device and the swapchain `swapchain_ids[0]` of a
one-swapchain layer, `none` when either is missing. -/
def do_single (s : ipc_server) (t : Nat) (layer : ipc_layer_entry) :
    Option (xrt_device × xrt_swapchain) :=
  let xdev := get_xdev s layer.xdev_id
  let xcs := (s.threads t).xscs (layer.swapchain_ids 0)
  match xcs with
  | none => none
  | some xsc =>
    match xdev with
    | none => none
    | some xd => some (xd, xsc)

/-- The functions `_update_quad_layer`, `_update_cube_layer`, `_update_cylinder_layer`,
`_update_equirect1_layer` and `_update_equirect2_layer`, which differ in the compositor
call they make. -/
def _update_single_layer (kind : single_layer_kind) (s : ipc_server) (t : Nat)
    (xc : xrt_compositor) (layer : ipc_layer_entry) : Bool × ipc_server :=
  match do_single s t layer with
  | none => (false, s)
  | some (xdev, xcs) => (true, s.call (.comp_layer_single kind xc xdev xcs))

/-- The function `_update_passthrough_layer`. -/
def _update_passthrough_layer (s : ipc_server) (xc : xrt_compositor)
    (layer : ipc_layer_entry) : Bool × ipc_server :=
  match get_xdev s layer.xdev_id with
  | none => (false, s)
  | some xdev => (true, s.call (.comp_layer_passthrough xc xdev))

/-- The `switch` of `_update_layers` for one layer; an unhandled type is logged and
counts as handled. -/
def _update_layer (s : ipc_server) (t : Nat) (xc : xrt_compositor) (layer : ipc_layer_entry) :
    Bool × ipc_server :=
  match layer.data.type with
  | XRT_LAYER_PROJECTION => _update_projection_layer s t xc layer
  | XRT_LAYER_PROJECTION_DEPTH => _update_projection_layer_depth s t xc layer
  | XRT_LAYER_QUAD => _update_single_layer .quad s t xc layer
  | XRT_LAYER_CUBE => _update_single_layer .cube s t xc layer
  | XRT_LAYER_CYLINDER => _update_single_layer .cylinder s t xc layer
  | XRT_LAYER_EQUIRECT1 => _update_single_layer .equirect1 s t xc layer
  | XRT_LAYER_EQUIRECT2 => _update_single_layer .equirect2 s t xc layer
  | XRT_LAYER_PASSTHROUGH => _update_passthrough_layer s xc layer
  | OTHER _ => (true, s)

/-- The loop of `_update_layers` over `i < slot->layer_count`, stopping with `false` at
the first layer whose update fails. -/
def _update_layers_loop (t : Nat) (xc : xrt_compositor) (slot : ipc_layer_slot) :
    Nat → Nat → ipc_server → Bool × ipc_server
  | 0, _, s => (true, s)
  | fuel + 1, i, s =>
    if i < slot.layer_count then
      match _update_layer s t xc (slot.layers i) with
      | (false, s1) => (false, s1)
      | (true, s1) => _update_layers_loop t xc slot fuel (i + 1) s1
    else (true, s)

/-- The function `_update_layers`. -/
def _update_layers (s : ipc_server) (t : Nat) (xc : xrt_compositor) (slot : ipc_layer_slot) :
    Bool × ipc_server :=
  _update_layers_loop t xc slot slot.layer_count 0 s

/-- The loop of `ipc_handle_compositor_layer_sync` that releases every sync handle after
the first one. -/
def layer_sync_unref_rest (s : ipc_server) : List xrt_graphics_sync_handle_t → ipc_server
  | [] => s
  | h :: rest => layer_sync_unref_rest (s.call (.graphics_sync_unref h)) rest

/-- The handler `ipc_handle_compositor_layer_sync`; `handles` are the `handle_count` sync
handles, and the second component of the result is `*out_free_slot_id` when it is
written. The value `_update_layers` returns is not used by the handler. -/
def ipc_handle_compositor_layer_sync (s : ipc_server) (t : Nat) (slot_id : Nat)
    (handles : List xrt_graphics_sync_handle_t) : xrt_result_t × Option Nat × ipc_server :=
  match (s.threads t).xc with
  | none => (XRT_ERROR_IPC_SESSION_NOT_CREATED, none, s)
  | some xc =>
    let sync_handle : xrt_graphics_sync_handle_t := handles.head?.getD none
    let s1 := layer_sync_unref_rest s handles.tail
    let copy := s1.slots slot_id
    let s2 := s1.call (.comp_layer_begin xc)
    let s3 := (_update_layers s2 t xc copy).2
    let s4 := s3.call (.comp_layer_commit xc sync_handle)
    let out_free_slot_id := ((s4.current_slot_index + 1) % UINT32_SIZE) % IPC_MAX_SLOTS
    (XRT_SUCCESS, some out_free_slot_id, { s4 with current_slot_index := out_free_slot_id })

/-- The function `init_server_state` of `ipc_server_process.c`, on the zeroed server that
`ipc_server_main` allocates. -/
def init_server_state (s : ipc_server) : ipc_server :=
  { s with
    active_client_index := -1
    last_active_client_index := -1
    connected_client_count := 0
    current_slot_index := 0
    threads := fun i =>
      if i < IPC_MAX_CLIENTS then { s.threads i with server_thread_index := -1 }
      else s.threads i }

/-! ## Session lifecycle (`u_system.c`, `ipc_server_handler.c`) -/

/-- The function `create_session` of `u_system.c`. `want_xcn` tells whether the caller
passes an `out_xcn` that is not `NULL`; `new_xs` is the session `u_session_create` makes and
`(native_xret, native_xcn)` is what `xrt_syscomp_create_native_compositor` answers when it
is called. The result holds `*out_xs` and `*out_xcn` as far as they are written. -/
def create_session (s : ipc_server) (xsi : xrt_session_info) (want_xcn : Bool)
    (new_xs : xrt_session) (native_xret : xrt_result_t) (native_xcn : xrt_compositor) :
    xrt_result_t × Option xrt_session × Option xrt_compositor × ipc_server :=
  if want_xcn && !s.has_xsysc then (XRT_ERROR_COMPOSITOR_NOT_SUPPORTED, none, none, s)
  else
    let s1 := s.call .u_session_create
    if !want_xcn then (XRT_SUCCESS, some new_xs, none, s1)
    else
      let s2 := s1.call (.syscomp_create_native_compositor xsi)
      if native_xret ≠ XRT_SUCCESS then (native_xret, none, none, s2)
      else (XRT_SUCCESS, some new_xs, some native_xcn, s2)

/-- The handler `ipc_handle_session_create`. The flag `create_native_compositor` is only
logged ("App asked for headless session, creating native compositor anyways"): the system
is always handed `&xcn`. -/
def ipc_handle_session_create (s : ipc_server) (t : Nat) (xsi : xrt_session_info)
    (_create_native_compositor : Bool)
    (new_xs : xrt_session) (native_xret : xrt_result_t) (native_xcn : xrt_compositor) :
    xrt_result_t × ipc_server :=
  let ics := s.threads t
  if ics.xs ≠ none then (XRT_ERROR_IPC_SESSION_ALREADY_CREATED, s)
  else
    match create_session s xsi true new_xs native_xret native_xcn with
    | (xret, xs, xcn, s1) =>
      if xret ≠ XRT_SUCCESS then (xret, s1)
      else
        let ics1 := s1.threads t
        let ics2 := { ics1 with
          client_state := { ics1.client_state with
            session_overlay := xsi.is_overlay
            z_order := xsi.z_order % UINT32_SIZE }
          xs := xs
          xc := xcn }
        let s2 := s1.set_ics t ics2
        let s3 := s2.call (.syscomp_set_state ics2.xc ics2.client_state.session_visible
          ics2.client_state.session_focused)
        let s4 := s3.call (.syscomp_set_z_order ics2.xc ics2.client_state.z_order)
        (XRT_SUCCESS, s4)

/-- Modelled from the spec: `ipc_server_client_destroy_session_and_compositor` is defined
in `ipc_server_per_client_thread.c`, which is not among the sources. Per the spec,
`destroy_session` "releases the compositor and session together": both references are
dropped and both pointers of the client are cleared. -/
def ipc_server_client_destroy_session_and_compositor (s : ipc_server) (t : Nat) : ipc_server :=
  let ics := s.threads t
  let s1 := match ics.xc with
    | some xc => s.call (.comp_destroy xc)
    | none => s
  let s2 := match ics.xs with
    | some xs => s1.call (.session_destroy xs)
    | none => s1
  s2.set_ics t { ics with xc := none, xs := none }

/-- The handler `ipc_handle_session_destroy`. -/
def ipc_handle_session_destroy (s : ipc_server) (t : Nat) : xrt_result_t × ipc_server :=
  if (s.threads t).xs = none then (XRT_ERROR_IPC_SESSION_NOT_CREATED, s)
  else (XRT_SUCCESS, ipc_server_client_destroy_session_and_compositor s t)

/-! ## Arbitration (`ipc_server_process.c`) -/

/-- The function `handle_overlay_client_events` on the client in thread slot `t`. -/
def handle_overlay_client_events (s : ipc_server) (t : Nat) (active_id : Int)
    (prev_active_id : Int) : ipc_server :=
  let ics := s.threads t
  if !ics.client_state.session_overlay then s
  else if ics.xc = none then s
  else
    let s1 :=
      if active_id ≥ 0 ∧ prev_active_id ≥ 0 then
        (s.call (.syscomp_set_main_app_visibility ics.xc false)).call
          (.syscomp_set_main_app_visibility ics.xc true)
      else s
    let s2 :=
      if active_id ≥ 0 ∧ prev_active_id < 0 then
        s1.call (.syscomp_set_main_app_visibility ics.xc true)
      else s1
    if active_id < 0 ∧ prev_active_id ≥ 0 then
      s2.call (.syscomp_set_main_app_visibility ics.xc false)
    else s2

/-- The function `handle_focused_client_events` on the client in thread slot `t`. The
local `z_order` is an `int64_t`; it is stored into the `uint32_t` field of the client
state and handed as it is to the system compositor. -/
def handle_focused_client_events (s : ipc_server) (t : Nat) (active_id : Int)
    (_prev_active_id : Int) : ipc_server :=
  let ics := s.threads t
  let z_order : Int := INT64_MIN
  let focused := false
  let visible := false
  let (visible, focused, z_order) :=
    if ics.server_thread_index = active_id then (true, true, INT64_MIN)
    else (visible, focused, z_order)
  let (visible, focused, z_order) :=
    if ics.client_state.session_overlay then (true, true, (ics.client_state.z_order : Int))
    else (visible, focused, z_order)
  let ics1 := { ics with
    client_state := { ics.client_state with
      session_visible := visible
      session_focused := focused
      z_order := to_uint32 z_order } }
  let s1 := s.set_ics t ics1
  if ics1.xc ≠ none then
    (s1.call (.syscomp_set_state ics1.xc visible focused)).call
      (.syscomp_set_z_order ics1.xc z_order)
  else s1

/-- The loop of `flush_state_to_all_clients_locked` over `i < IPC_MAX_CLIENTS`. -/
def flush_state_to_all_clients_locked_loop : Nat → Nat → ipc_server → ipc_server
  | 0, _, s => s
  | fuel + 1, i, s =>
    if i < IPC_MAX_CLIENTS then
      let s1 :=
        if (s.threads i).server_thread_index < 0 then s
        else
          handle_overlay_client_events
            (handle_focused_client_events s i s.active_client_index s.last_active_client_index)
            i s.active_client_index s.last_active_client_index
      flush_state_to_all_clients_locked_loop fuel (i + 1) s1
    else s

/-- The function `flush_state_to_all_clients_locked`. -/
def flush_state_to_all_clients_locked (s : ipc_server) : ipc_server :=
  flush_state_to_all_clients_locked_loop IPC_MAX_CLIENTS 0 s

/-- `INT_MAX`. -/
def INT_MAX : Nat := 2147483647

/-- The loop of `find_client_locked` over `i < IPC_MAX_CLIENTS`: the first slot whose
client id is `client_id`, unless its connection handle is not valid. -/
def find_client_locked_loop (s : ipc_server) (client_id : Nat) : Nat → Nat → Option Nat
  | 0, _ => none
  | fuel + 1, i =>
    if i < IPC_MAX_CLIENTS then
      if (s.threads i).client_state.id ≠ client_id then
        find_client_locked_loop s client_id fuel (i + 1)
      else if (s.threads i).imc_ipc_handle = none then none
      else some i
    else none

/-- The function `find_client_locked`; the result is the thread slot of the client
found, `none` is `NULL`. -/
def find_client_locked (s : ipc_server) (client_id : Nat) : Option Nat :=
  if client_id = 0 ∨ client_id > INT_MAX then none
  else find_client_locked_loop s client_id IPC_MAX_CLIENTS 0

/-- The function `set_active_client_locked`. -/
def set_active_client_locked (s : ipc_server) (client_id : Nat) : xrt_result_t × ipc_server :=
  match find_client_locked s client_id with
  | none => (XRT_ERROR_IPC_FAILURE, s)
  | some i =>
    let index := (s.threads i).server_thread_index
    if index ≠ s.active_client_index then (XRT_SUCCESS, { s with active_client_index := index })
    else (XRT_SUCCESS, s)

/-- The function `ipc_server_set_active_client`. -/
def ipc_server_set_active_client (s : ipc_server) (client_id : Nat) : xrt_result_t × ipc_server :=
  set_active_client_locked s client_id

/-- The fallback search of `update_server_state_locked` over `i < IPC_MAX_CLIENTS`; the
state of the loop is the pair `(set_idle, fallback_active_application)`. Every match
overwrites the pair: the loop has no `break`. -/
def update_server_state_fallback_loop (s : ipc_server) : Nat → Nat → Bool × Int → Bool × Int
  | 0, _, acc => acc
  | fuel + 1, i, acc =>
    if i < IPC_MAX_CLIENTS then
      let ics := s.threads i
      let acc1 : Bool × Int :=
        if ics.client_state.session_overlay = false ∧ ics.server_thread_index ≥ 0 ∧
            ics.client_state.session_active = true then (false, (i : Int))
        else acc
      update_server_state_fallback_loop s fuel (i + 1) acc1
    else acc

/-- The function `update_server_state_locked`. -/
def update_server_state_locked (s : ipc_server) : ipc_server :=
  if s.active_client_index ≥ 0 ∧
      (s.threads s.active_client_index.toNat).client_state.session_active = true ∧
      s.active_client_index = s.last_active_client_index then s
  else
    let r := update_server_state_fallback_loop s IPC_MAX_CLIENTS 0 (true, -1)
    let set_idle := r.1
    let fallback_active_application := r.2
    let s1 :=
      if s.active_client_index ≥ 0 then
        let ics := s.threads s.active_client_index.toNat
        if ¬ (ics.client_state.session_overlay = false ∧ ics.client_state.session_active = true)
        then { s with active_client_index := fallback_active_application }
        else s
      else s
    let s2 := if set_idle then { s1 with active_client_index := -1 } else s1
    let s3 := flush_state_to_all_clients_locked s2
    { s3 with last_active_client_index := s3.active_client_index }

/-- The function `ipc_server_activate_session` on the client in thread slot `t` (the
source asserts `server_thread_index >= 0`). -/
def ipc_server_activate_session (s : ipc_server) (t : Nat) : ipc_server :=
  let ics := s.threads t
  if ics.client_state.session_active then s
  else
    let s1 := s.set_ics t
      { ics with client_state := { ics.client_state with session_active := true } }
    if (s1.threads t).client_state.session_overlay then
      handle_overlay_client_events
        (handle_focused_client_events s1 t s1.active_client_index s1.last_active_client_index)
        t s1.active_client_index s1.last_active_client_index
    else
      let s2 := (set_active_client_locked s1 (s1.threads t).client_state.id).2
      update_server_state_locked s2

/-- The function `ipc_server_deactivate_session` on the client in thread slot `t`. -/
def ipc_server_deactivate_session (s : ipc_server) (t : Nat) : ipc_server :=
  let ics := s.threads t
  let s1 := s.set_ics t
    { ics with client_state := { ics.client_state with session_active := false } }
  update_server_state_locked s1

/-- The function `ipc_server_update_state`. -/
def ipc_server_update_state (s : ipc_server) : ipc_server :=
  update_server_state_locked s

/-- The handler `ipc_handle_compositor_predict_frame`; `comp_xret` is what
`xrt_comp_predict_frame` answers. -/
def ipc_handle_compositor_predict_frame (s : ipc_server) (t : Nat) (comp_xret : xrt_result_t) :
    xrt_result_t × ipc_server :=
  if (s.threads t).xc = none then (XRT_ERROR_IPC_SESSION_NOT_CREATED, s)
  else
    let s1 := ipc_server_activate_session s t
    (comp_xret, s1.call (.comp_predict_frame (s1.threads t).xc))

/-- The function `ipc_server_handle_client_connected`. The scan looks for the first
thread slot whose `server_thread_index` is negative; the connected-client counter is
incremented before the scan. -/
def ipc_server_handle_client_connected (vs : ipc_server) (ipc_handle : xrt_ipc_handle_t) :
    ipc_server :=
  let vs1 := { vs with
    connected_client_count := (vs.connected_client_count + 1) % UINT32_SIZE }
  let cs_index := first_free IPC_MAX_CLIENTS (fun i => decide ((vs1.threads i).server_thread_index < 0))
  if cs_index ≥ IPC_MAX_CLIENTS then vs1.call (.ipc_handle_close ipc_handle)
  else if vs1.thread_state cs_index ≠ ipc_thread_state.IPC_THREAD_READY ∧
      vs1.thread_state cs_index ≠ ipc_thread_state.IPC_THREAD_STOPPING then
    vs1.call (.ipc_handle_close ipc_handle)
  else
    let vs2 :=
      if vs1.thread_state cs_index ≠ ipc_thread_state.IPC_THREAD_READY then
        { (vs1.call (.os_thread_join cs_index)) with
          thread_state := Function.update vs1.thread_state cs_index ipc_thread_state.IPC_THREAD_READY }
      else vs1
    let vs3 := { vs2 with
      thread_state := Function.update vs2.thread_state cs_index ipc_thread_state.IPC_THREAD_STARTING }
    let id := (vs3.id_generator + 1) % UINT32_SIZE
    let vs4 := { vs3 with id_generator := id }
    let ics := { ipc_client_state.zero with
      client_state := { ipc_app_state.zero with id := id }
      imc_ipc_handle := ipc_handle
      server_thread_index := (cs_index : Int)
      io_active := true }
    (vs4.set_ics cs_index ics).call (.os_thread_start cs_index)

/-- `UINT32_MAX`. -/
def UINT32_MAX : Nat := 4294967295

/-- The function `get_new_localspace_id` on the client in thread slot `t`. The four scans
run in the order of the source and each index is stored in the client state as soon as it
is found, before the later scans; the result holds `*out_local_id` and
`*out_local_floor_id` on success. -/
def get_new_localspace_id (IPC_MAX_CLIENT_SPACES : Nat) (s : ipc_server) (t : Nat) :
    Except xrt_result_t (Nat × Nat) × ipc_server :=
  let index := first_free IPC_MAX_CLIENT_SPACES (fun i => (s.xso.localspace i).isNone)
  if index ≥ IPC_MAX_CLIENT_SPACES then (.error XRT_ERROR_IPC_FAILURE, s)
  else
    let s1 := s.set_ics t { (s.threads t) with local_space_overseer_index := index }
    let index := first_free IPC_MAX_CLIENT_SPACES (fun i => ((s1.threads t).xspcs i).isNone)
    if index ≥ IPC_MAX_CLIENT_SPACES then (.error XRT_ERROR_IPC_FAILURE, s1)
    else
      let s2 := s1.set_ics t { (s1.threads t) with local_space_index := index }
      let out_local_id := index
      let index := first_free IPC_MAX_CLIENT_SPACES (fun i => (s2.xso.localfloorspace i).isNone)
      if index ≥ IPC_MAX_CLIENT_SPACES then (.error XRT_ERROR_IPC_FAILURE, s2)
      else
        let s3 := s2.set_ics t { (s2.threads t) with local_floor_space_overseer_index := index }
        let index := first_free IPC_MAX_CLIENT_SPACES
          (fun i => ((s3.threads t).xspcs i).isNone && decide (i ≠ (s3.threads t).local_space_index))
        if index ≥ IPC_MAX_CLIENT_SPACES then (.error XRT_ERROR_IPC_FAILURE, s3)
        else
          let s4 := s3.set_ics t { (s3.threads t) with local_floor_space_index := index }
          (.ok (out_local_id, index), s4)

/-- The function `create_localspace`. `(xso_xret, local_xs, local_floor_xs)` is what
`xrt_space_overseer_create_local_space` answers when it is called: on success it has
stored the two new spaces in the two overseer entries it was handed, on failure it is
taken to leave them as they are. -/
def create_localspace (IPC_MAX_CLIENT_SPACES : Nat) (s : ipc_server) (t : Nat)
    (xso_xret : xrt_result_t) (local_xs local_floor_xs : xrt_space) :
    Except xrt_result_t (Nat × Nat) × ipc_server :=
  match get_new_localspace_id IPC_MAX_CLIENT_SPACES s t with
  | (.error xret, s1) => (.error xret, s1)
  | (.ok (local_id, local_floor_id), s1) =>
    let ics := s1.threads t
    let s2 := s1.call (.space_overseer_create_local_space ics.local_space_overseer_index
      ics.local_floor_space_overseer_index)
    if xso_xret ≠ XRT_SUCCESS then (.error xso_xret, s2)
    else
      let s3 := { s2 with xso := { s2.xso with
        localspace := Function.update s2.xso.localspace ics.local_space_overseer_index
          (some local_xs)
        localfloorspace := Function.update s2.xso.localfloorspace
          ics.local_floor_space_overseer_index (some local_floor_xs) } }
      let ics3 := s3.threads t
      let s4 := s3.set_ics t { ics3 with
        xspcs := Function.update ics3.xspcs local_id
          (s3.xso.localspace ics3.local_space_overseer_index) }
      let ics4 := s4.threads t
      let s5 := s4.set_ics t { ics4 with
        xspcs := Function.update ics4.xspcs local_floor_id
          (s4.xso.localfloorspace ics4.local_floor_space_overseer_index) }
      (.ok (local_id, local_floor_id), s5)

/-- The macro `CREATE(NAME)` of `ipc_handle_space_create_semantic_ids` for the semantic
space `semantic`: the id written to `*out_NAME_id` (`UINT32_MAX` when there is no such
space or no free entry) and the server afterwards. -/
def create_semantic_id (IPC_MAX_CLIENT_SPACES : Nat) (s : ipc_server) (t : Nat)
    (semantic : Option xrt_space) : Nat × ipc_server :=
  match semantic with
  | none => (UINT32_MAX, s)
  | some xs =>
    match track_space IPC_MAX_CLIENT_SPACES (s.threads t) (some xs) with
    | (.error _, _) => (UINT32_MAX, s)
    | (.ok id, ics) => (id, s.set_ics t ics)

/-- The ids `ipc_handle_space_create_semantic_ids` writes: the four semantic ids, which are
written in every case, and the local and local-floor ids, written on success only. -/
structure semantic_ids where
  root_id : Nat
  view_id : Nat
  stage_id : Nat
  unbounded_id : Nat
  local_ids : Option (Nat × Nat)
deriving DecidableEq, Repr

/-- The handler `ipc_handle_space_create_semantic_ids`: root, view, stage and unbounded
are tracked first, then the local spaces are created. -/
def ipc_handle_space_create_semantic_ids (IPC_MAX_CLIENT_SPACES : Nat) (s : ipc_server)
    (t : Nat) (xso_xret : xrt_result_t) (local_xs local_floor_xs : xrt_space) :
    xrt_result_t × semantic_ids × ipc_server :=
  let r_root := create_semantic_id IPC_MAX_CLIENT_SPACES s t s.xso.semantic_root
  let r_view := create_semantic_id IPC_MAX_CLIENT_SPACES r_root.2 t r_root.2.xso.semantic_view
  let r_stage := create_semantic_id IPC_MAX_CLIENT_SPACES r_view.2 t r_view.2.xso.semantic_stage
  let r_unbounded := create_semantic_id IPC_MAX_CLIENT_SPACES r_stage.2 t
    r_stage.2.xso.semantic_unbounded
  match create_localspace IPC_MAX_CLIENT_SPACES r_unbounded.2 t xso_xret local_xs
      local_floor_xs with
  | (.error xret, s1) =>
    (xret, { root_id := r_root.1, view_id := r_view.1, stage_id := r_stage.1,
             unbounded_id := r_unbounded.1, local_ids := none }, s1)
  | (.ok ids, s1) =>
    (XRT_SUCCESS, { root_id := r_root.1, view_id := r_view.1, stage_id := r_stage.1,
                    unbounded_id := r_unbounded.1, local_ids := some ids }, s1)

/-! ## Shared memory set-up (`ipc_server_process.c`) -/

/-- `IPC_SHARED_MAX_INPUTS` of `ipc_protocol.h`. -/
def IPC_SHARED_MAX_INPUTS : Nat := 1024

/-- `IPC_SHARED_MAX_OUTPUTS` of `ipc_protocol.h`. -/
def IPC_SHARED_MAX_OUTPUTS : Nat := 128

/-- `IPC_SHARED_MAX_BINDINGS` of `ipc_protocol.h`. -/
def IPC_SHARED_MAX_BINDINGS : Nat := 64

/-- The difference `a - b` of two `uint32_t`. -/
def uint32_sub (a b : Nat) : Nat := (a + UINT32_SIZE - b) % UINT32_SIZE

/-- The copy loops of `init_shm` and `handle_binding`,
`for (k = 0; k < count; k++) { dst[index++] = src[k]; }`, with `index` a `uint32_t`: the
array and the index afterwards. The source compares `index` with no capacity. -/
def copy_into {α : Type} (dst : Nat → α) (index : Nat) : List α → (Nat → α) × Nat
  | [] => (dst, index)
  | x :: rest => copy_into (Function.update dst index x) ((index + 1) % UINT32_SIZE) rest

/-- The function `handle_binding`; `isbp_index` is the index of `isbp` in
`ism->binding_profiles`, and the result holds the shared memory and the two pair indices
afterwards. -/
def handle_binding (ism : ipc_shared_memory) (xbp : xrt_binding_profile) (isbp_index : Nat)
    (input_pair_index output_pair_index : Nat) : ipc_shared_memory × Nat × Nat :=
  let isbp : ipc_shared_binding_profile := { (ism.binding_profiles isbp_index) with name := xbp.name }
  let input_pair_start := input_pair_index
  let r_in := copy_into ism.input_pairs input_pair_index xbp.inputs
  let input_pair_index := r_in.2
  let isbp : ipc_shared_binding_profile :=
    if input_pair_start ≠ input_pair_index then
      { isbp with
        input_count := uint32_sub input_pair_index input_pair_start
        first_input_index := input_pair_start }
    else isbp
  let output_pair_start := output_pair_index
  let r_out := copy_into ism.output_pairs output_pair_index xbp.outputs
  let output_pair_index := r_out.2
  let isbp : ipc_shared_binding_profile :=
    if output_pair_start ≠ output_pair_index then
      { isbp with
        output_count := uint32_sub output_pair_index output_pair_start
        first_output_index := output_pair_start }
    else isbp
  ({ ism with
      input_pairs := r_in.1
      output_pairs := r_out.1
      binding_profiles := Function.update ism.binding_profiles isbp_index isbp },
   input_pair_index, output_pair_index)

/-- The local variables of the device loop of `init_shm`, with the shared memory it
fills. -/
structure init_shm_state where
  ism : ipc_shared_memory
  count : Nat
  input_index : Nat
  output_index : Nat
  binding_index : Nat
  input_pair_index : Nat
  output_pair_index : Nat

/-- The binding loop of `init_shm` for one device: `handle_binding` on every binding
profile, into `ism->binding_profiles[binding_index++]`. -/
def init_shm_bindings (st : init_shm_state) : List xrt_binding_profile → init_shm_state
  | [] => st
  | xbp :: rest =>
    let r := handle_binding st.ism xbp st.binding_index st.input_pair_index
      st.output_pair_index
    init_shm_bindings
      { st with
        ism := r.1
        binding_index := (st.binding_index + 1) % UINT32_SIZE
        input_pair_index := r.2.1
        output_pair_index := r.2.2 } rest

/-- The tracking origin search of `init_shm` for one device: the first `k` below
`XRT_SYSTEM_MAX_DEVICES` with `xdev->tracking_origin == s->xtracks[k]`, or
`(uint32_t)-1`. -/
def init_shm_tracking_origin_index (XRT_SYSTEM_MAX_DEVICES : Nat)
    (xtracks : Nat → Option xrt_tracking_origin) (xdev : xrt_device) : Nat :=
  let k := first_free XRT_SYSTEM_MAX_DEVICES (fun k => decide (xdev.tracking_origin = xtracks k))
  if k < XRT_SYSTEM_MAX_DEVICES then k else UINT32_MAX

/-- The body of the device loop of `init_shm` for a device `xdev` that is not `NULL`: the
descriptor `ism->isdevs[count++]` is filled, then the bindings, the inputs and the
outputs are copied and their ranges recorded when they are not empty. -/
def init_shm_device (XRT_SYSTEM_MAX_DEVICES : Nat) (xtracks : Nat → Option xrt_tracking_origin)
    (st : init_shm_state) (xdev : xrt_device) : init_shm_state :=
  let isdev_index := st.count
  let count := (st.count + 1) % UINT32_SIZE
  let isdev : ipc_shared_device := { (st.ism.isdevs isdev_index) with
    name := xdev.name
    device_type := xdev.device_type
    tracking_origin_index :=
      init_shm_tracking_origin_index XRT_SYSTEM_MAX_DEVICES xtracks xdev }
  let st1 : init_shm_state := { st with
    count := count
    ism := { st.ism with isdevs := Function.update st.ism.isdevs isdev_index isdev } }
  let binding_start := st1.binding_index
  let st2 : init_shm_state := init_shm_bindings st1 xdev.binding_profiles
  let st3 : init_shm_state :=
    if binding_start ≠ st2.binding_index then
      { st2 with ism := { st2.ism with
          isdevs := Function.update st2.ism.isdevs isdev_index
            { (st2.ism.isdevs isdev_index) with
              binding_profile_count := uint32_sub st2.binding_index binding_start
              first_binding_profile_index := binding_start } } }
    else st2
  let input_start := st3.input_index
  let r_in := copy_into st3.ism.inputs st3.input_index xdev.inputs
  let st4 : init_shm_state := { st3 with input_index := r_in.2, ism := { st3.ism with inputs := r_in.1 } }
  let st5 : init_shm_state :=
    if input_start ≠ st4.input_index then
      { st4 with ism := { st4.ism with
          isdevs := Function.update st4.ism.isdevs isdev_index
            { (st4.ism.isdevs isdev_index) with
              input_count := uint32_sub st4.input_index input_start
              first_input_index := input_start } } }
    else st4
  let output_start := st5.output_index
  let r_out := copy_into st5.ism.outputs st5.output_index xdev.outputs
  let st6 : init_shm_state := { st5 with output_index := r_out.2, ism := { st5.ism with outputs := r_out.1 } }
  if output_start ≠ st6.output_index then
    { st6 with ism := { st6.ism with
        isdevs := Function.update st6.ism.isdevs isdev_index
          { (st6.ism.isdevs isdev_index) with
            output_count := uint32_sub st6.output_index output_start
            first_output_index := output_start } } }
  else st6

/-- The device loop of `init_shm` over `i < XRT_SYSTEM_MAX_DEVICES`; the second component
lists the devices handed to `xrt_device_update_inputs`, in order. -/
def init_shm_devices_loop (XRT_SYSTEM_MAX_DEVICES : Nat) (s : ipc_server) :
    Nat → Nat → init_shm_state × List xrt_call → init_shm_state × List xrt_call
  | 0, _, acc => acc
  | fuel + 1, i, acc =>
    if i < XRT_SYSTEM_MAX_DEVICES then
      match s.idevs i with
      | none => init_shm_devices_loop XRT_SYSTEM_MAX_DEVICES s fuel (i + 1) acc
      | some xdev =>
        init_shm_devices_loop XRT_SYSTEM_MAX_DEVICES s fuel (i + 1)
          (init_shm_device XRT_SYSTEM_MAX_DEVICES s.xtracks acc.1 xdev,
           acc.2 ++ [.device_update_inputs xdev])
    else acc

/-- The tracking origin loop of `init_shm` over `i < XRT_SYSTEM_MAX_DEVICES`, on the pair
of the tracking origin array and `count`. -/
def init_shm_tracks_loop (XRT_SYSTEM_MAX_DEVICES : Nat) (s : ipc_server) :
    Nat → Nat → (Nat → ipc_shared_tracking_origin) × Nat →
      (Nat → ipc_shared_tracking_origin) × Nat
  | 0, _, acc => acc
  | fuel + 1, i, acc =>
    if i < XRT_SYSTEM_MAX_DEVICES then
      match s.xtracks i with
      | none => init_shm_tracks_loop XRT_SYSTEM_MAX_DEVICES s fuel (i + 1) acc
      | some xtrack =>
        init_shm_tracks_loop XRT_SYSTEM_MAX_DEVICES s fuel (i + 1)
          (Function.update acc.1 acc.2 { type := xtrack.type }, (acc.2 + 1) % UINT32_SIZE)
    else acc

/-- The function `init_shm`, as far as the tracking origins and the devices go (the HMD
views, the roles and the version tag are other fields of the shared memory). `shm` is the
block `ipc_shmem_create` delivers, `none` when it fails; `XRT_SYSTEM_MAX_DEVICES` is
declared in `xrt_limits.h` and is an argument. -/
def init_shm (XRT_SYSTEM_MAX_DEVICES : Nat) (s : ipc_server) (shm : Option ipc_shared_memory) :
    Int × ipc_server :=
  match shm with
  | none => (-1, s)
  | some ism0 =>
    let r_tracks := init_shm_tracks_loop XRT_SYSTEM_MAX_DEVICES s XRT_SYSTEM_MAX_DEVICES 0
      (ism0.itracks, 0)
    let ism1 := { ism0 with itracks := r_tracks.1, itrack_count := r_tracks.2 }
    let r := init_shm_devices_loop XRT_SYSTEM_MAX_DEVICES s XRT_SYSTEM_MAX_DEVICES 0
      ({ ism := ism1, count := 0, input_index := 0, output_index := 0, binding_index := 0,
         input_pair_index := 0, output_pair_index := 0 }, [])
    (0, { s with
      ism := { r.1.ism with isdev_count := r.1.count }
      calls := s.calls ++ r.2 })

/-! ## Plane detection tracking (`ipc_server_handler.c`) -/

/-- The handler `ipc_handle_device_begin_plane_detection_ext`; `(dev_xret, dev_out_id)` is
what `xrt_device_begin_plane_detection_ext` answers, the second component of the result
is `*out_plane_detection_id`. The two `U_ARRAY_REALLOC_OR_FREE` are taken to succeed and
keep the entries; the counts are natural numbers, as every tracked id occupies memory.
The device `get_xdev` finds is handed on as it is. -/
def ipc_handle_device_begin_plane_detection_ext (s : ipc_server) (t : Nat) (id : Nat)
    (plane_detection_id : Nat) (dev_xret : xrt_result_t) (dev_out_id : Nat) :
    xrt_result_t × Nat × ipc_server :=
  let ics := s.threads t
  let xdev := get_xdev s id
  let new_count := ics.plane_detection_count + 1
  let ics1 : ipc_client_state :=
    if new_count > ics.plane_detection_size then { ics with plane_detection_size := new_count }
    else ics
  let s1 := (s.set_ics t ics1).call (.device_begin_plane_detection_ext xdev plane_detection_id)
  if dev_xret ≠ XRT_SUCCESS then (dev_xret, dev_out_id, s1)
  else if dev_out_id ≠ 0 then
    let index := ics1.plane_detection_count
    (XRT_SUCCESS, dev_out_id, s1.set_ics t
      { ics1 with
        plane_detection_ids := Function.update ics1.plane_detection_ids index dev_out_id
        plane_detection_xdev := Function.update ics1.plane_detection_xdev index xdev
        plane_detection_count := new_count })
  else (XRT_SUCCESS, dev_out_id, s1)

/-- The loop of `ipc_handle_device_destroy_plane_detection_ext` over
`i < plane_detection_count`, on the triple of `compact_right` and the two arrays. -/
def destroy_plane_detection_loop (plane_detection_id : Nat) (count : Nat) :
    Nat → Nat → Bool × (Nat → Nat) × (Nat → Option xrt_device) →
      Bool × (Nat → Nat) × (Nat → Option xrt_device)
  | 0, _, acc => acc
  | fuel + 1, i, (compact_right, ids, xdevs) =>
    if i < count then
      let compact_right := if ids i = plane_detection_id then true else compact_right
      if compact_right = true ∧ i + 1 < count then
        destroy_plane_detection_loop plane_detection_id count fuel (i + 1)
          (compact_right, Function.update ids i (ids (i + 1)),
            Function.update xdevs i (xdevs (i + 1)))
      else
        destroy_plane_detection_loop plane_detection_id count fuel (i + 1)
          (compact_right, ids, xdevs)
    else (compact_right, ids, xdevs)

/-- The handler `ipc_handle_device_destroy_plane_detection_ext`; `dev_xret` is what
`xrt_device_destroy_plane_detection_ext` answers. -/
def ipc_handle_device_destroy_plane_detection_ext (s : ipc_server) (t : Nat) (id : Nat)
    (plane_detection_id : Nat) (dev_xret : xrt_result_t) : xrt_result_t × ipc_server :=
  let ics := s.threads t
  let xdev := get_xdev s id
  let s1 := s.call (.device_destroy_plane_detection_ext xdev plane_detection_id)
  let r := destroy_plane_detection_loop plane_detection_id ics.plane_detection_count
    ics.plane_detection_count 0 (false, ics.plane_detection_ids, ics.plane_detection_xdev)
  let ics1 : ipc_client_state :=
    { ics with plane_detection_ids := r.2.1, plane_detection_xdev := r.2.2 }
  let ics2 : ipc_client_state :=
    if r.1 then { ics1 with plane_detection_count := ics1.plane_detection_count - 1 }
    else ics1
  let s2 := s1.set_ics t ics2
  if dev_xret ≠ XRT_SUCCESS then (dev_xret, s2)
  else (XRT_SUCCESS, s2)

/-! ## Device ids and pose spaces (`ipc_server_handler.c`) -/

/-- The function `validate_device_id`; `XRT_SYSTEM_MAX_DEVICES` is declared in
`xrt_limits.h` and is an argument. -/
def validate_device_id (XRT_SYSTEM_MAX_DEVICES : Nat) (s : ipc_server) (device_id : Int) :
    Except xrt_result_t xrt_device :=
  if device_id ≥ (XRT_SYSTEM_MAX_DEVICES : Int) then .error XRT_ERROR_IPC_FAILURE
  else
    match s.idevs device_id.toNat with
    | none => .error XRT_ERROR_IPC_FAILURE
    | some xdev => .ok xdev

/-- The handler `ipc_handle_space_create_pose`; `(xso_xret, xso_xs)` is what
`xrt_space_overseer_create_pose_space` answers when it is called, and the second component
of the result is `*out_space_id` when it is written. -/
def ipc_handle_space_create_pose (IPC_MAX_CLIENT_SPACES XRT_SYSTEM_MAX_DEVICES : Nat)
    (s : ipc_server) (t : Nat) (xdev_id : Nat) (name : Nat) (xso_xret : xrt_result_t)
    (xso_xs : xrt_space) : xrt_result_t × Option Nat × ipc_server :=
  match validate_device_id XRT_SYSTEM_MAX_DEVICES s (xdev_id : Int) with
  | .error xret => (xret, none, s)
  | .ok xdev =>
    let s1 := s.call (.space_overseer_create_pose_space xdev name)
    if xso_xret ≠ XRT_SUCCESS then (xso_xret, none, s1)
    else
      let r := track_space IPC_MAX_CLIENT_SPACES (s1.threads t) (some xso_xs)
      let s2 := (s1.set_ics t r.2).call (.space_unref xso_xs)
      match r.1 with
      | .error xret => (xret, none, s2)
      | .ok space_id => (XRT_SUCCESS, some space_id, s2)

/-! ## Device inputs (`ipc_server_handler.c`) -/

/-- Modelled from the spec: `get_idev` is declared in `ipc_server.h`, which is not among
the sources; it yields the entry `ics->server->idevs[device_id]`, here the pair of its
members `xdev` and `io_active`. -/
def get_idev (s : ipc_server) (device_id : Nat) : Option xrt_device × Bool :=
  (s.idevs device_id, s.idevs_io_active device_id)

/-- A zeroed `struct xrt_input`. -/
def xrt_input.zero : xrt_input :=
  { active := false, timestamp := 0, name := 0, value := 0 }

/-- The call `memcpy(dst, src, size)` of `ipc_handle_device_update_input`, with
`dst = &inputs[first]` and `size` the size of `count` inputs. -/
def memcpy_inputs (inputs : Nat → xrt_input) (first count : Nat) (src : Nat → xrt_input) :
    Nat → xrt_input :=
  fun j => if first ≤ j ∧ j < first + count then src (j - first) else inputs j

/-- The call `memset(dst, 0, size)` of `ipc_handle_device_update_input`. -/
def memset_inputs (inputs : Nat → xrt_input) (first count : Nat) : Nat → xrt_input :=
  fun j => if first ≤ j ∧ j < first + count then xrt_input.zero else inputs j

/-- The loop of `ipc_handle_device_update_input` over `i < isdev->input_count` for a
client or device whose io is not active: the name is copied, and the active flag of an
input named `XRT_INPUT_GENERIC_HEAD_POSE`. -/
def update_input_masked_loop (XRT_INPUT_GENERIC_HEAD_POSE : Nat) (src : Nat → xrt_input)
    (first count : Nat) : Nat → Nat → (Nat → xrt_input) → (Nat → xrt_input)
  | 0, _, inputs => inputs
  | fuel + 1, i, inputs =>
    if i < count then
      let d : xrt_input := { (inputs (first + i)) with name := (src i).name }
      let d : xrt_input :=
        if d.name = XRT_INPUT_GENERIC_HEAD_POSE then { d with active := (src i).active }
        else d
      update_input_masked_loop XRT_INPUT_GENERIC_HEAD_POSE src first count fuel (i + 1)
        (Function.update inputs (first + i) d)
    else inputs

/-- The handler `ipc_handle_device_update_input`. `dev_xret` is what
`xrt_device_update_inputs` answers and `src` is the array `xdev->inputs` after that call
(`src i` is `xdev->inputs[i]`); `XRT_INPUT_GENERIC_HEAD_POSE` is declared in
`xrt_defines.h` and is an argument. The result is `none` when `idev->xdev` is `NULL`,
which the source hands to `xrt_device_update_inputs` unchecked. -/
def ipc_handle_device_update_input (XRT_INPUT_GENERIC_HEAD_POSE : Nat) (s : ipc_server)
    (t : Nat) (id : Nat) (dev_xret : xrt_result_t) (src : Nat → xrt_input) :
    Option (xrt_result_t × ipc_server) :=
  let ics := s.threads t
  let device_id := id
  let ism := s.ism
  let idev := get_idev s device_id
  match idev.1 with
  | none => none
  | some xdev =>
    let isdev := ism.isdevs device_id
    let s1 := s.call (.device_update_inputs xdev)
    if dev_xret ≠ XRT_SUCCESS then some (dev_xret, s1)
    else
      let io_active := ics.io_active && idev.2
      let inputs :=
        if io_active then memcpy_inputs ism.inputs isdev.first_input_index isdev.input_count src
        else
          update_input_masked_loop XRT_INPUT_GENERIC_HEAD_POSE src isdev.first_input_index
            isdev.input_count isdev.input_count 0
            (memset_inputs ism.inputs isdev.first_input_index isdev.input_count)
      some (XRT_SUCCESS, { s1 with ism := { s1.ism with inputs := inputs } })

/-! ## Resampler ring buffer (`u_resampler.c`) -/

/-- The number of values of a `size_t` (64 bits). -/
def SIZE_SIZE : Nat := 2 ^ 64

/-- The difference `a - b` of two `size_t`. -/
def size_sub (a b : Nat) : Nat := (a + SIZE_SIZE - b) % SIZE_SIZE

/-- A sample; `sample_t` is `float` in the source, and the ring buffer only copies
samples. -/
abbrev sample_t := Int

/-- The `struct u_resampler` without `sample_rate` and `scratch`, which only the
resampling branch of `u_resampler_write` uses. -/
structure u_resampler where
  num_samples : Nat
  samples : Nat → sample_t
  read_index : Nat
  write_index : Nat

/-- The function `u_resampler_create`; the allocations are taken to succeed. -/
def u_resampler_create (num_samples : Nat) : u_resampler :=
  { num_samples := num_samples, samples := fun _ => 0, read_index := 0, write_index := 1 }

/-- The macro `WRAP_ADD`. -/
def WRAP_ADD (resampler : u_resampler) (a b : Nat) : Nat :=
  ((a + b) % SIZE_SIZE) % resampler.num_samples

/-- The macro `BETWEEN`. -/
def BETWEEN (resampler : u_resampler) (a b : Nat) : Nat :=
  if b > a then size_sub b a else (size_sub resampler.num_samples a + b) % SIZE_SIZE

/-- The call `memcpy(dst + index, src, count * sizeof(sample_t))`. -/
def memcpy_samples (dst : Nat → sample_t) (index : Nat) (src : Nat → sample_t) (count : Nat) :
    Nat → sample_t :=
  fun j => if index ≤ j ∧ j < index + count then src (j - index) else dst j

/-- The function `u_resampler_read`: the count it returns, the samples it has copied out
and the resampler afterwards. -/
def u_resampler_read (resampler : u_resampler) (num_samples : Nat) :
    Nat × List sample_t × u_resampler :=
  let samples_in_buffer :=
    size_sub (BETWEEN resampler resampler.read_index resampler.write_index) 1
  let until_end := size_sub resampler.num_samples resampler.read_index
  let read := min samples_in_buffer (min until_end num_samples)
  let total_read := read
  let out1 := (List.range read).map (fun k => resampler.samples (resampler.read_index + k))
  let num_samples := size_sub num_samples read
  let r1 := { resampler with read_index := WRAP_ADD resampler resampler.read_index read }
  let samples_in_buffer := size_sub samples_in_buffer read
  if num_samples > 0 ∧ samples_in_buffer > 0 then
    let read := min samples_in_buffer num_samples
    let total_read := (total_read + read) % SIZE_SIZE
    let out2 := (List.range read).map (fun k => r1.samples (r1.read_index + k))
    (total_read, out1 ++ out2, { r1 with read_index := WRAP_ADD r1 r1.read_index read })
  else (total_read, out1, r1)

/-- The function `resampler_write_raw` on the `num_samples` samples `samples`
(`samples i` is `samples[i]`). The second `memcpy` is not followed by an update of
`write_index`. -/
def resampler_write_raw (resampler : u_resampler) (samples : Nat → sample_t)
    (num_samples : Nat) : Nat × u_resampler :=
  let can_write := size_sub (BETWEEN resampler resampler.write_index resampler.read_index) 1
  if can_write = 0 then (0, resampler)
  else
    let until_end := size_sub resampler.num_samples resampler.write_index
    let written := min can_write (min until_end num_samples)
    let num_samples := size_sub num_samples written
    let can_write := size_sub can_write written
    let r1 := { resampler with
      samples := memcpy_samples resampler.samples resampler.write_index samples written
      write_index := WRAP_ADD resampler resampler.write_index written }
    let samples : Nat → sample_t := fun i => samples (written + i)
    if num_samples > 0 ∧ can_write > 0 then
      let written_after_start := min r1.read_index num_samples
      let written := (written + written_after_start) % SIZE_SIZE
      (written, { r1 with
        samples := memcpy_samples r1.samples r1.write_index samples written_after_start })
    else (written, r1)

/-- The function `u_resampler_write` for the `num_samples` samples `source_samples`;
`rate_matches` is the value of `sample_rate == resampler->sample_rate`. The branch that
resamples computes its indices in floating point and is not modelled: the result is
`none` there. -/
def u_resampler_write (resampler : u_resampler) (source_samples : Nat → sample_t)
    (num_samples : Nat) (rate_matches : Bool) : Option (Nat × u_resampler) :=
  if num_samples = 0 then some (0, resampler)
  else if rate_matches then some (resampler_write_raw resampler source_samples num_samples)
  else none

/-- The function `u_resampler_reset`. -/
def u_resampler_reset (resampler : u_resampler) : u_resampler :=
  { resampler with
    samples := Function.update resampler.samples 0 0
    read_index := 0
    write_index := 1 }

/-! ## Example states -/

/-- A space overseer with no space at all. -/
def example_xso : xrt_space_overseer :=
  { semantic_root := none, semantic_view := none, semantic_stage := none,
    semantic_unbounded := none, localspace := fun _ => none, localfloorspace := fun _ => none }

/-- A quad layer on device 0 whose swapchain id is `id`. -/
def example_quad_layer (id : Nat) : ipc_layer_entry :=
  { xdev_id := 0, swapchain_ids := fun _ => id,
    data := { type := XRT_LAYER_QUAD, view_count := 0 } }

/-- A server right after `init_server_state`, with one device and no client. -/
def example_server : ipc_server :=
  init_server_state
    { threads := fun _ => ipc_client_state.zero
      active_client_index := 0
      last_active_client_index := 0
      connected_client_count := 0
      current_slot_index := 0
      id_generator := 0
      idevs := fun i => if i = 0 then some { handle := 1, view_count := 2 } else none
      xso := example_xso
      slots := fun _ => { layer_count := 0, layers := fun _ => example_quad_layer 0 }
      has_xsysc := true
      calls := [] }

/-- A client connected in thread slot 0 (id 1) that has created its session and native
compositor and owns no swapchain and no space. -/
def example_client : ipc_client_state :=
  { ipc_client_state.zero with
    xs := some 1
    xc := some 1
    client_state := { ipc_app_state.zero with id := 1 }
    io_active := true
    server_thread_index := 0 }

/-- The example server with `example_client` in thread slot 0. -/
def example_server_one_client : ipc_server :=
  example_server.set_ics 0 example_client

/-- The example server whose client owns swapchain 0 only, and whose composition slot 0
holds two quad layers: layer 0 uses swapchain id 0, layer 1 uses the empty id 1. -/
def example_server_bad_layer : ipc_server :=
  { example_server with
    threads := Function.update example_server.threads 0
      { example_client with
        swapchain_count := 1
        xscs := Function.update example_client.xscs 0 (some { handle := 7, image_count := 3 })
        swapchain_data := Function.update example_client.swapchain_data 0
          { active := true, width := 16, height := 16, format := 0, image_count := 3 } }
    slots := fun _ => { layer_count := 2, layers := fun i => example_quad_layer i } }

/-- A run of `ipc_handle_compositor_layer_sync` requests, each with its thread slot, its
composition slot and its sync handles. -/
def layer_sync_run (s : ipc_server) :
    List (Nat × Nat × List xrt_graphics_sync_handle_t) → ipc_server
  | [] => s
  | (t, slot_id, handles) :: rest =>
    layer_sync_run (ipc_handle_compositor_layer_sync s t slot_id handles).2.2 rest

/-- The server `s'` is `s` with further collaborator calls recorded and nothing else
changed. -/
def only_calls (s s' : ipc_server) : Prop :=
  ∃ cs, s' = { s with calls := s.calls ++ cs }

/-- The example server with a swapchain table of capacity 2 whose two entries are active. -/
def example_server_full_table : ipc_server :=
  example_server.set_ics 0
    { example_client with
      swapchain_count := 2
      xscs := fun i => if i < 2 then some { handle := 7 + i, image_count := 3 } else none
      swapchain_data := fun i =>
        if i < 2 then { active := true, width := 16, height := 16, format := 0, image_count := 3 }
        else example_client.swapchain_data i }

/-- A swapchain request of a client: the arguments the client supplies and, for create
and import, what the compositor answers. -/
inductive swapchain_request where
  | create (info : xrt_swapchain_create_info) (comp_xret : xrt_result_t)
      (comp_xsc : xrt_swapchain)
  | import_native (info : xrt_swapchain_create_info) (handle_count : Nat)
      (comp_xret : xrt_result_t) (comp_xsc : xrt_swapchain)
  | destroy (id : Nat)

/-- The server after the client in thread slot `t` has issued the requests in order. -/
def swapchain_run (IPC_MAX_CLIENT_SWAPCHAINS : Nat) (t : Nat) :
    ipc_server → List swapchain_request → ipc_server
  | s, [] => s
  | s, .create info comp_xret comp_xsc :: rest =>
    swapchain_run IPC_MAX_CLIENT_SWAPCHAINS t
      (ipc_handle_swapchain_create IPC_MAX_CLIENT_SWAPCHAINS s t info comp_xret comp_xsc).2.2 rest
  | s, .import_native info handle_count comp_xret comp_xsc :: rest =>
    swapchain_run IPC_MAX_CLIENT_SWAPCHAINS t
      (ipc_handle_swapchain_import IPC_MAX_CLIENT_SWAPCHAINS s t info handle_count comp_xret
        comp_xsc).2.2 rest
  | s, .destroy id :: rest =>
    swapchain_run IPC_MAX_CLIENT_SWAPCHAINS t (ipc_handle_swapchain_destroy s t id).2 rest

/-- The example client with spaces 0 and 1 tracked in a space table of capacity 4. -/
def example_server_spaces : ipc_server :=
  example_server.set_ics 0
    { example_client with
      xspcs := fun i => if i < 2 then some (10 + i) else none
      local_space_index := 3
      local_floor_space_index := 3 }

/-- The example server with a client connected in thread slot 0 that has not created a
session yet. -/
def example_server_connected : ipc_server :=
  example_server.set_ics 0
    { ipc_client_state.zero with
      client_state := { ipc_app_state.zero with id := 1 }
      io_active := true
      server_thread_index := 0 }

/-- The session info of an overlay session with `z_order = 5`. -/
def example_overlay_info : xrt_session_info :=
  { is_overlay := true, z_order := 5 }

/-- The session info of a regular session. -/
def example_primary_info : xrt_session_info :=
  { is_overlay := false, z_order := 0 }

/-- The example server with two clients: slot 0 holds a regular client whose session is
active and which is the active client; slot 1 holds an overlay client (`z_order = 5`) that
has created its session but whose session is not active yet. -/
def example_server_two_clients : ipc_server :=
  { example_server with
    threads := fun i =>
      if i = 0 then
        { example_client with
          client_state := { example_client.client_state with session_active := true } }
      else if i = 1 then
        { example_client with
          xs := some 2
          xc := some 2
          server_thread_index := 1
          client_state :=
            { ipc_app_state.zero with id := 2, session_overlay := true, z_order := 5 } }
      else example_server.threads i
    active_client_index := 0 }

/-- The client state `handle_focused_client_events` stores for a client `ics` when the
active client index is `active_id`. -/
def focused_client_state (ics : ipc_client_state) (active_id : Int) : ipc_client_state :=
  { ics with
    client_state := { ics.client_state with
      session_visible :=
        decide (ics.server_thread_index = active_id) || ics.client_state.session_overlay
      session_focused :=
        decide (ics.server_thread_index = active_id) || ics.client_state.session_overlay
      z_order :=
        to_uint32 (if ics.client_state.session_overlay then (ics.client_state.z_order : Int)
          else INT64_MIN) } }

/-- A zeroed space overseer. -/
def xrt_space_overseer.zero : xrt_space_overseer :=
  { semantic_root := none, semantic_view := none, semantic_stage := none,
    semantic_unbounded := none, localspace := fun _ => none, localfloorspace := fun _ => none }

/-- The server as `ipc_server_main` allocates it (`calloc`) on a system that has a system
compositor, before `init_all`. -/
def ipc_server.zero : ipc_server :=
  { threads := fun _ => ipc_client_state.zero
    active_client_index := 0
    last_active_client_index := 0
    connected_client_count := 0
    current_slot_index := 0
    id_generator := 0
    idevs := fun _ => none
    xso := xrt_space_overseer.zero
    slots := fun _ =>
      { layer_count := 0, layers := fun _ =>
        { xdev_id := 0, swapchain_ids := fun _ => 0, data := { type := OTHER 0, view_count := 0 } } }
    has_xsysc := true
    calls := [] }

/-- Scenario 1 up to the first frame: a fresh server, one client connects (handle 3) and
creates a regular session (session 1, native compositor 11). -/
def scenario1_server : ipc_server :=
  (ipc_handle_session_create
    (ipc_server_handle_client_connected (init_server_state ipc_server.zero) (some 3))
    0 example_primary_info true 1 XRT_SUCCESS 11).2

/-- The test of the fallback search of `update_server_state_locked` on the client of
thread slot `i`: not an overlay, running and session-active. -/
def fallback_candidate (s : ipc_server) (i : Nat) : Prop :=
  (s.threads i).client_state.session_overlay = false ∧ (s.threads i).server_thread_index ≥ 0 ∧
    (s.threads i).client_state.session_active = true

/-- The active client index `update_server_state_locked` settles on when it does not
return early. -/
def update_server_state_new_active (s : ipc_server) : Int :=
  if (update_server_state_fallback_loop s IPC_MAX_CLIENTS 0 (true, -1)).1 = true then -1
  else if s.active_client_index ≥ 0 ∧
      ¬ ((s.threads s.active_client_index.toNat).client_state.session_overlay = false ∧
        (s.threads s.active_client_index.toNat).client_state.session_active = true) then
    (update_server_state_fallback_loop s IPC_MAX_CLIENTS 0 (true, -1)).2
  else s.active_client_index

/-- Three regular clients (slots 0, 1, 2, compositors 11, 12, 13) on a fresh server, all
session-active; client 0 activated last and is the active client. -/
def example_server_three_clients : ipc_server :=
  let c := ipc_server_handle_client_connected
    (ipc_server_handle_client_connected
      (ipc_server_handle_client_connected (init_server_state ipc_server.zero) (some 3))
      (some 4)) (some 5)
  let c1 := (ipc_handle_session_create c 0 example_primary_info true 1 XRT_SUCCESS 11).2
  let c2 := (ipc_handle_session_create c1 1 example_primary_info true 2 XRT_SUCCESS 12).2
  let c3 := (ipc_handle_session_create c2 2 example_primary_info true 3 XRT_SUCCESS 13).2
  let p1 := (ipc_handle_compositor_predict_frame c3 1 XRT_SUCCESS).2
  let p2 := (ipc_handle_compositor_predict_frame p1 2 XRT_SUCCESS).2
  (ipc_handle_compositor_predict_frame p2 0 XRT_SUCCESS).2

/-- Scenario 1 after the client's first `ipc_handle_compositor_predict_frame`. -/
def scenario1_first_frame : ipc_server :=
  (ipc_handle_compositor_predict_frame scenario1_server 0 XRT_SUCCESS).2

/-- Two regular session-active clients on a fresh server (slots 0 and 1, compositors 11
and 12); client 0 activated last and is the active client. -/
def example_server_two_regular : ipc_server :=
  let c := ipc_server_handle_client_connected
    (ipc_server_handle_client_connected (init_server_state ipc_server.zero) (some 3)) (some 4)
  let c1 := (ipc_handle_session_create c 0 example_primary_info true 1 XRT_SUCCESS 11).2
  let c2 := (ipc_handle_session_create c1 1 example_primary_info true 2 XRT_SUCCESS 12).2
  let p1 := (ipc_handle_compositor_predict_frame c2 1 XRT_SUCCESS).2
  (ipc_handle_compositor_predict_frame p1 0 XRT_SUCCESS).2

/-- A run of `ipc_handle_compositor_predict_frame` requests of the client in thread slot
`t`, one per element of the list, which gives what `xrt_comp_predict_frame` answers. -/
def predict_frame_run (t : Nat) : ipc_server → List xrt_result_t → ipc_server
  | s, [] => s
  | s, comp_xret :: rest =>
    predict_frame_run t (ipc_handle_compositor_predict_frame s t comp_xret).2 rest

/-- The calls `handle_focused_client_events` makes for a client `ics`. -/
def focused_client_calls (ics : ipc_client_state) (active_id : Int) : List xrt_call :=
  if ics.xc ≠ none then
    [.syscomp_set_state ics.xc
        (decide (ics.server_thread_index = active_id) || ics.client_state.session_overlay)
        (decide (ics.server_thread_index = active_id) || ics.client_state.session_overlay),
     .syscomp_set_z_order ics.xc
        (if ics.client_state.session_overlay then (ics.client_state.z_order : Int)
          else INT64_MIN)]
  else []

/-- The calls `handle_overlay_client_events` makes for a client `ics`. -/
def overlay_client_calls (ics : ipc_client_state) (active_id prev_active_id : Int) :
    List xrt_call :=
  if !ics.client_state.session_overlay then []
  else if ics.xc = none then []
  else
    (if active_id ≥ 0 ∧ prev_active_id ≥ 0 then
      [.syscomp_set_main_app_visibility ics.xc false,
       .syscomp_set_main_app_visibility ics.xc true] else []) ++
    (if active_id ≥ 0 ∧ prev_active_id < 0 then
      [.syscomp_set_main_app_visibility ics.xc true] else []) ++
    (if active_id < 0 ∧ prev_active_id ≥ 0 then
      [.syscomp_set_main_app_visibility ics.xc false] else [])

/-- The calls one round of the loop of `flush_state_to_all_clients_locked` makes for a
client `ics`. -/
def flush_client_calls (ics : ipc_client_state) (active_id prev_active_id : Int) :
    List xrt_call :=
  if ics.server_thread_index < 0 then []
  else focused_client_calls ics active_id ++ overlay_client_calls ics active_id prev_active_id

/-- The calls the loop of `flush_state_to_all_clients_locked` makes from slot `i` on. -/
def flush_calls (threads : Nat → ipc_client_state) (active_id prev_active_id : Int) :
    Nat → Nat → List xrt_call
  | 0, _ => []
  | fuel + 1, i =>
    if i < IPC_MAX_CLIENTS then
      flush_client_calls (threads i) active_id prev_active_id ++
        flush_calls threads active_id prev_active_id fuel (i + 1)
    else []

/-- Scenario 2 with both sessions created: on a fresh server client 1 (slot 0) creates an
overlay session with `z_order = 5` (compositor 11) and client 2 (slot 1) a regular
session (compositor 12). -/
def scenario2_created : ipc_server :=
  let c := ipc_server_handle_client_connected
    (ipc_server_handle_client_connected (init_server_state ipc_server.zero) (some 3)) (some 4)
  let c1 := (ipc_handle_session_create c 0 example_overlay_info true 1 XRT_SUCCESS 11).2
  (ipc_handle_session_create c1 1 example_primary_info true 2 XRT_SUCCESS 12).2

/-- Scenario 2: the overlay client is activated by its first frame, then the regular
client is activated by its first frame and becomes the active client. -/
def scenario2_server : ipc_server :=
  (ipc_handle_compositor_predict_frame
    (ipc_handle_compositor_predict_frame scenario2_created 0 XRT_SUCCESS).2 1 XRT_SUCCESS).2

/-- A recompute of the arbitration state: the full walk
`flush_state_to_all_clients_locked`, or `ipc_server_update_state`. -/
inductive recompute_step where
  | flush
  | update_state
deriving DecidableEq, Repr

/-- The server after a list of recomputes. -/
def recompute_run : ipc_server → List recompute_step → ipc_server
  | s, [] => s
  | s, .flush :: rest => recompute_run (flush_state_to_all_clients_locked s) rest
  | s, .update_state :: rest => recompute_run (ipc_server_update_state s) rest

/-- The state of scenario 2 as far as recomputes go: the overlay client of slot 0
(compositor 11, `z_order = 5`) and the active regular client of slot 1 (compositor 12) are
visible and focused, no other slot is running, and every `set_z_order` among the calls
`extra` is 5 for compositor 11 or `INT64_MIN` for compositor 12. -/
def scenario2_inv (s : ipc_server) (extra : List xrt_call) : Prop :=
  (s.threads 0).server_thread_index = 0 ∧ (s.threads 0).xc = some 11 ∧
  (s.threads 0).client_state.session_overlay = true ∧
  (s.threads 0).client_state.z_order = 5 ∧
  (s.threads 0).client_state.session_visible = true ∧
  (s.threads 0).client_state.session_focused = true ∧
  (s.threads 1).server_thread_index = 1 ∧ (s.threads 1).xc = some 12 ∧
  (s.threads 1).client_state.session_overlay = false ∧
  (s.threads 1).client_state.session_active = true ∧
  (s.threads 1).client_state.z_order = 0 ∧
  (s.threads 1).client_state.session_visible = true ∧
  (s.threads 1).client_state.session_focused = true ∧
  (∀ j, j < IPC_MAX_CLIENTS → j ≠ 0 → j ≠ 1 → (s.threads j).server_thread_index < 0) ∧
  s.active_client_index = 1 ∧ s.last_active_client_index = 1 ∧
  s.calls = scenario2_server.calls ++ extra ∧
  ∀ c, c ∈ extra → ∀ xc z, c = xrt_call.syscomp_set_z_order xc z →
    (xc = some 11 ∧ z = 5) ∨ (xc = some 12 ∧ z = INT64_MIN)

/-- A request or event that acts on the arbitration state: a client connects, a client
(thread slot `t`) creates or destroys its session, asks for a frame prediction or is
activated or deactivated, the primary client is set by id, or the state is updated. -/
inductive server_op where
  | connect (ipc_handle : xrt_ipc_handle_t)
  | session_create (t : Nat) (xsi : xrt_session_info) (create_native_compositor : Bool)
      (new_xs : xrt_session) (native_xret : xrt_result_t) (native_xcn : xrt_compositor)
  | session_destroy (t : Nat)
  | predict_frame (t : Nat) (comp_xret : xrt_result_t)
  | activate_session (t : Nat)
  | deactivate_session (t : Nat)
  | set_active_client (client_id : Nat)
  | update_state

/-- The server after one `server_op`. -/
def server_op.apply (s : ipc_server) : server_op → ipc_server
  | .connect ipc_handle => ipc_server_handle_client_connected s ipc_handle
  | .session_create t xsi flag new_xs native_xret native_xcn =>
    (ipc_handle_session_create s t xsi flag new_xs native_xret native_xcn).2
  | .session_destroy t => (ipc_handle_session_destroy s t).2
  | .predict_frame t comp_xret => (ipc_handle_compositor_predict_frame s t comp_xret).2
  | .activate_session t => ipc_server_activate_session s t
  | .deactivate_session t => ipc_server_deactivate_session s t
  | .set_active_client client_id => (ipc_server_set_active_client s client_id).2
  | .update_state => ipc_server_update_state s

/-- The thread slot `ipc_server_handle_client_connected` gives the next connection: the
first slot whose `server_thread_index` is negative, provided its thread is ready or
stopping; `none` when the connection is refused. -/
def client_connected_slot (vs : ipc_server) : Option Nat :=
  let cs_index := first_free IPC_MAX_CLIENTS (fun i => decide ((vs.threads i).server_thread_index < 0))
  if cs_index ≥ IPC_MAX_CLIENTS then none
  else if vs.thread_state cs_index ≠ ipc_thread_state.IPC_THREAD_READY ∧
      vs.thread_state cs_index ≠ ipc_thread_state.IPC_THREAD_STOPPING then none
  else some cs_index

/-- The client state `ipc_server_handle_client_connected` sets up in slot `cs_index` for a
connection that gets the id `id`. -/
def connected_client_state (cs_index : Nat) (id : Nat) (ipc_handle : xrt_ipc_handle_t) :
    ipc_client_state :=
  { ipc_client_state.zero with
    client_state := { ipc_app_state.zero with id := id }
    imc_ipc_handle := ipc_handle
    server_thread_index := (cs_index : Int)
    io_active := true }

/-- The history of a server run as far as client ids go: `connection_history s ids` says
that the server has reached the state `s` and that `ids` are the ids given to the
accepted connections, in order. A run starts with the id generator at 0 (the server is
allocated zeroed), a connection is accepted or refused by
`ipc_server_handle_client_connected`, and any other step leaves the id generator as it
is (no other function of the sources writes it). -/
inductive connection_history : ipc_server → List Nat → Prop where
  | start (s : ipc_server) (h : s.id_generator = 0) : connection_history s []
  | accepted (s : ipc_server) (ids : List Nat) (ipc_handle : xrt_ipc_handle_t) (cs : Nat)
      (h : connection_history s ids) (hslot : client_connected_slot s = some cs) :
      connection_history (ipc_server_handle_client_connected s ipc_handle)
        (ids ++ [((ipc_server_handle_client_connected s ipc_handle).threads cs).client_state.id])
  | refused (s : ipc_server) (ids : List Nat) (ipc_handle : xrt_ipc_handle_t)
      (h : connection_history s ids) (hslot : client_connected_slot s = none) :
      connection_history (ipc_server_handle_client_connected s ipc_handle) ids
  | other (s s' : ipc_server) (ids : List Nat) (h : connection_history s ids)
      (hgen : s'.id_generator = s.id_generator) : connection_history s' ids

/-- A freshly initialised server whose id generator has reached `UINT32_MAX`, the id of
the connection accepted last. -/
def example_server_ids_exhausted : ipc_server :=
  { (init_server_state ipc_server.zero) with id_generator := 4294967295 }

/-- The example client in a space table of capacity 4 with entries 0, 1 and 2 occupied, on
a server whose space overseer has no semantic and no local space. Its local-space indices
are the zeroes of a fresh connection. -/
def example_server_one_free_space : ipc_server :=
  example_server.set_ics 0
    { example_client with xspcs := fun i => if i < 3 then some (10 + i) else none }

/-- The example client with an empty space table on a server whose overseer has a root
space (20) and a view space (21). -/
def example_server_semantic : ipc_server :=
  { example_server_one_client with
    xso := { example_xso with semantic_root := some 20, semantic_view := some 21 } }

/-- The sum of `f` over the devices `s->idevs[j].xdev` with `j < i` that are not `NULL`. -/
def device_total (f : xrt_device → Nat) (s : ipc_server) : Nat → Nat
  | 0 => 0
  | i + 1 => device_total f s i + (match s.idevs i with | none => 0 | some xdev => f xdev)

/-- The ranges `[first d, first d + count d)` all end at or below `index`, and two of them
with different `d` share no element. -/
def ranges_inv (first count : Nat → Nat) (index : Nat) : Prop :=
  (∀ d, first d + count d ≤ index) ∧
  ∀ d e, d ≠ e →
    count d = 0 ∨ count e = 0 ∨ first d + count d ≤ first e ∨ first e + count e ≤ first d

/-- The ranges `[a, a + n)` and `[b, b + m)` share no element. -/
def ranges_disjoint (a n b m : Nat) : Prop :=
  ∀ k, ¬ (a ≤ k ∧ k < a + n ∧ b ≤ k ∧ k < b + m)

/-- The loop invariant of the device loop of `init_shm` after the devices below `i`. -/
def init_shm_inv (s : ipc_server) (i : Nat) (st : init_shm_state) : Prop :=
  st.count ≤ i ∧
  st.input_index = device_total (fun x => x.inputs.length) s i ∧
  st.output_index = device_total (fun x => x.outputs.length) s i ∧
  st.binding_index = device_total (fun x => x.binding_profiles.length) s i ∧
  ranges_inv (fun d => (st.ism.isdevs d).first_input_index)
    (fun d => (st.ism.isdevs d).input_count) st.input_index ∧
  ranges_inv (fun d => (st.ism.isdevs d).first_output_index)
    (fun d => (st.ism.isdevs d).output_count) st.output_index ∧
  ranges_inv (fun d => (st.ism.isdevs d).first_binding_profile_index)
    (fun d => (st.ism.isdevs d).binding_profile_count) st.binding_index

/-- A server with two devices: a controller with two inputs, an output and a binding
profile, and a tracker with one input. -/
def example_server_devices : ipc_server :=
  { ipc_server.zero with
    idevs := fun i =>
      if i = 0 then
        some { handle := 1, view_count := 0,
               inputs := [{ active := true, timestamp := 0, name := 1, value := 0 },
                          { active := true, timestamp := 0, name := 2, value := 0 }],
               outputs := [{ name := 3 }],
               binding_profiles := [{ name := 4, inputs := [{ from_name := 5, device_name := 1 }],
                                      outputs := [] }] }
      else if i = 1 then
        some { handle := 2, view_count := 0,
               inputs := [{ active := true, timestamp := 0, name := 6, value := 0 }] }
      else none }

/-- A server whose only device has 129 outputs. -/
def example_server_many_outputs : ipc_server :=
  { ipc_server.zero with
    idevs := fun i =>
      if i = 0 then
        some { handle := 1, view_count := 0,
               outputs := List.replicate 129 { name := 3 } }
      else none }
/-- The result of the device loop of `init_shm`, as `init_shm` starts it. -/
def init_shm_devices (XRT_SYSTEM_MAX_DEVICES : Nat) (s : ipc_server)
    (ism0 : ipc_shared_memory) : init_shm_state × List xrt_call :=
  init_shm_devices_loop XRT_SYSTEM_MAX_DEVICES s XRT_SYSTEM_MAX_DEVICES 0
    ({ ism := { ism0 with
          itracks := (init_shm_tracks_loop XRT_SYSTEM_MAX_DEVICES s XRT_SYSTEM_MAX_DEVICES 0
            (ism0.itracks, 0)).1
          itrack_count := (init_shm_tracks_loop XRT_SYSTEM_MAX_DEVICES s
            XRT_SYSTEM_MAX_DEVICES 0 (ism0.itracks, 0)).2 },
       count := 0, input_index := 0, output_index := 0, binding_index := 0,
       input_pair_index := 0, output_pair_index := 0 }, [])

/-- The calls that hand one layer to the compositor (`xrt_comp_layer_projection`,
`xrt_comp_layer_projection_depth`, the one-swapchain layer calls and
`xrt_comp_layer_passthrough`). -/
def xrt_call.is_layer_call : xrt_call → Bool
  | .comp_layer_projection _ _ _ => true
  | .comp_layer_projection_depth _ _ _ _ => true
  | .comp_layer_single _ _ _ _ => true
  | .comp_layer_passthrough _ _ => true
  | _ => false

/-- The server `s'` is `s` with further layer calls recorded and nothing else changed. -/
def only_layer_calls (s s' : ipc_server) : Prop :=
  ∃ cs, s' = { s with calls := s.calls ++ cs } ∧ ∀ c, c ∈ cs → c.is_layer_call = true

/-- The calls of one `ipc_handle_compositor_layer_sync` request in order: a release for
every sync handle after the first, `xrt_comp_layer_begin`, the layer calls, and
`xrt_comp_layer_commit` with the first handle, or with the invalid handle when there is
none. -/
def layer_sync_calls (xc : xrt_compositor) (handles : List xrt_graphics_sync_handle_t)
    (layer_calls : List xrt_call) : List xrt_call :=
  handles.tail.map xrt_call.graphics_sync_unref ++
    [xrt_call.comp_layer_begin xc] ++ layer_calls ++
    [xrt_call.comp_layer_commit xc (match handles with | [] => none | h0 :: _ => h0)]

/-- The compositor a state push to the system compositor is addressed to
(`xrt_syscomp_set_state`, `xrt_syscomp_set_z_order`,
`xrt_syscomp_set_main_app_visibility`); `none` for every other call. -/
def xrt_call.state_target : xrt_call → Option (Option xrt_compositor)
  | .syscomp_set_state xc _ _ => some xc
  | .syscomp_set_z_order xc _ => some xc
  | .syscomp_set_main_app_visibility xc _ => some xc
  | _ => none

/-- An overlay client with z order 5 in thread slot 1, its session created and not yet
active, next to the focused regular client of slot 0. -/
def example_server_overlay_inactive : ipc_server :=
  { ipc_server.zero with
    active_client_index := 0
    last_active_client_index := 0
    connected_client_count := 2
    threads := fun i =>
      if i = 0 then
        { ipc_client_state.zero with
          xs := some 1, xc := some 1, imc_ipc_handle := some 3, io_active := true
          client_state := { ipc_app_state.zero with
            id := 1, session_active := true, session_visible := true, session_focused := true } }
      else if i = 1 then
        { ipc_client_state.zero with
          xs := some 2, xc := some 2, imc_ipc_handle := some 4, io_active := true
          server_thread_index := 1
          client_state := { ipc_app_state.zero with
            id := 2, session_overlay := true, z_order := 5 } }
      else { ipc_client_state.zero with server_thread_index := -1 } }

/-- A layer of the given type on device 0 whose swapchain ids are 9, 10, 11, ..., all past
a swapchain table of 8 entries. -/
def example_layer_past_table (type : xrt_layer_type) : ipc_layer_entry :=
  { xdev_id := 0, swapchain_ids := fun k => 9 + k, data := { type := type, view_count := 1 } }

/-- The example server whose client owns swapchain 0 only, in a table of 8 entries, where
the words that follow the table in the client state are not zero. -/
def example_server_past_table : ipc_server :=
  { example_server_bad_layer with
    threads := Function.update example_server_bad_layer.threads 0
      { (example_server_bad_layer.threads 0) with
        xscs := fun i =>
          if 8 ≤ i then some { handle := 90 + i, image_count := 1 }
          else (example_server_bad_layer.threads 0).xscs i } }

/-- The entries `i, i + 1, ..., i + n - 1` of the two plane detection arrays, in order. -/
def plane_detections_from (ids : Nat → Nat) (xdevs : Nat → Option xrt_device) :
    Nat → Nat → List (Nat × Option xrt_device)
  | _, 0 => []
  | i, n + 1 => (ids i, xdevs i) :: plane_detections_from ids xdevs (i + 1) n

/-- The tracked list of a client: `plane_detection_ids[0 .. plane_detection_count)` with
the paired `plane_detection_xdev` entries. -/
def tracked_plane_detections (ics : ipc_client_state) : List (Nat × Option xrt_device) :=
  plane_detections_from ics.plane_detection_ids ics.plane_detection_xdev 0
    ics.plane_detection_count

/-- A plane detection request of a client, with what the device answers. -/
inductive plane_detection_request where
  | begin_detection (id : Nat) (plane_detection_id : Nat) (dev_xret : xrt_result_t)
      (dev_out_id : Nat)
  | destroy_detection (id : Nat) (plane_detection_id : Nat) (dev_xret : xrt_result_t)

/-- The server after the client in thread slot `t` has issued the requests in order. -/
def plane_detection_run (t : Nat) : ipc_server → List plane_detection_request → ipc_server
  | s, [] => s
  | s, .begin_detection id pid dev_xret dev_out_id :: rest =>
    plane_detection_run t
      (ipc_handle_device_begin_plane_detection_ext s t id pid dev_xret dev_out_id).2.2 rest
  | s, .destroy_detection id pid dev_xret :: rest =>
    plane_detection_run t
      (ipc_handle_device_destroy_plane_detection_ext s t id pid dev_xret).2 rest

/-- The tracked list as the specification words it, started from the list `l`: a begin
the device answers with success and a non-zero id appends that id with its device, a
destroy removes the first entry with the given id and keeps the others in order. -/
def plane_detections_spec (idevs : Nat → Option xrt_device) :
    List (Nat × Option xrt_device) → List plane_detection_request →
      List (Nat × Option xrt_device)
  | l, [] => l
  | l, .begin_detection id _ dev_xret dev_out_id :: rest =>
    plane_detections_spec idevs
      (if dev_xret = XRT_SUCCESS ∧ dev_out_id ≠ 0 then l ++ [(dev_out_id, idevs id)] else l)
      rest
  | l, .destroy_detection _ pid _ :: rest =>
    plane_detections_spec idevs (l.eraseP (fun e => decide (e.1 = pid))) rest

/-- Two clients connect to the example server (thread slots 0 and 1); the client of slot 1
creates its semantic spaces, getting the local spaces 50 and 51 in the entries 0 of the
overseer; the client of slot 0, which has created no local space, creates a pose space
on device 0 and gets the space id 0. -/
def example_server_foreign_local_space : ipc_server :=
  (ipc_handle_space_create_pose 8 2
    (ipc_handle_space_create_semantic_ids 8
      (ipc_server_handle_client_connected
        (ipc_server_handle_client_connected example_server (some 3)) (some 4))
      1 XRT_SUCCESS 50 51).2.2
    0 0 1 XRT_SUCCESS 60).2.2

/-- The client of slot 0 creates its semantic spaces (local spaces 50 and 51, space ids 0
and 1) and destroys its local space 0; the client of slot 1 then creates its semantic
spaces and gets the local space 70 in the freed entry 0 of the overseer; the client of
slot 0 creates a pose space, which reuses its space id 0. -/
def example_server_reused_space_id : ipc_server :=
  (ipc_handle_space_create_pose 8 2
    (ipc_handle_space_create_semantic_ids 8
      (ipc_handle_space_destroy 8
        (ipc_handle_space_create_semantic_ids 8
          (ipc_server_handle_client_connected
            (ipc_server_handle_client_connected example_server (some 3)) (some 4))
          0 XRT_SUCCESS 50 51).2.2
        0 0).2
      1 XRT_SUCCESS 70 71).2.2
    0 0 1 XRT_SUCCESS 60).2.2

/-- The server after the connections with the given handles have arrived in order. -/
def client_connected_run : ipc_server → List xrt_ipc_handle_t → ipc_server
  | s, [] => s
  | s, h :: rest => client_connected_run (ipc_server_handle_client_connected s h) rest

/-- A fresh server on which eight connections have been accepted: every one of the
`IPC_MAX_CLIENTS` thread slots is in use. -/
def example_server_eight_clients : ipc_server :=
  client_connected_run (init_server_state ipc_server.zero)
    [some 10, some 11, some 12, some 13, some 14, some 15, some 16, some 17]

/-- The example server with its client, whose device table holds one device, a controller
with two inputs, at index 1; index 0 is empty. -/
def example_server_device_gap : ipc_server :=
  { example_server_one_client with
    idevs := fun i =>
      if i = 1 then
        some { handle := 2, view_count := 0, name := 7,
               inputs := [{ active := true, timestamp := 0, name := 21, value := 0 },
                          { active := true, timestamp := 0, name := 22, value := 0 }] }
      else none
    idevs_io_active := fun i => decide (i = 1) }

/-- The inputs of the controller after an update. -/
def example_inputs_updated : Nat → xrt_input := fun i =>
  if i = 0 then { active := true, timestamp := 100, name := 21, value := 5 }
  else { active := true, timestamp := 100, name := 22, value := 6 }

/-- The free space `resampler_write_raw` computes for a resampler (`can_write`). -/
def u_resampler_free (resampler : u_resampler) : Nat :=
  size_sub (BETWEEN resampler resampler.write_index resampler.read_index) 1

/-- The number of samples `u_resampler_read` returns when as many samples as the buffer
has are asked for. -/
def u_resampler_readable (resampler : u_resampler) : Nat :=
  (u_resampler_read resampler resampler.num_samples).1

/-- A resampler of 8 samples into which the samples 1, ..., 5 have been written at its own
rate and from which 3 samples have been read: `read_index = 3`, `write_index = 6`. -/
def example_resampler : u_resampler :=
  (u_resampler_read (resampler_write_raw (u_resampler_create 8) (fun i => 1 + i) 5).2 3).2.2

/-! ## Lemmas on the table scan -/

theorem first_free_loop_spec (capacity : Nat) (is_free : Nat → Bool) :
    ∀ (fuel index : Nat), index ≤ capacity → capacity ≤ index + fuel →
      index ≤ first_free_loop capacity is_free fuel index ∧
      first_free_loop capacity is_free fuel index ≤ capacity ∧
      (∀ j, index ≤ j → j < first_free_loop capacity is_free fuel index → is_free j = false) ∧
      (first_free_loop capacity is_free fuel index < capacity →
        is_free (first_free_loop capacity is_free fuel index) = true) := by
  intro fuel
  induction fuel with
  | zero =>
    intro index h1 h2
    have : index = capacity := by omega
    subst this
    simp [first_free_loop]
    intro j h3 h4
    omega
  | succ fuel ih =>
    intro index h1 h2
    unfold first_free_loop
    by_cases hlt : index < capacity
    · by_cases hf : is_free index = true
      · rw [if_pos hlt, if_pos hf]
        refine ⟨le_refl _, h1, ?_, fun _ => hf⟩
        intro j h3 h4
        omega
      · rw [if_pos hlt, if_neg hf]
        have hf2 : is_free index = false := by simpa using hf
        obtain ⟨a, b, c, d⟩ := ih (index + 1) (by omega) (by omega)
        refine ⟨by omega, b, ?_, d⟩
        intro j h3 h4
        by_cases hj : j = index
        · subst hj; exact hf2
        · exact c j (by omega) h4
    · have : index = capacity := by omega
      subst this
      simp
      intro j h3 h4
      omega

theorem first_free_spec (capacity : Nat) (is_free : Nat → Bool) :
    first_free capacity is_free ≤ capacity ∧
    (∀ j, j < first_free capacity is_free → is_free j = false) ∧
    (first_free capacity is_free < capacity → is_free (first_free capacity is_free) = true) := by
  obtain ⟨_, b, c, d⟩ := first_free_loop_spec capacity is_free capacity 0 (Nat.zero_le _) (by omega)
  exact ⟨b, fun j hj => c j (Nat.zero_le _) hj, d⟩

theorem first_free_eq_capacity (capacity : Nat) (is_free : Nat → Bool)
    (h : ∀ j, j < capacity → is_free j = false) : first_free capacity is_free = capacity := by
  obtain ⟨a, _, c⟩ := first_free_spec capacity is_free
  by_contra hne
  have hlt : first_free capacity is_free < capacity := by omega
  have := c hlt
  rw [h _ hlt] at this
  exact Bool.false_ne_true this

/-! ## Lemmas on the record of collaborator calls -/

theorem only_calls_refl (s : ipc_server) : only_calls s s :=
  ⟨[], by simp⟩

theorem only_calls_call (s : ipc_server) (c : xrt_call) : only_calls s (s.call c) :=
  ⟨[c], rfl⟩

theorem only_calls_trans {a b c : ipc_server} (h1 : only_calls a b) (h2 : only_calls b c) :
    only_calls a c := by
  obtain ⟨cs1, rfl⟩ := h1
  obtain ⟨cs2, rfl⟩ := h2
  exact ⟨cs1 ++ cs2, by simp⟩

theorem only_calls_current_slot_index {s s' : ipc_server} (h : only_calls s s') :
    s'.current_slot_index = s.current_slot_index := by
  obtain ⟨cs, rfl⟩ := h
  rfl

theorem _update_layer_only_calls (s : ipc_server) (t : Nat) (xc : xrt_compositor)
    (layer : ipc_layer_entry) : only_calls s (_update_layer s t xc layer).2 := by
  unfold _update_layer
  split
  · unfold _update_projection_layer
    split
    · exact only_calls_refl s
    · split
      · exact only_calls_refl s
      · exact only_calls_call s _
  · unfold _update_projection_layer_depth
    split
    · exact only_calls_refl s
    · split
      · exact only_calls_refl s
      · exact only_calls_call s _
  all_goals first
    | exact only_calls_refl s
    | (unfold _update_single_layer
       split
       · exact only_calls_refl s
       · exact only_calls_call s _)
    | (unfold _update_passthrough_layer
       split
       · exact only_calls_refl s
       · exact only_calls_call s _)

theorem _update_layers_loop_only_calls (t : Nat) (xc : xrt_compositor) (slot : ipc_layer_slot) :
    ∀ (fuel i : Nat) (s : ipc_server),
      only_calls s (_update_layers_loop t xc slot fuel i s).2 := by
  intro fuel
  induction fuel with
  | zero => intro i s; exact only_calls_refl s
  | succ fuel ih =>
    intro i s
    unfold _update_layers_loop
    split
    · have h1 := _update_layer_only_calls s t xc (slot.layers i)
      split
      · rename_i s1 heq
        rw [heq] at h1
        exact h1
      · rename_i s1 heq
        rw [heq] at h1
        exact only_calls_trans h1 (ih (i + 1) s1)
    · exact only_calls_refl s

theorem layer_sync_unref_rest_only_calls :
    ∀ (handles : List xrt_graphics_sync_handle_t) (s : ipc_server),
      only_calls s (layer_sync_unref_rest s handles) := by
  intro handles
  induction handles with
  | nil => intro s; exact only_calls_refl s
  | cons h rest ih =>
    intro s
    exact only_calls_trans (only_calls_call s _) (ih _)

theorem layer_sync_slot_index (s : ipc_server) (t slot_id : Nat)
    (handles : List xrt_graphics_sync_handle_t) (xc : xrt_compositor)
    (h : (s.threads t).xc = some xc) :
    (ipc_handle_compositor_layer_sync s t slot_id handles).1 = XRT_SUCCESS ∧
    (ipc_handle_compositor_layer_sync s t slot_id handles).2.1 =
      some ((s.current_slot_index + 1) % IPC_MAX_SLOTS) ∧
    (ipc_handle_compositor_layer_sync s t slot_id handles).2.2.current_slot_index =
      (s.current_slot_index + 1) % IPC_MAX_SLOTS := by
  have h1 := layer_sync_unref_rest_only_calls handles.tail s
  have h2 := only_calls_call (layer_sync_unref_rest s handles.tail) (.comp_layer_begin xc)
  have h3 := _update_layers_loop_only_calls t xc
    ((layer_sync_unref_rest s handles.tail).slots slot_id)
    ((layer_sync_unref_rest s handles.tail).slots slot_id).layer_count 0
    ((layer_sync_unref_rest s handles.tail).call (.comp_layer_begin xc))
  have h4 := only_calls_current_slot_index (only_calls_trans (only_calls_trans h1 h2) h3)
  have hmod : ∀ n : Nat, n % UINT32_SIZE % IPC_MAX_SLOTS = n % IPC_MAX_SLOTS := by
    intro n
    exact Nat.mod_mod_of_dvd n (by decide)
  simp only [ipc_handle_compositor_layer_sync, h, _update_layers, ipc_server.call, hmod]
  simp only [ipc_server.call] at h4
  rw [h4]
  exact ⟨trivial, rfl, rfl⟩

theorem layer_sync_slot_index_lt (s : ipc_server) (t slot_id : Nat)
    (handles : List xrt_graphics_sync_handle_t) (h : s.current_slot_index < IPC_MAX_SLOTS) :
    (ipc_handle_compositor_layer_sync s t slot_id handles).2.2.current_slot_index
      < IPC_MAX_SLOTS := by
  cases hxc : (s.threads t).xc with
  | none => simp [ipc_handle_compositor_layer_sync, hxc, h]
  | some xc =>
    rw [(layer_sync_slot_index s t slot_id handles xc hxc).2.2]
    exact Nat.mod_lt _ (by decide)

theorem layer_sync_run_slot_index_lt :
    ∀ (reqs : List (Nat × Nat × List xrt_graphics_sync_handle_t)) (s : ipc_server),
      s.current_slot_index < IPC_MAX_SLOTS →
      (layer_sync_run s reqs).current_slot_index < IPC_MAX_SLOTS := by
  intro reqs
  induction reqs with
  | nil => intro s h; exact h
  | cons r rest ih =>
    intro s h
    obtain ⟨t, slot_id, handles⟩ := r
    exact ih _ (layer_sync_slot_index_lt s t slot_id handles h)

/-! ## The claims -/

/-- C1 (the code departs from the claim). On the example server the client has a
compositor and layer 1 of composition slot 0 is a quad layer whose swapchain id 1 names an
empty entry of the client's `xscs`; `_update_layers` reports the failure, yet
`ipc_handle_compositor_layer_sync` returns `XRT_SUCCESS` and the compositor receives
`layer_begin`, the quad layer 0 and then `layer_commit`. -/
theorem layer_sync_commits_despite_unresolved_swapchain :
    (example_server_bad_layer.threads 0).xc = some 1 ∧
    ((example_server_bad_layer.slots 0).layers 1).data.type = XRT_LAYER_QUAD ∧
    (example_server_bad_layer.threads 0).xscs
      (((example_server_bad_layer.slots 0).layers 1).swapchain_ids 0) = none ∧
    (_update_layers example_server_bad_layer 0 1 (example_server_bad_layer.slots 0)).1 = false ∧
    (ipc_handle_compositor_layer_sync example_server_bad_layer 0 0 []).1 = XRT_SUCCESS ∧
    (ipc_handle_compositor_layer_sync example_server_bad_layer 0 0 []).2.2.calls =
      [.comp_layer_begin 1,
       .comp_layer_single .quad 1 { handle := 1, view_count := 2 } { handle := 7, image_count := 3 },
       .comp_layer_commit 1 none] := by
  refine ⟨rfl, rfl, rfl, rfl, rfl, rfl⟩

/-- C2. For a client with a compositor, `ipc_handle_compositor_layer_sync` succeeds, sets
`current_slot_index` to `(old + 1) mod IPC_MAX_SLOTS` and returns that value as
`out_free_slot_id`, whatever the layers of the slot are; the index starts at 0 after
`init_server_state` and is below `IPC_MAX_SLOTS` after every call of every run of
requests from there. -/
theorem layer_sync_advances_slot_index (s : ipc_server) (t slot_id : Nat)
    (handles : List xrt_graphics_sync_handle_t) (xc : xrt_compositor)
    (h : (s.threads t).xc = some xc)
    (s0 : ipc_server) (reqs : List (Nat × Nat × List xrt_graphics_sync_handle_t)) :
    (ipc_handle_compositor_layer_sync s t slot_id handles).1 = XRT_SUCCESS ∧
    (ipc_handle_compositor_layer_sync s t slot_id handles).2.1 =
      some ((s.current_slot_index + 1) % IPC_MAX_SLOTS) ∧
    (ipc_handle_compositor_layer_sync s t slot_id handles).2.2.current_slot_index =
      (s.current_slot_index + 1) % IPC_MAX_SLOTS ∧
    (ipc_handle_compositor_layer_sync s t slot_id handles).2.2.current_slot_index
      < IPC_MAX_SLOTS ∧
    (init_server_state s0).current_slot_index = 0 ∧
    (layer_sync_run (init_server_state s0) reqs).current_slot_index < IPC_MAX_SLOTS := by
  obtain ⟨a, b, c⟩ := layer_sync_slot_index s t slot_id handles xc h
  refine ⟨a, b, c, ?_, rfl, ?_⟩
  · rw [c]
    exact Nat.mod_lt _ (by decide)
  · refine layer_sync_run_slot_index_lt reqs _ ?_
    show (0 : Nat) < IPC_MAX_SLOTS
    decide

/-- Witness of C2: on the example server, whose slot 0 holds a layer that does not
resolve, the index goes from 0 to 1, and it is below `IPC_MAX_SLOTS` after two calls. -/
theorem layer_sync_advances_slot_index_witness :
    (example_server_bad_layer.threads 0).xc = some 1 ∧
    (ipc_handle_compositor_layer_sync example_server_bad_layer 0 0 []).1 = XRT_SUCCESS ∧
    (ipc_handle_compositor_layer_sync example_server_bad_layer 0 0 []).2.1 =
      some ((example_server_bad_layer.current_slot_index + 1) % IPC_MAX_SLOTS) ∧
    (ipc_handle_compositor_layer_sync example_server_bad_layer 0 0 []).2.2.current_slot_index =
      (example_server_bad_layer.current_slot_index + 1) % IPC_MAX_SLOTS ∧
    (ipc_handle_compositor_layer_sync example_server_bad_layer 0 0 []).2.2.current_slot_index
      < IPC_MAX_SLOTS ∧
    (init_server_state example_server).current_slot_index = 0 ∧
    (layer_sync_run (init_server_state example_server)
      [(0, 0, []), (0, 1, [some 4])]).current_slot_index < IPC_MAX_SLOTS :=
  ⟨rfl, layer_sync_advances_slot_index example_server_bad_layer 0 0 [] 1 rfl example_server
    [(0, 0, []), (0, 1, [some 4])]⟩

/-- C3. When every entry of the client's `swapchain_data` below
`IPC_MAX_CLIENT_SWAPCHAINS` is active, `ipc_handle_swapchain_create` and
`ipc_handle_swapchain_import` return `XRT_ERROR_IPC_FAILURE`, write no output and leave
the whole server as it was: `xscs`, `swapchain_data` and `swapchain_count` are unchanged
and no compositor call is recorded. -/
theorem swapchain_create_full_table_fails (IPC_MAX_CLIENT_SWAPCHAINS : Nat) (s : ipc_server)
    (t : Nat) (info : xrt_swapchain_create_info) (handle_count : Nat)
    (comp_xret : xrt_result_t) (comp_xsc : xrt_swapchain)
    (hfull : ∀ i, i < IPC_MAX_CLIENT_SWAPCHAINS → ((s.threads t).swapchain_data i).active = true) :
    ipc_handle_swapchain_create IPC_MAX_CLIENT_SWAPCHAINS s t info comp_xret comp_xsc =
      (XRT_ERROR_IPC_FAILURE, none, s) ∧
    ipc_handle_swapchain_import IPC_MAX_CLIENT_SWAPCHAINS s t info handle_count comp_xret
      comp_xsc = (XRT_ERROR_IPC_FAILURE, none, s) := by
  have hidx : first_free IPC_MAX_CLIENT_SWAPCHAINS
      (fun i => !((s.threads t).swapchain_data i).active) = IPC_MAX_CLIENT_SWAPCHAINS :=
    first_free_eq_capacity _ _ (fun j hj => by simp [hfull j hj])
  have hval : validate_swapchain_state IPC_MAX_CLIENT_SWAPCHAINS (s.threads t) =
      .error XRT_ERROR_IPC_FAILURE := by
    simp [validate_swapchain_state, hidx]
  constructor
  · simp only [ipc_handle_swapchain_create, hval]
  · simp only [ipc_handle_swapchain_import, hval]

/-- Witness of C3: a table of capacity 2 with both entries active, where the compositor
would have answered with success. -/
theorem swapchain_create_full_table_fails_witness :
    (∀ i, i < 2 → ((example_server_full_table.threads 0).swapchain_data i).active = true) ∧
    ipc_handle_swapchain_create 2 example_server_full_table 0
      { width := 8, height := 8, format := 0 } XRT_SUCCESS { handle := 9, image_count := 3 } =
      (XRT_ERROR_IPC_FAILURE, none, example_server_full_table) ∧
    ipc_handle_swapchain_import 2 example_server_full_table 0
      { width := 8, height := 8, format := 0 } 3 XRT_SUCCESS { handle := 9, image_count := 3 } =
      (XRT_ERROR_IPC_FAILURE, none, example_server_full_table) :=
  ⟨by decide,
   swapchain_create_full_table_fails 2 example_server_full_table 0
     { width := 8, height := 8, format := 0 } 3 XRT_SUCCESS { handle := 9, image_count := 3 }
     (by decide)⟩

/-- C4 (the code departs from the claim). A client with a compositor and an empty
swapchain table of capacity 8 sends `ipc_handle_swapchain_destroy(0)`: the handler
succeeds and decrements `swapchain_count` without looking at the entry, so the count
wraps to `2 ^ 32 - 1` while no entry is active. The same happens when a created swapchain
is destroyed twice. -/
theorem swapchain_destroy_of_empty_entry_breaks_count :
    (example_server_one_client.threads 0).swapchain_count = 0 ∧
    active_swapchains (example_server_one_client.threads 0) 8 = 0 ∧
    (ipc_handle_swapchain_destroy example_server_one_client 0 0).1 = XRT_SUCCESS ∧
    ((swapchain_run 8 0 example_server_one_client [.destroy 0]).threads 0).swapchain_count
      = 4294967295 ∧
    active_swapchains ((swapchain_run 8 0 example_server_one_client [.destroy 0]).threads 0) 8
      = 0 ∧
    ((swapchain_run 8 0 example_server_one_client
      [.create { width := 8, height := 8, format := 0 } XRT_SUCCESS { handle := 9, image_count := 3 },
       .destroy 0, .destroy 0]).threads 0).swapchain_count = 4294967295 ∧
    active_swapchains ((swapchain_run 8 0 example_server_one_client
      [.create { width := 8, height := 8, format := 0 } XRT_SUCCESS { handle := 9, image_count := 3 },
       .destroy 0, .destroy 0]).threads 0) 8 = 0 := by
  refine ⟨rfl, rfl, rfl, ?_, rfl, ?_, rfl⟩ <;> decide

theorem get_new_space_id_of_lowest_free (IPC_MAX_CLIENT_SPACES : Nat) (ics : ipc_client_state)
    (i : Nat) (hi : i < IPC_MAX_CLIENT_SPACES) (hfree : ics.xspcs i = none)
    (hmin : ∀ j, j < i → ics.xspcs j ≠ none) :
    get_new_space_id IPC_MAX_CLIENT_SPACES ics = .ok i := by
  obtain ⟨_, b, c⟩ := first_free_spec IPC_MAX_CLIENT_SPACES (fun i => (ics.xspcs i).isNone)
  have hle : first_free IPC_MAX_CLIENT_SPACES (fun i => (ics.xspcs i).isNone) ≤ i := by
    by_contra hgt
    have := b i (by omega)
    simp [hfree] at this
  have hge : i ≤ first_free IPC_MAX_CLIENT_SPACES (fun i => (ics.xspcs i).isNone) := by
    by_contra hlt
    have h1 := c (by omega)
    have h2 := hmin (first_free IPC_MAX_CLIENT_SPACES (fun i => (ics.xspcs i).isNone))
      (by omega)
    simp only [Option.isNone_iff_eq_none] at h1
    exact h2 h1
  have heq : first_free IPC_MAX_CLIENT_SPACES (fun i => (ics.xspcs i).isNone) = i := by omega
  simp only [get_new_space_id, heq]
  rw [if_neg (by omega)]

theorem get_new_space_id_of_full (IPC_MAX_CLIENT_SPACES : Nat) (ics : ipc_client_state)
    (hfull : ∀ i, i < IPC_MAX_CLIENT_SPACES → ics.xspcs i ≠ none) :
    get_new_space_id IPC_MAX_CLIENT_SPACES ics = .error XRT_ERROR_IPC_FAILURE := by
  have heq : first_free IPC_MAX_CLIENT_SPACES (fun i => (ics.xspcs i).isNone) =
      IPC_MAX_CLIENT_SPACES :=
    first_free_eq_capacity _ _ (fun j hj => by
      have := hfull j hj
      cases h : ics.xspcs j with
      | none => exact absurd h this
      | some x => rfl)
  simp [get_new_space_id, heq]

theorem get_new_space_id_ok (IPC_MAX_CLIENT_SPACES : Nat) (ics : ipc_client_state) (i : Nat)
    (h : get_new_space_id IPC_MAX_CLIENT_SPACES ics = .ok i) :
    i < IPC_MAX_CLIENT_SPACES ∧ ics.xspcs i = none ∧ ∀ j, j < i → ics.xspcs j ≠ none := by
  obtain ⟨_, b, c⟩ := first_free_spec IPC_MAX_CLIENT_SPACES (fun i => (ics.xspcs i).isNone)
  unfold get_new_space_id at h
  simp only at h
  split at h
  · cases h
  · rename_i hlt
    injection h with h
    subst h
    refine ⟨by omega, ?_, ?_⟩
    · have := c (by omega)
      simpa using this
    · intro j hj hnone
      have := b j hj
      simp [hnone] at this

/-- C5. `track_space` allocates the lowest free index: when `i` is the smallest index
below `IPC_MAX_CLIENT_SPACES` whose entry of `xspcs` is empty, it returns `i` and stores
the space in entry `i`, every other entry and every other field being unchanged; when no
entry below the capacity is empty it returns `XRT_ERROR_IPC_FAILURE` and changes nothing;
and it fails exactly when no entry is empty. -/
theorem track_space_lowest_free_index (IPC_MAX_CLIENT_SPACES : Nat) (ics : ipc_client_state)
    (xs : Option xrt_space) :
    (∀ i, i < IPC_MAX_CLIENT_SPACES → ics.xspcs i = none → (∀ j, j < i → ics.xspcs j ≠ none) →
      track_space IPC_MAX_CLIENT_SPACES ics xs =
        (.ok i, { ics with xspcs := Function.update ics.xspcs i xs }) ∧
      (track_space IPC_MAX_CLIENT_SPACES ics xs).2.xspcs i = xs ∧
      ∀ j, j ≠ i → (track_space IPC_MAX_CLIENT_SPACES ics xs).2.xspcs j = ics.xspcs j) ∧
    ((∀ i, i < IPC_MAX_CLIENT_SPACES → ics.xspcs i ≠ none) →
      track_space IPC_MAX_CLIENT_SPACES ics xs = (.error XRT_ERROR_IPC_FAILURE, ics)) ∧
    ((∃ xret, (track_space IPC_MAX_CLIENT_SPACES ics xs).1 = .error xret) ↔
      ∀ i, i < IPC_MAX_CLIENT_SPACES → ics.xspcs i ≠ none) := by
  refine ⟨?_, ?_, ?_⟩
  · intro i hi hfree hmin
    have h := get_new_space_id_of_lowest_free IPC_MAX_CLIENT_SPACES ics i hi hfree hmin
    have heq : track_space IPC_MAX_CLIENT_SPACES ics xs =
        (.ok i, { ics with xspcs := Function.update ics.xspcs i xs }) := by
      simp only [track_space, h]
    refine ⟨heq, ?_, ?_⟩
    · rw [heq]
      simp
    · intro j hj
      rw [heq]
      simp [Function.update_noteq hj]
  · intro hfull
    simp only [track_space, get_new_space_id_of_full IPC_MAX_CLIENT_SPACES ics hfull]
  · constructor
    · rintro ⟨xret, hx⟩ i hi
      cases hg : get_new_space_id IPC_MAX_CLIENT_SPACES ics with
      | ok k =>
        simp only [track_space, hg] at hx
        cases hx
      | error e =>
        intro hnone
        -- a smallest empty index exists, so the scan would have succeeded
        have hex : ∃ k, k < IPC_MAX_CLIENT_SPACES ∧ ics.xspcs k = none := ⟨i, hi, hnone⟩
        classical
        have hk := Nat.find_spec hex
        have hmin : ∀ j, j < Nat.find hex → ics.xspcs j ≠ none := by
          intro j hj hjn
          exact Nat.find_min hex hj ⟨by omega, hjn⟩
        have := get_new_space_id_of_lowest_free IPC_MAX_CLIENT_SPACES ics _ hk.1 hk.2 hmin
        rw [hg] at this
        cases this
    · intro hfull
      exact ⟨XRT_ERROR_IPC_FAILURE, by
        simp only [track_space, get_new_space_id_of_full IPC_MAX_CLIENT_SPACES ics hfull]⟩

/-- Witness of C5: in a table of capacity 4 holding spaces at 0 and 1, the space goes to
index 2; in the same table with capacity 2 the call fails. -/
theorem track_space_lowest_free_index_witness :
    track_space 4 (example_server_spaces.threads 0) (some 50) =
      (.ok 2, { (example_server_spaces.threads 0) with
        xspcs := Function.update (example_server_spaces.threads 0).xspcs 2 (some 50) }) ∧
    track_space 2 (example_server_spaces.threads 0) (some 50) =
      (.error XRT_ERROR_IPC_FAILURE, example_server_spaces.threads 0) :=
  ⟨((track_space_lowest_free_index 4 (example_server_spaces.threads 0) (some 50)).1 2
      (by decide) (by decide) (by decide)).1,
   (track_space_lowest_free_index 2 (example_server_spaces.threads 0) (some 50)).2.1
      (by decide)⟩

theorem validate_space_id_ok_iff (IPC_MAX_CLIENT_SPACES : Nat) (ics : ipc_client_state)
    (space_id : Int) (xspc : xrt_space) :
    validate_space_id IPC_MAX_CLIENT_SPACES ics space_id = .ok xspc ↔
      0 ≤ space_id ∧ space_id < (IPC_MAX_CLIENT_SPACES : Int) ∧
        ics.xspcs space_id.toNat = some xspc := by
  unfold validate_space_id
  by_cases h1 : space_id < 0
  · simp only [h1, if_true]
    constructor
    · intro h; cases h
    · intro h; omega
  · by_cases h2 : space_id ≥ (IPC_MAX_CLIENT_SPACES : Int)
    · simp only [h1, h2, if_true, if_false]
      constructor
      · intro h; cases h
      · intro h; omega
    · simp only [h1, h2, if_false]
      cases hx : ics.xspcs space_id.toNat with
      | none => simp
      | some x =>
        simp only [Except.ok.injEq, Option.some.injEq]
        constructor
        · intro h; exact ⟨by omega, by omega, h⟩
        · intro h; exact h.2.2

theorem validate_space_id_error (IPC_MAX_CLIENT_SPACES : Nat) (ics : ipc_client_state)
    (space_id : Int) (xret : xrt_result_t)
    (h : validate_space_id IPC_MAX_CLIENT_SPACES ics space_id = .error xret) :
    xret = XRT_ERROR_IPC_FAILURE := by
  unfold validate_space_id at h
  split at h
  · cases h; rfl
  · split at h
    · cases h; rfl
    · split at h
      · cases h; rfl
      · cases h

theorem validate_space_id_of_empty (IPC_MAX_CLIENT_SPACES : Nat) (ics : ipc_client_state)
    (id : Nat) (h : ics.xspcs id = none ∨ IPC_MAX_CLIENT_SPACES ≤ id) :
    validate_space_id IPC_MAX_CLIENT_SPACES ics (id : Int) = .error XRT_ERROR_IPC_FAILURE := by
  cases hv : validate_space_id IPC_MAX_CLIENT_SPACES ics (id : Int) with
  | error e => rw [validate_space_id_error _ _ _ _ hv]
  | ok x =>
    obtain ⟨_, h2, h3⟩ := (validate_space_id_ok_iff _ _ _ _).1 hv
    simp only [Int.toNat_ofNat] at h3
    rcases h with h | h
    · rw [h] at h3; cases h3
    · omega

theorem space_destroy_clears_entry (IPC_MAX_CLIENT_SPACES : Nat) (s : ipc_server) (t id : Nat)
    (h : (ipc_handle_space_destroy IPC_MAX_CLIENT_SPACES s t id).1 = XRT_SUCCESS) :
    ((ipc_handle_space_destroy IPC_MAX_CLIENT_SPACES s t id).2.threads t).xspcs id = none := by
  unfold ipc_handle_space_destroy at h ⊢
  cases hv : validate_space_id IPC_MAX_CLIENT_SPACES (s.threads t) (id : Int) with
  | error e =>
    have := validate_space_id_error _ _ _ _ hv
    subst this
    simp only [hv] at h
    cases h
  | ok x =>
    simp only [hv]
    split <;> split <;>
      simp [ipc_server.set_ics, xrt_space_reference_null, ipc_server.call] <;>
      (repeat' split) <;> simp [ipc_server.call]

/-- C6. `validate_space_id` succeeds exactly when `0 <= id < IPC_MAX_CLIENT_SPACES` and
`xspcs[id]` is occupied, it then returns that entry, and its only error is
`XRT_ERROR_IPC_FAILURE`. A successful `ipc_handle_space_destroy(id)` leaves entry `id`
empty, and as long as entry `id` is empty (or `id` is outside the table) a destroy, a
`locate_space` with `id` as base space or as space, and a `create_offset` with `id` as
parent all return `XRT_ERROR_IPC_FAILURE` and leave the server unchanged; so does a second
destroy right after the first. A client state that was just zeroed has no occupied entry. -/
theorem validate_space_id_rejects_stale_ids (IPC_MAX_CLIENT_SPACES : Nat) (s : ipc_server)
    (t id : Nat) :
    (∀ (ics : ipc_client_state) (space_id : Int) (xspc : xrt_space),
      validate_space_id IPC_MAX_CLIENT_SPACES ics space_id = .ok xspc ↔
        0 ≤ space_id ∧ space_id < (IPC_MAX_CLIENT_SPACES : Int) ∧
          ics.xspcs space_id.toNat = some xspc) ∧
    (∀ (ics : ipc_client_state) (space_id : Int) (xret : xrt_result_t),
      validate_space_id IPC_MAX_CLIENT_SPACES ics space_id = .error xret →
        xret = XRT_ERROR_IPC_FAILURE) ∧
    ((ipc_handle_space_destroy IPC_MAX_CLIENT_SPACES s t id).1 = XRT_SUCCESS →
      ((ipc_handle_space_destroy IPC_MAX_CLIENT_SPACES s t id).2.threads t).xspcs id = none ∧
      ipc_handle_space_destroy IPC_MAX_CLIENT_SPACES
        (ipc_handle_space_destroy IPC_MAX_CLIENT_SPACES s t id).2 t id =
        (XRT_ERROR_IPC_FAILURE, (ipc_handle_space_destroy IPC_MAX_CLIENT_SPACES s t id).2)) ∧
    ((s.threads t).xspcs id = none ∨ IPC_MAX_CLIENT_SPACES ≤ id →
      ipc_handle_space_destroy IPC_MAX_CLIENT_SPACES s t id = (XRT_ERROR_IPC_FAILURE, s) ∧
      (∀ (other : Nat) (xso_xret : xrt_result_t),
        ipc_handle_space_locate_space IPC_MAX_CLIENT_SPACES s t id other xso_xret =
          (XRT_ERROR_IPC_FAILURE, s) ∧
        ipc_handle_space_locate_space IPC_MAX_CLIENT_SPACES s t other id xso_xret =
          (XRT_ERROR_IPC_FAILURE, s)) ∧
      (∀ (xso_xret : xrt_result_t) (xso_xs : xrt_space),
        ipc_handle_space_create_offset IPC_MAX_CLIENT_SPACES s t id xso_xret xso_xs =
          (XRT_ERROR_IPC_FAILURE, none, s))) ∧
    (∀ i, ipc_client_state.zero.xspcs i = none) := by
  have hempty : ∀ (s : ipc_server),
      (s.threads t).xspcs id = none ∨ IPC_MAX_CLIENT_SPACES ≤ id →
      ipc_handle_space_destroy IPC_MAX_CLIENT_SPACES s t id = (XRT_ERROR_IPC_FAILURE, s) := by
    intro s h
    simp only [ipc_handle_space_destroy, validate_space_id_of_empty _ _ _ h]
  refine ⟨validate_space_id_ok_iff IPC_MAX_CLIENT_SPACES,
    validate_space_id_error IPC_MAX_CLIENT_SPACES, ?_, ?_, fun _ => rfl⟩
  · intro h
    have hc := space_destroy_clears_entry IPC_MAX_CLIENT_SPACES s t id h
    exact ⟨hc, hempty _ (Or.inl hc)⟩
  · intro h
    have hv := validate_space_id_of_empty IPC_MAX_CLIENT_SPACES (s.threads t) id h
    refine ⟨hempty s h, ?_, ?_⟩
    · intro other xso_xret
      constructor
      · simp only [ipc_handle_space_locate_space, hv]
      · cases ho : validate_space_id IPC_MAX_CLIENT_SPACES (s.threads t) (other : Int) with
        | error e =>
          have := validate_space_id_error _ _ _ _ ho
          subst this
          simp only [ipc_handle_space_locate_space, ho]
        | ok x => simp only [ipc_handle_space_locate_space, ho, hv]
    · intro xso_xret xso_xs
      simp only [ipc_handle_space_create_offset, hv]

/-- Witness of C6: in the example table (capacity 4, spaces at 0 and 1) destroying id 1
succeeds and a second destroy of id 1 fails; id 2 was never allocated and fails. -/
theorem validate_space_id_rejects_stale_ids_witness :
    (ipc_handle_space_destroy 4 example_server_spaces 0 1).1 = XRT_SUCCESS ∧
    ipc_handle_space_destroy 4 (ipc_handle_space_destroy 4 example_server_spaces 0 1).2 0 1 =
      (XRT_ERROR_IPC_FAILURE, (ipc_handle_space_destroy 4 example_server_spaces 0 1).2) ∧
    ((example_server_spaces.threads 0).xspcs 2 = none ∨ 4 ≤ 2) ∧
    ipc_handle_space_locate_space 4 example_server_spaces 0 0 2 XRT_SUCCESS =
      (XRT_ERROR_IPC_FAILURE, example_server_spaces) :=
  ⟨rfl,
   ((validate_space_id_rejects_stale_ids 4 example_server_spaces 0 1).2.2.1 rfl).2,
   Or.inl rfl,
   (((validate_space_id_rejects_stale_ids 4 example_server_spaces 0 2).2.2.2.1
      (Or.inl rfl)).2.1 0 XRT_SUCCESS).2⟩

/-- C7. When the connection already has a session, `ipc_handle_session_create` returns
`XRT_ERROR_IPC_SESSION_ALREADY_CREATED` and the server is unchanged: no call to the system
or the system compositor is recorded and no field of the client state changes. -/
theorem session_create_already_created (s : ipc_server) (t : Nat) (xsi : xrt_session_info)
    (create_native_compositor : Bool) (new_xs : xrt_session) (native_xret : xrt_result_t)
    (native_xcn : xrt_compositor) (h : (s.threads t).xs ≠ none) :
    ipc_handle_session_create s t xsi create_native_compositor new_xs native_xret native_xcn =
      (XRT_ERROR_IPC_SESSION_ALREADY_CREATED, s) := by
  simp only [ipc_handle_session_create, h, ne_eq, not_false_eq_true, if_true]

/-- Witness of C7: the example client already has session 1 and asks for an overlay
session. -/
theorem session_create_already_created_witness :
    (example_server_one_client.threads 0).xs ≠ none ∧
    ipc_handle_session_create example_server_one_client 0 example_overlay_info true 3
      XRT_SUCCESS 5 = (XRT_ERROR_IPC_SESSION_ALREADY_CREATED, example_server_one_client) :=
  ⟨by decide,
   session_create_already_created example_server_one_client 0 example_overlay_info true 3
     XRT_SUCCESS 5 (by decide)⟩

/-- C8 as stated fails: a client without a session asks for a headless session
(`create_native_compositor = false`) and creation succeeds; the handler has asked the
system compositor for a native compositor and the client's `xc` is set to it. -/
theorem session_create_headless_still_creates_compositor :
    (example_server_connected.threads 0).xs = none ∧
    (ipc_handle_session_create example_server_connected 0 example_primary_info false 3
      XRT_SUCCESS 5).1 = XRT_SUCCESS ∧
    ((ipc_handle_session_create example_server_connected 0 example_primary_info false 3
      XRT_SUCCESS 5).2.threads 0).xc = some 5 ∧
    (ipc_handle_session_create example_server_connected 0 example_primary_info false 3
      XRT_SUCCESS 5).2.calls =
      [.u_session_create, .syscomp_create_native_compositor example_primary_info,
       .syscomp_set_state (some 5) false false, .syscomp_set_z_order (some 5) 0] := by
  refine ⟨rfl, rfl, rfl, rfl⟩

/-- C8, amended. `ipc_handle_session_create` does not act on `create_native_compositor`:
for a connection without a session, on a system with a system compositor, it asks for a
session and then for a native compositor whatever the flag is, and when that succeeds the
client's `xs` and `xc` are both set, the compositor being registered with the client's
current visibility, focus and z-order. Only `create_session` of `u_system.c` called with
`out_xcn = NULL`, which this handler never does, makes a session without a compositor. -/
theorem session_create_always_creates_compositor (s : ipc_server) (t : Nat)
    (xsi : xrt_session_info) (create_native_compositor : Bool) (new_xs : xrt_session)
    (native_xcn : xrt_compositor) (hnone : (s.threads t).xs = none)
    (hsys : s.has_xsysc = true) :
    (ipc_handle_session_create s t xsi create_native_compositor new_xs XRT_SUCCESS
      native_xcn).1 = XRT_SUCCESS ∧
    ((ipc_handle_session_create s t xsi create_native_compositor new_xs XRT_SUCCESS
      native_xcn).2.threads t).xs = some new_xs ∧
    ((ipc_handle_session_create s t xsi create_native_compositor new_xs XRT_SUCCESS
      native_xcn).2.threads t).xc = some native_xcn ∧
    (ipc_handle_session_create s t xsi create_native_compositor new_xs XRT_SUCCESS
      native_xcn).2.calls =
      s.calls ++ [.u_session_create, .syscomp_create_native_compositor xsi,
        .syscomp_set_state (some native_xcn) (s.threads t).client_state.session_visible
          (s.threads t).client_state.session_focused,
        .syscomp_set_z_order (some native_xcn) ((xsi.z_order % UINT32_SIZE : Nat) : Int)] ∧
    (create_session s xsi false new_xs XRT_SUCCESS native_xcn).1 = XRT_SUCCESS ∧
    (create_session s xsi false new_xs XRT_SUCCESS native_xcn).2.2.1 = none ∧
    (create_session s xsi false new_xs XRT_SUCCESS native_xcn).2.2.2.calls =
      s.calls ++ [.u_session_create] := by
  simp [ipc_handle_session_create, create_session, hnone, hsys, ipc_server.call,
    ipc_server.set_ics]

/-- Witness of C8, amended: the headless request and the regular request of a fresh
connection both end with compositor 5 installed. -/
theorem session_create_always_creates_compositor_witness :
    (example_server_connected.threads 0).xs = none ∧ example_server_connected.has_xsysc = true ∧
    ((ipc_handle_session_create example_server_connected 0 example_primary_info false 3
      XRT_SUCCESS 5).2.threads 0).xc = some 5 ∧
    ((ipc_handle_session_create example_server_connected 0 example_primary_info true 3
      XRT_SUCCESS 5).2.threads 0).xc = some 5 :=
  ⟨rfl, rfl,
   (session_create_always_creates_compositor example_server_connected 0 example_primary_info
      false 3 5 rfl rfl).2.2.1,
   (session_create_always_creates_compositor example_server_connected 0 example_primary_info
      true 3 5 rfl rfl).2.2.1⟩

/-- C9. For a connection with a session, the first `ipc_handle_session_destroy` returns
`XRT_SUCCESS` and clears the session; the second returns
`XRT_ERROR_IPC_SESSION_NOT_CREATED` and leaves the server exactly as the first call left
it, with no destroy call recorded; after either call the client state of every other
thread slot is what it was. -/
theorem session_destroy_twice (s : ipc_server) (t : Nat) (h : (s.threads t).xs ≠ none) :
    (ipc_handle_session_destroy s t).1 = XRT_SUCCESS ∧
    ((ipc_handle_session_destroy s t).2.threads t).xs = none ∧
    ipc_handle_session_destroy (ipc_handle_session_destroy s t).2 t =
      (XRT_ERROR_IPC_SESSION_NOT_CREATED, (ipc_handle_session_destroy s t).2) ∧
    (∀ j, j ≠ t → (ipc_handle_session_destroy s t).2.threads j = s.threads j) ∧
    (∀ j, j ≠ t →
      (ipc_handle_session_destroy (ipc_handle_session_destroy s t).2 t).2.threads j =
        s.threads j) := by
  have h1 : ipc_handle_session_destroy s t =
      (XRT_SUCCESS, ipc_server_client_destroy_session_and_compositor s t) := by
    simp only [ipc_handle_session_destroy, h, if_false]
  have h2 : ((ipc_server_client_destroy_session_and_compositor s t).threads t).xs = none := by
    unfold ipc_server_client_destroy_session_and_compositor
    simp only [ipc_server.set_ics, Function.update_same]
  have h3 : ∀ j, j ≠ t →
      (ipc_server_client_destroy_session_and_compositor s t).threads j = s.threads j := by
    intro j hj
    unfold ipc_server_client_destroy_session_and_compositor
    simp only [ipc_server.set_ics, Function.update_noteq hj]
    cases (s.threads t).xc <;> cases (s.threads t).xs <;> rfl
  have h4 : ipc_handle_session_destroy (ipc_server_client_destroy_session_and_compositor s t) t =
      (XRT_ERROR_IPC_SESSION_NOT_CREATED,
        ipc_server_client_destroy_session_and_compositor s t) := by
    simp only [ipc_handle_session_destroy, h2, if_true]
  rw [h1]
  refine ⟨rfl, h2, h4, h3, ?_⟩
  intro j hj
  simp only [h4]
  exact h3 j hj

/-- Witness of C9: the example client, which has session 1, next to the clients of the
other slots. -/
theorem session_destroy_twice_witness :
    (example_server_two_clients.threads 0).xs ≠ none ∧
    (ipc_handle_session_destroy example_server_two_clients 0).1 = XRT_SUCCESS ∧
    ipc_handle_session_destroy (ipc_handle_session_destroy example_server_two_clients 0).2 0 =
      (XRT_ERROR_IPC_SESSION_NOT_CREATED,
        (ipc_handle_session_destroy example_server_two_clients 0).2) ∧
    (ipc_handle_session_destroy example_server_two_clients 0).2.threads 1 =
      example_server_two_clients.threads 1 :=
  ⟨by decide,
   (session_destroy_twice example_server_two_clients 0 (by decide)).1,
   (session_destroy_twice example_server_two_clients 0 (by decide)).2.2.1,
   (session_destroy_twice example_server_two_clients 0 (by decide)).2.2.2.1 1 (by decide)⟩

theorem to_uint32_of_lt (n : Nat) (h : n < UINT32_SIZE) : to_uint32 (n : Int) = n := by
  unfold to_uint32
  unfold UINT32_SIZE at h
  omega

theorem handle_focused_client_events_spec (s : ipc_server) (t : Nat) (active_id prev : Int) :
    (handle_focused_client_events s t active_id prev).threads =
      Function.update s.threads t (focused_client_state (s.threads t) active_id) ∧
    (handle_focused_client_events s t active_id prev).active_client_index =
      s.active_client_index ∧
    (handle_focused_client_events s t active_id prev).last_active_client_index =
      s.last_active_client_index := by
  unfold handle_focused_client_events focused_client_state
  by_cases h1 : (s.threads t).server_thread_index = active_id <;>
    by_cases h2 : (s.threads t).client_state.session_overlay = true <;>
    by_cases h3 : (s.threads t).xc = none <;>
    simp [h1, h2, h3, ipc_server.set_ics, ipc_server.call]

theorem only_calls_ite_call {s x : ipc_server} (c : Prop) [Decidable c] (e : xrt_call)
    (h : only_calls s x) : only_calls s (if c then x.call e else x) := by
  split
  · exact only_calls_trans h (only_calls_call _ _)
  · exact h

theorem handle_overlay_client_events_only_calls (s : ipc_server) (t : Nat)
    (active_id prev : Int) : only_calls s (handle_overlay_client_events s t active_id prev) := by
  simp only [handle_overlay_client_events]
  split
  · exact only_calls_refl s
  · split
    · exact only_calls_refl s
    · apply only_calls_ite_call
      apply only_calls_ite_call
      split
      · exact only_calls_trans (only_calls_call _ _) (only_calls_call _ _)
      · exact only_calls_refl s

theorem flush_step_spec (s : ipc_server) (i : Nat) (active_id prev : Int) :
    (handle_overlay_client_events (handle_focused_client_events s i active_id prev) i
      active_id prev).threads =
      Function.update s.threads i (focused_client_state (s.threads i) active_id) ∧
    (handle_overlay_client_events (handle_focused_client_events s i active_id prev) i
      active_id prev).active_client_index = s.active_client_index ∧
    (handle_overlay_client_events (handle_focused_client_events s i active_id prev) i
      active_id prev).last_active_client_index = s.last_active_client_index := by
  obtain ⟨cs, ho⟩ := handle_overlay_client_events_only_calls
    (handle_focused_client_events s i active_id prev) i active_id prev
  rw [ho]
  exact handle_focused_client_events_spec s i active_id prev

theorem flush_loop_spec :
    ∀ (fuel i0 : Nat) (s : ipc_server),
      (flush_state_to_all_clients_locked_loop fuel i0 s).active_client_index =
        s.active_client_index ∧
      (flush_state_to_all_clients_locked_loop fuel i0 s).last_active_client_index =
        s.last_active_client_index ∧
      ∀ j, (flush_state_to_all_clients_locked_loop fuel i0 s).threads j =
        if i0 ≤ j ∧ j < i0 + fuel ∧ j < IPC_MAX_CLIENTS ∧ 0 ≤ (s.threads j).server_thread_index
        then focused_client_state (s.threads j) s.active_client_index
        else s.threads j := by
  intro fuel
  induction fuel with
  | zero =>
    intro i0 s
    refine ⟨rfl, rfl, ?_⟩
    intro j
    have : ¬ (i0 ≤ j ∧ j < i0 + 0 ∧ j < IPC_MAX_CLIENTS ∧ 0 ≤ (s.threads j).server_thread_index) := by
      omega
    rw [if_neg this]
    rfl
  | succ fuel ih =>
    intro i0 s
    unfold flush_state_to_all_clients_locked_loop
    by_cases hlt : i0 < IPC_MAX_CLIENTS
    · simp only [hlt, if_true]
      by_cases hlive : (s.threads i0).server_thread_index < 0
      · simp only [hlive, if_true]
        obtain ⟨a, b, c⟩ := ih (i0 + 1) s
        refine ⟨a, b, ?_⟩
        intro j
        rw [c j]
        by_cases hj : j = i0
        · subst hj
          rw [if_neg (by omega), if_neg (by omega)]
        · by_cases hc : i0 + 1 ≤ j ∧ j < i0 + 1 + fuel ∧ j < IPC_MAX_CLIENTS ∧
              0 ≤ (s.threads j).server_thread_index
          · rw [if_pos hc, if_pos (by omega)]
          · rw [if_neg hc, if_neg (by omega)]
      · simp only [hlive, if_false]
        obtain ⟨g1, g2, g3⟩ := flush_step_spec s i0 s.active_client_index
          s.last_active_client_index
        obtain ⟨a, b, c⟩ := ih (i0 + 1)
          (handle_overlay_client_events
            (handle_focused_client_events s i0 s.active_client_index s.last_active_client_index)
            i0 s.active_client_index s.last_active_client_index)
        refine ⟨a.trans g2, b.trans g3, ?_⟩
        intro j
        rw [c j, g1, g2]
        by_cases hj : j = i0
        · subst hj
          rw [if_neg (by omega), if_pos (by omega)]
          simp
        · simp only [Function.update_noteq hj]
          by_cases hc : i0 + 1 ≤ j ∧ j < i0 + 1 + fuel ∧ j < IPC_MAX_CLIENTS ∧
              0 ≤ (s.threads j).server_thread_index
          · rw [if_pos hc, if_pos (by omega)]
          · rw [if_neg hc, if_neg (by omega)]
    · rw [if_neg hlt]
      refine ⟨rfl, rfl, ?_⟩
      intro j
      rw [if_neg (by omega)]

theorem flush_state_threads (s : ipc_server) (j : Nat) (hj : j < IPC_MAX_CLIENTS)
    (hlive : 0 ≤ (s.threads j).server_thread_index) :
    (flush_state_to_all_clients_locked s).threads j =
      focused_client_state (s.threads j) s.active_client_index := by
  unfold flush_state_to_all_clients_locked
  rw [(flush_loop_spec IPC_MAX_CLIENTS 0 s).2.2 j, if_pos ⟨by omega, by omega, hj, hlive⟩]

/-- C10 as stated fails: in the example server the overlay client of slot 1 is live, its
session is not active and it is not the active client, yet after
`flush_state_to_all_clients_locked` it is visible and focused. -/
theorem flush_state_shows_inactive_overlay :
    (example_server_two_clients.threads 1).server_thread_index = 1 ∧
    (example_server_two_clients.threads 1).client_state.session_overlay = true ∧
    (example_server_two_clients.threads 1).client_state.session_active = false ∧
    example_server_two_clients.active_client_index = 0 ∧
    ((flush_state_to_all_clients_locked example_server_two_clients).threads 1
      ).client_state.session_visible = true ∧
    ((flush_state_to_all_clients_locked example_server_two_clients).threads 1
      ).client_state.session_focused = true := by
  refine ⟨rfl, rfl, rfl, rfl, rfl, rfl⟩

/-- C10, amended. After `flush_state_to_all_clients_locked`, a live client in slot `i`
(its `server_thread_index` is `i`) is visible and focused when `i` is
`active_client_index`; it is visible and focused and keeps its z-order when it is an
overlay client, whether or not its own session is active; and it is neither visible nor
focused when it is not an overlay client and `i` is not `active_client_index`. Its overlay
and session-active flags are not changed. -/
theorem flush_state_visibility (s : ipc_server) (i : Nat) (hi : i < IPC_MAX_CLIENTS)
    (hidx : (s.threads i).server_thread_index = (i : Int))
    (hz : (s.threads i).client_state.z_order < UINT32_SIZE) :
    ((i : Int) = s.active_client_index →
      ((flush_state_to_all_clients_locked s).threads i).client_state.session_visible = true ∧
      ((flush_state_to_all_clients_locked s).threads i).client_state.session_focused = true) ∧
    ((s.threads i).client_state.session_overlay = true →
      ((flush_state_to_all_clients_locked s).threads i).client_state.session_visible = true ∧
      ((flush_state_to_all_clients_locked s).threads i).client_state.session_focused = true ∧
      ((flush_state_to_all_clients_locked s).threads i).client_state.z_order =
        (s.threads i).client_state.z_order) ∧
    ((s.threads i).client_state.session_overlay = false → (i : Int) ≠ s.active_client_index →
      ((flush_state_to_all_clients_locked s).threads i).client_state.session_visible = false ∧
      ((flush_state_to_all_clients_locked s).threads i).client_state.session_focused = false) ∧
    ((flush_state_to_all_clients_locked s).threads i).client_state.session_overlay =
      (s.threads i).client_state.session_overlay ∧
    ((flush_state_to_all_clients_locked s).threads i).client_state.session_active =
      (s.threads i).client_state.session_active := by
  rw [flush_state_threads s i hi (by omega)]
  refine ⟨?_, ?_, ?_, by simp [focused_client_state], by simp [focused_client_state]⟩
  · intro h
    simp [focused_client_state, hidx, h]
  · intro h
    simp [focused_client_state, h, to_uint32_of_lt _ hz]
  · intro h1 h2
    simp [focused_client_state, hidx, h1, h2]

/-- Witness of C10, amended: the two clients of the example server, the active regular
client of slot 0 and the overlay client of slot 1. -/
theorem flush_state_visibility_witness :
    ((flush_state_to_all_clients_locked example_server_two_clients).threads 0
      ).client_state.session_visible = true ∧
    ((flush_state_to_all_clients_locked example_server_two_clients).threads 1
      ).client_state.z_order = 5 :=
  ⟨((flush_state_visibility example_server_two_clients 0 (by decide) rfl (by decide)).1 rfl).1,
   ((flush_state_visibility example_server_two_clients 1 (by decide) rfl (by decide)).2.1
      rfl).2.2⟩

/-! ## Lemmas on `update_server_state_locked` -/

instance fallback_candidate_decidable (s : ipc_server) (i : Nat) :
    Decidable (fallback_candidate s i) := by
  unfold fallback_candidate
  infer_instance

theorem update_server_state_fallback_loop_spec (s : ipc_server) :
    ∀ (fuel i0 : Nat) (acc : Bool × Int),
      ((∀ j, i0 ≤ j → j < i0 + fuel → j < IPC_MAX_CLIENTS → ¬ fallback_candidate s j) →
        update_server_state_fallback_loop s fuel i0 acc = acc) ∧
      (∀ m, i0 ≤ m → m < i0 + fuel → m < IPC_MAX_CLIENTS → fallback_candidate s m →
        (∀ j, m < j → j < i0 + fuel → j < IPC_MAX_CLIENTS → ¬ fallback_candidate s j) →
        update_server_state_fallback_loop s fuel i0 acc = (false, (m : Int))) := by
  intro fuel
  induction fuel with
  | zero =>
    intro i0 acc
    refine ⟨fun _ => rfl, ?_⟩
    intro m h1 h2
    omega
  | succ fuel ih =>
    intro i0 acc
    unfold update_server_state_fallback_loop
    by_cases hlt : i0 < IPC_MAX_CLIENTS
    · rw [if_pos hlt]
      constructor
      · intro hnone
        have h0 : ¬ fallback_candidate s i0 := hnone i0 (le_refl _) (by omega) hlt
        unfold fallback_candidate at h0
        simp only [h0, if_false]
        exact (ih (i0 + 1) acc).1 (fun j a b c => hnone j (by omega) (by omega) c)
      · intro m h1 h2 h3 hm hmax
        by_cases hmi : m = i0
        · subst hmi
          have hm2 := hm
          unfold fallback_candidate at hm2
          simp only [hm2, and_self, if_true]
          exact (ih (m + 1) (false, (m : Int))).1
            (fun j a b c => hmax j (by omega) (by omega) c)
        · exact (ih (i0 + 1) _).2 m (by omega) (by omega) h3 hm
            (fun j a b c => hmax j a (by omega) c)
    · rw [if_neg hlt]
      refine ⟨fun _ => rfl, ?_⟩
      intro m h1 h2 h3
      omega

theorem update_server_state_locked_eq (s : ipc_server)
    (h : ¬ (s.active_client_index ≥ 0 ∧
      (s.threads s.active_client_index.toNat).client_state.session_active = true ∧
      s.active_client_index = s.last_active_client_index)) :
    update_server_state_locked s =
      { (flush_state_to_all_clients_locked
          { s with active_client_index := update_server_state_new_active s }) with
        last_active_client_index := update_server_state_new_active s } := by
  have hact : ∀ (s2 : ipc_server),
      (flush_state_to_all_clients_locked s2).active_client_index = s2.active_client_index :=
    fun s2 => (flush_loop_spec IPC_MAX_CLIENTS 0 s2).1
  unfold update_server_state_locked update_server_state_new_active
  rw [if_neg h]
  simp only []
  by_cases hidle : (update_server_state_fallback_loop s IPC_MAX_CLIENTS 0 (true, -1)).1 = true
  · simp only [hidle, if_true]
    by_cases ha : s.active_client_index ≥ 0 <;> simp only [ha, if_true, if_false]
    · split <;> simp only [hact]
    · simp only [hact]
  · simp only [hidle, if_false, Bool.false_eq_true]
    by_cases ha : s.active_client_index ≥ 0
    · simp only [ha, if_true, true_and]
      split <;> simp only [hact]
    · simp only [ha, if_false, false_and]
      simp only [hact]

theorem update_server_state_locked_skip (s : ipc_server) (h1 : s.active_client_index ≥ 0)
    (h2 : (s.threads s.active_client_index.toNat).client_state.session_active = true)
    (h3 : s.active_client_index = s.last_active_client_index) :
    update_server_state_locked s = s := by
  unfold update_server_state_locked
  rw [if_pos ⟨h1, h2, h3⟩]

theorem deactivate_session_eq (s : ipc_server) (A : Nat) (hA : s.active_client_index = (A : Int)) :
    ipc_server_deactivate_session s A =
      { (flush_state_to_all_clients_locked
          { (s.set_ics A { (s.threads A) with
              client_state := { (s.threads A).client_state with session_active := false } }) with
            active_client_index := update_server_state_new_active
              (s.set_ics A { (s.threads A) with
                client_state := { (s.threads A).client_state with session_active := false } }) })
        with
        last_active_client_index := update_server_state_new_active
          (s.set_ics A { (s.threads A) with
            client_state := { (s.threads A).client_state with session_active := false } }) } := by
  unfold ipc_server_deactivate_session
  apply update_server_state_locked_eq
  intro h
  have h2 := h.2.1
  simp [ipc_server.set_ics, hA] at h2

theorem deactivate_candidate_iff (s : ipc_server) (A j : Nat) :
    fallback_candidate (s.set_ics A { (s.threads A) with
      client_state := { (s.threads A).client_state with session_active := false } }) j ↔
      j ≠ A ∧ fallback_candidate s j := by
  unfold fallback_candidate ipc_server.set_ics
  by_cases hj : j = A
  · subst hj
    simp
  · simp [Function.update_noteq hj, hj]

/-- C12 as stated fails: in the example server client 0 is the active client and client 1
is live, not an overlay and session-active; after `ipc_server_deactivate_session` on
client 0 the active client index is 2, not 1, and client 1 is neither visible nor
focused. -/
theorem deactivate_session_fallback_passes_over_b :
    example_server_three_clients.active_client_index = ((0 : Nat) : Int) ∧
    (example_server_three_clients.threads 1).server_thread_index = ((1 : Nat) : Int) ∧
    (example_server_three_clients.threads 1).client_state.session_overlay = false ∧
    (example_server_three_clients.threads 1).client_state.session_active = true ∧
    (ipc_server_deactivate_session example_server_three_clients 0).active_client_index
      = ((2 : Nat) : Int) ∧
    (ipc_server_deactivate_session example_server_three_clients 0).active_client_index
      ≠ ((1 : Nat) : Int) ∧
    ((ipc_server_deactivate_session example_server_three_clients 0).threads 1
      ).client_state.session_visible = false ∧
    ((ipc_server_deactivate_session example_server_three_clients 0).threads 1
      ).client_state.session_focused = false := by
  refine ⟨rfl, rfl, rfl, rfl, rfl, by decide, rfl, rfl⟩

/-- C12, amended. Let `A` be the active client, and deactivate it with
`ipc_server_deactivate_session`. When `B` is another client that is live (its
`server_thread_index` is its slot index `B`), not an overlay and session-active, the
active client index becomes the slot `C` of a client other than `A` that is running, not
an overlay and session-active; `C` is visible and focused when it is live as `B` is (its
`server_thread_index` is `C`); and `C` is `B` when `B` is the only such client. When no
other live, non-overlay, session-active client exists, the active client index becomes
`-1` and every live client that is not an overlay is neither visible nor focused. -/
theorem deactivate_session_fallback (s : ipc_server) (A : Nat)
    (hA : s.active_client_index = (A : Int)) :
    (∀ B, B < IPC_MAX_CLIENTS → B ≠ A →
      (s.threads B).server_thread_index = (B : Int) →
      (s.threads B).client_state.session_overlay = false →
      (s.threads B).client_state.session_active = true →
      ∃ C, C < IPC_MAX_CLIENTS ∧ C ≠ A ∧ fallback_candidate s C ∧
        (ipc_server_deactivate_session s A).active_client_index = (C : Int) ∧
        ((s.threads C).server_thread_index = (C : Int) →
          ((ipc_server_deactivate_session s A).threads C).client_state.session_visible =
            true ∧
          ((ipc_server_deactivate_session s A).threads C).client_state.session_focused =
            true) ∧
        ((∀ j, j < IPC_MAX_CLIENTS → j ≠ A → j ≠ B → ¬ fallback_candidate s j) → C = B)) ∧
    ((∀ j, j < IPC_MAX_CLIENTS → j ≠ A → ¬ fallback_candidate s j) →
      (ipc_server_deactivate_session s A).active_client_index = -1 ∧
      ∀ j, j < IPC_MAX_CLIENTS →
        ((ipc_server_deactivate_session s A).threads j).server_thread_index ≥ 0 →
        ((ipc_server_deactivate_session s A).threads j).client_state.session_overlay = false →
        ((ipc_server_deactivate_session s A).threads j).client_state.session_visible = false ∧
        ((ipc_server_deactivate_session s A).threads j).client_state.session_focused = false) := by
  have hact : ∀ (s2 : ipc_server),
      (flush_state_to_all_clients_locked s2).active_client_index = s2.active_client_index :=
    fun s2 => (flush_loop_spec IPC_MAX_CLIENTS 0 s2).1
  have hA1 : (s.set_ics A { (s.threads A) with
      client_state := { (s.threads A).client_state with session_active := false } }
      ).active_client_index = (A : Int) := hA
  have hAq : ((s.set_ics A { (s.threads A) with
      client_state := { (s.threads A).client_state with session_active := false } }
      ).threads A).client_state.session_active = false := by
    simp [ipc_server.set_ics]
  constructor
  · intro B hB hBA hidx hov hsa
    have hPB : fallback_candidate (s.set_ics A { (s.threads A) with
        client_state := { (s.threads A).client_state with session_active := false } }) B :=
      (deactivate_candidate_iff s A B).2 ⟨hBA, hov, by omega, hsa⟩
    have hmax : IPC_MAX_CLIENTS - 1 + 1 = IPC_MAX_CLIENTS := by decide
    have hPC := Nat.findGreatest_spec (P := fun j => fallback_candidate (s.set_ics A
        { (s.threads A) with
          client_state := { (s.threads A).client_state with session_active := false } }) j)
      (show B ≤ IPC_MAX_CLIENTS - 1 by omega) hPB
    have hCle := Nat.findGreatest_le (P := fun j => fallback_candidate (s.set_ics A
        { (s.threads A) with
          client_state := { (s.threads A).client_state with session_active := false } }) j)
      (IPC_MAX_CLIENTS - 1)
    have hCmax : ∀ j, Nat.findGreatest (fun j => fallback_candidate (s.set_ics A
        { (s.threads A) with
          client_state := { (s.threads A).client_state with session_active := false } }) j)
        (IPC_MAX_CLIENTS - 1) < j → j < IPC_MAX_CLIENTS →
        ¬ fallback_candidate (s.set_ics A { (s.threads A) with
          client_state := { (s.threads A).client_state with session_active := false } }) j :=
      fun j h1 h2 => Nat.findGreatest_is_greatest h1 (by omega)
    generalize Nat.findGreatest (fun j => fallback_candidate (s.set_ics A
        { (s.threads A) with
          client_state := { (s.threads A).client_state with session_active := false } }) j)
        (IPC_MAX_CLIENTS - 1) = C at hPC hCle hCmax
    have hC : C < IPC_MAX_CLIENTS := by omega
    obtain ⟨hCA, hCc⟩ := (deactivate_candidate_iff s A C).1 hPC
    have hloop := (update_server_state_fallback_loop_spec
      (s.set_ics A { (s.threads A) with
        client_state := { (s.threads A).client_state with session_active := false } })
      IPC_MAX_CLIENTS 0 (true, -1)).2 C (Nat.zero_le _) (by omega) hC hPC
      (fun j hj1 _ hj3 => hCmax j hj1 hj3)
    have hnew : update_server_state_new_active (s.set_ics A { (s.threads A) with
        client_state := { (s.threads A).client_state with session_active := false } }) =
        (C : Int) := by
      unfold update_server_state_new_active
      rw [hloop, hA1]
      simp [hAq]
    refine ⟨C, hC, hCA, hCc, ?_⟩
    rw [deactivate_session_eq s A hA, hnew]
    refine ⟨hact _, ?_, ?_⟩
    · intro hCidx
      have hthr := flush_state_threads
        { (s.set_ics A { (s.threads A) with
            client_state := { (s.threads A).client_state with session_active := false } }) with
          active_client_index := (C : Int) } C hC
        (by simp [ipc_server.set_ics, Function.update_noteq hCA, hCidx])
      simp only [hthr]
      simp [focused_client_state, ipc_server.set_ics, Function.update_noteq hCA, hCidx]
    · intro huniq
      by_contra hne
      exact huniq C hC hCA hne hCc
  · intro hnone
    have hloop := (update_server_state_fallback_loop_spec
      (s.set_ics A { (s.threads A) with
        client_state := { (s.threads A).client_state with session_active := false } })
      IPC_MAX_CLIENTS 0 (true, -1)).1
      (fun j _ _ hj3 hc => by
        have hc2 := (deactivate_candidate_iff s A j).1 hc
        exact hnone j hj3 hc2.1 hc2.2)
    have hnew : update_server_state_new_active (s.set_ics A { (s.threads A) with
        client_state := { (s.threads A).client_state with session_active := false } }) =
        -1 := by
      unfold update_server_state_new_active
      rw [hloop]
      simp
    rw [deactivate_session_eq s A hA, hnew]
    refine ⟨hact _, ?_⟩
    intro j hj
    simp only []
    have hspec := (flush_loop_spec IPC_MAX_CLIENTS 0
      { (s.set_ics A { (s.threads A) with
          client_state := { (s.threads A).client_state with session_active := false } }) with
        active_client_index := -1 }).2.2 j
    unfold flush_state_to_all_clients_locked
    rw [hspec]
    split
    · rename_i hc
      intro _ hov
      have hlive := hc.2.2.2
      simp only [focused_client_state] at hov ⊢
      have hne : ¬ (((s.set_ics A { (s.threads A) with
          client_state := { (s.threads A).client_state with session_active := false } }
          ).threads j).server_thread_index = -1) := by
        intro heq
        rw [heq] at hlive
        omega
      simp [hne, hov]
    · rename_i hc
      intro hlive
      exact absurd ⟨Nat.zero_le _, by omega, hj, hlive⟩ hc

/-- Witness of C12, amended: with the three regular clients of the example, deactivating
the active client 0 makes one of the other clients the active client, visible and focused
when it is live in its slot; with the two regular clients of the other example it is
client 1. -/
theorem deactivate_session_fallback_witness :
    example_server_three_clients.active_client_index = ((0 : Nat) : Int) ∧
    (∃ C, C < IPC_MAX_CLIENTS ∧ C ≠ 0 ∧ fallback_candidate example_server_three_clients C ∧
      (ipc_server_deactivate_session example_server_three_clients 0).active_client_index =
        (C : Int) ∧
      ((example_server_three_clients.threads C).server_thread_index = (C : Int) →
        ((ipc_server_deactivate_session example_server_three_clients 0).threads C
          ).client_state.session_visible = true ∧
        ((ipc_server_deactivate_session example_server_three_clients 0).threads C
          ).client_state.session_focused = true)) ∧
    (ipc_server_deactivate_session example_server_two_regular 0).active_client_index =
      ((1 : Nat) : Int) :=
  ⟨rfl,
    ((deactivate_session_fallback example_server_three_clients 0 rfl).1 1 (by decide)
      (by decide) rfl rfl rfl).elim
      (fun C h => ⟨C, h.1, h.2.1, h.2.2.1, h.2.2.2.1, h.2.2.2.2.1⟩),
    by decide⟩

/-- C13 (the code departs from the claim). In the example server clients 0, 1 and 2 are
live, regular and session-active and client 0 is the active client. When client 0 is
deactivated the candidates are clients 1 and 2, and `update_server_state_locked` makes
client 2 the active client: the fallback loop has no `break`, so the last match wins, not
the first. -/
theorem fallback_selects_last_candidate :
    example_server_three_clients.active_client_index = 0 ∧
    fallback_candidate example_server_three_clients 1 ∧
    fallback_candidate example_server_three_clients 2 ∧
    (example_server_three_clients.threads 1).server_thread_index = 1 ∧
    (example_server_three_clients.threads 2).server_thread_index = 2 ∧
    (ipc_server_deactivate_session example_server_three_clients 0).active_client_index = 2 ∧
    ((ipc_server_deactivate_session example_server_three_clients 0).threads 1
      ).client_state.session_focused = false ∧
    ((ipc_server_deactivate_session example_server_three_clients 0).threads 2
      ).client_state.session_focused = true := by
  refine ⟨rfl, by decide, by decide, rfl, rfl, rfl, rfl, rfl⟩

/-- C14. When `active_client_index` is not negative, equals `last_active_client_index`
and the client in that slot is session-active, `update_server_state_locked` (and so
`ipc_server_update_state`) returns the server as it is: no field of the arbitration state
or of a client state changes and no collaborator call is recorded. -/
theorem update_server_state_skipped (s : ipc_server) (h1 : s.active_client_index ≥ 0)
    (h2 : (s.threads s.active_client_index.toNat).client_state.session_active = true)
    (h3 : s.active_client_index = s.last_active_client_index) :
    update_server_state_locked s = s ∧ ipc_server_update_state s = s := by
  have h := update_server_state_locked_skip s h1 h2 h3
  exact ⟨h, h⟩

/-- Witness of C14: scenario 1 after the first frame, where client 0 is the active and
the last active client. -/
theorem update_server_state_skipped_witness :
    scenario1_first_frame.active_client_index ≥ 0 ∧
    update_server_state_locked scenario1_first_frame = scenario1_first_frame ∧
    ipc_server_update_state scenario1_first_frame = scenario1_first_frame :=
  ⟨by decide, update_server_state_skipped scenario1_first_frame (by decide) rfl rfl⟩

theorem predict_frame_of_active (s : ipc_server) (t : Nat) (comp_xret : xrt_result_t)
    (xc : xrt_compositor) (hxc : (s.threads t).xc = some xc)
    (hact : (s.threads t).client_state.session_active = true) :
    ipc_handle_compositor_predict_frame s t comp_xret =
      (comp_xret, { s with calls := s.calls ++ [.comp_predict_frame (some xc)] }) := by
  simp [ipc_handle_compositor_predict_frame, ipc_server_activate_session, hxc, hact,
    ipc_server.call]

theorem predict_frame_run_of_active (t : Nat) (xc : xrt_compositor) :
    ∀ (rs : List xrt_result_t) (s : ipc_server), (s.threads t).xc = some xc →
      (s.threads t).client_state.session_active = true →
      predict_frame_run t s rs =
        { s with calls := s.calls ++ List.replicate rs.length (.comp_predict_frame (some xc)) } := by
  intro rs
  induction rs with
  | nil => intro s _ _; simp [predict_frame_run]
  | cons r rest ih =>
    intro s hxc hact
    simp only [predict_frame_run, predict_frame_of_active s t r xc hxc hact]
    rw [ih { s with calls := s.calls ++ [.comp_predict_frame (some xc)] } hxc hact]
    simp [List.replicate_succ]

/-- C15. Scenario 1: on a fresh server one client connects and creates a regular session
with native compositor 11; no client is active. Its first
`ipc_handle_compositor_predict_frame` makes its slot 0 the active client and pushes
`set_state(visible = true, focused = true)` for compositor 11 once (with `set_z_order`
and the frame prediction). After any number of later `predict_frame` requests of the
client the active and last active indices and all client states are the same, the only new
calls are the frame predictions, and `set_state(true, true)` still occurs once in the
whole record. -/
theorem scenario1_first_predict_frame_activates (rs : List xrt_result_t) :
    scenario1_server.active_client_index = -1 ∧
    (scenario1_server.threads 0).server_thread_index = 0 ∧
    (scenario1_server.threads 0).xc = some 11 ∧
    (scenario1_server.threads 0).client_state.session_overlay = false ∧
    scenario1_first_frame.active_client_index = 0 ∧
    scenario1_first_frame.calls = scenario1_server.calls ++
      [.syscomp_set_state (some 11) true true, .syscomp_set_z_order (some 11) INT64_MIN,
       .comp_predict_frame (some 11)] ∧
    (predict_frame_run 0 scenario1_first_frame rs).calls = scenario1_first_frame.calls ++
      List.replicate rs.length (.comp_predict_frame (some 11)) ∧
    (predict_frame_run 0 scenario1_first_frame rs).calls.count
      (.syscomp_set_state (some 11) true true) = 1 ∧
    (predict_frame_run 0 scenario1_first_frame rs).active_client_index =
      scenario1_first_frame.active_client_index ∧
    (predict_frame_run 0 scenario1_first_frame rs).last_active_client_index =
      scenario1_first_frame.last_active_client_index ∧
    (predict_frame_run 0 scenario1_first_frame rs).threads = scenario1_first_frame.threads := by
  have hrun := predict_frame_run_of_active 0 11 rs scenario1_first_frame rfl rfl
  refine ⟨rfl, rfl, rfl, rfl, rfl, rfl, ?_, ?_, ?_, ?_, ?_⟩
  · rw [hrun]
  · rw [hrun]
    have hc : scenario1_first_frame.calls.count (.syscomp_set_state (some 11) true true) = 1 := by
      decide
    simp only [List.count_append, hc]
    rw [List.count_eq_zero_of_not_mem]
    intro hmem
    have := List.eq_of_mem_replicate hmem
    cases this
  · rw [hrun]
  · rw [hrun]
  · rw [hrun]

/-! ## Lemmas on the calls of a recompute -/

theorem handle_focused_client_events_calls (s : ipc_server) (t : Nat) (active_id prev : Int) :
    (handle_focused_client_events s t active_id prev).calls =
      s.calls ++ focused_client_calls (s.threads t) active_id := by
  unfold handle_focused_client_events focused_client_calls
  by_cases h1 : (s.threads t).server_thread_index = active_id <;>
    by_cases h2 : (s.threads t).client_state.session_overlay = true <;>
    by_cases h3 : (s.threads t).xc = none <;>
    simp [h1, h2, h3, ipc_server.set_ics, ipc_server.call]

theorem handle_overlay_client_events_calls (s : ipc_server) (t : Nat) (active_id prev : Int) :
    (handle_overlay_client_events s t active_id prev).calls =
      s.calls ++ overlay_client_calls (s.threads t) active_id prev := by
  unfold handle_overlay_client_events overlay_client_calls
  by_cases h2 : (s.threads t).client_state.session_overlay = true
  · by_cases h3 : (s.threads t).xc = none
    · simp [h2, h3]
    · rcases lt_or_ge active_id 0 with h4 | h4 <;> rcases lt_or_ge prev 0 with h5 | h5
      · have h4n : ¬ active_id ≥ 0 := by omega
        have h5n : ¬ prev ≥ 0 := by omega
        simp [h2, h3, h4, h5, h4n, h5n, ipc_server.call]
      · have h4n : ¬ active_id ≥ 0 := by omega
        have h5n : ¬ prev < 0 := by omega
        simp [h2, h3, h4, h5, h4n, h5n, ipc_server.call]
      · have h4n : ¬ active_id < 0 := by omega
        have h5n : ¬ prev ≥ 0 := by omega
        simp [h2, h3, h4, h5, h4n, h5n, ipc_server.call]
      · have h4n : ¬ active_id < 0 := by omega
        have h5n : ¬ prev < 0 := by omega
        simp [h2, h3, h4, h5, h4n, h5n, ipc_server.call]
  · simp [h2]

theorem flush_calls_congr (th1 th2 : Nat → ipc_client_state) (a p : Int) :
    ∀ (fuel i : Nat), (∀ j, i ≤ j → th1 j = th2 j) →
      flush_calls th1 a p fuel i = flush_calls th2 a p fuel i := by
  intro fuel
  induction fuel with
  | zero => intro i _; rfl
  | succ fuel ih =>
    intro i h
    unfold flush_calls
    rw [h i (le_refl _), ih (i + 1) (fun j hj => h j (by omega))]

theorem flush_loop_calls :
    ∀ (fuel i0 : Nat) (s : ipc_server),
      (flush_state_to_all_clients_locked_loop fuel i0 s).calls =
        s.calls ++ flush_calls s.threads s.active_client_index s.last_active_client_index
          fuel i0 := by
  intro fuel
  induction fuel with
  | zero => intro i0 s; simp [flush_state_to_all_clients_locked_loop, flush_calls]
  | succ fuel ih =>
    intro i0 s
    unfold flush_state_to_all_clients_locked_loop flush_calls
    by_cases hlt : i0 < IPC_MAX_CLIENTS
    · rw [if_pos hlt, if_pos hlt]
      by_cases hlive : (s.threads i0).server_thread_index < 0
      · simp only [hlive, if_true, flush_client_calls, List.nil_append]
        exact ih (i0 + 1) s
      · simp only [hlive, if_false]
        obtain ⟨g1, g2, g3⟩ := flush_step_spec s i0 s.active_client_index
          s.last_active_client_index
        rw [ih, g1, g2, g3, handle_overlay_client_events_calls,
          handle_focused_client_events_calls,
          (handle_focused_client_events_spec s i0 _ _).1]
        have hcong := flush_calls_congr
          (Function.update s.threads i0
            (focused_client_state (s.threads i0) s.active_client_index))
          s.threads s.active_client_index s.last_active_client_index fuel (i0 + 1)
          (fun j hj => Function.update_noteq (by omega) _ _)
        rw [hcong]
        simp only [Function.update_same, flush_client_calls, hlive, if_false]
        have hov : overlay_client_calls
            (focused_client_state (s.threads i0) s.active_client_index)
            s.active_client_index s.last_active_client_index =
            overlay_client_calls (s.threads i0) s.active_client_index
              s.last_active_client_index := by
          simp [overlay_client_calls, focused_client_state]
        rw [hov]
        simp only [List.append_assoc]
    · rw [if_neg hlt, if_neg hlt]
      simp

theorem flush_calls_mem (th : Nat → ipc_client_state) (a p : Int) (c : xrt_call) :
    ∀ (fuel i : Nat), c ∈ flush_calls th a p fuel i →
      ∃ j, i ≤ j ∧ j < IPC_MAX_CLIENTS ∧ 0 ≤ (th j).server_thread_index ∧
        (c ∈ focused_client_calls (th j) a ∨ c ∈ overlay_client_calls (th j) a p) := by
  intro fuel
  induction fuel with
  | zero => intro i h; simp [flush_calls] at h
  | succ fuel ih =>
    intro i h
    unfold flush_calls at h
    by_cases hlt : i < IPC_MAX_CLIENTS
    · rw [if_pos hlt] at h
      rcases List.mem_append.1 h with h1 | h1
      · unfold flush_client_calls at h1
        by_cases hlive : (th i).server_thread_index < 0
        · rw [if_pos hlive] at h1
          cases h1
        · rw [if_neg hlive] at h1
          exact ⟨i, le_refl _, hlt, by omega, List.mem_append.1 h1⟩
      · obtain ⟨j, hj1, hj2⟩ := ih (i + 1) h1
        exact ⟨j, by omega, hj2⟩
    · rw [if_neg hlt] at h
      cases h

theorem to_uint32_five : to_uint32 5 = 5 := by decide

theorem to_uint32_int64_min : to_uint32 INT64_MIN = 0 := by decide

theorem scenario2_inv_init : scenario2_inv scenario2_server [] := by
  unfold scenario2_inv
  refine ⟨rfl, rfl, rfl, rfl, rfl, rfl, rfl, rfl, rfl, rfl, rfl, rfl, rfl, by decide, rfl, rfl,
    by simp, ?_⟩
  intro c hc
  cases hc

theorem scenario2_inv_flush (s : ipc_server) (extra : List xrt_call)
    (h : scenario2_inv s extra) :
    scenario2_inv (flush_state_to_all_clients_locked s)
      (extra ++ flush_calls s.threads s.active_client_index s.last_active_client_index
        IPC_MAX_CLIENTS 0) := by
  obtain ⟨a1, a2, a3, a4, a5, a6, b1, b2, b3, b4, b5, b6, b7, hoth, hact, hlast, hcalls, hok⟩ := h
  have h0 := flush_state_threads s 0 (by decide) (by omega)
  have h1 := flush_state_threads s 1 (by decide) (by omega)
  obtain ⟨f1, f2, f3⟩ := flush_loop_spec IPC_MAX_CLIENTS 0 s
  have hfc := flush_loop_calls IPC_MAX_CLIENTS 0 s
  unfold scenario2_inv
  refine ⟨?_, ?_, ?_, ?_, ?_, ?_, ?_, ?_, ?_, ?_, ?_, ?_, ?_, ?_, ?_, ?_, ?_, ?_⟩
  · rw [h0]; exact a1
  · rw [h0]; exact a2
  · rw [h0]; exact a3
  · rw [h0]; simp [focused_client_state, a3, a4, to_uint32_five]
  · rw [h0]; simp [focused_client_state, a3]
  · rw [h0]; simp [focused_client_state, a3]
  · rw [h1]; exact b1
  · rw [h1]; exact b2
  · rw [h1]; exact b3
  · rw [h1]; exact b4
  · rw [h1]; simp [focused_client_state, b3, to_uint32_int64_min]
  · rw [h1]; simp [focused_client_state, b1, hact]
  · rw [h1]; simp [focused_client_state, b1, hact]
  · intro j hj hj0 hj1
    unfold flush_state_to_all_clients_locked
    rw [f3 j, if_neg]
    · exact hoth j hj hj0 hj1
    · intro hc
      have := hoth j hj hj0 hj1
      omega
  · unfold flush_state_to_all_clients_locked
    rw [f1]; exact hact
  · unfold flush_state_to_all_clients_locked
    rw [f2]; exact hlast
  · unfold flush_state_to_all_clients_locked
    rw [hfc, hcalls, List.append_assoc]
  · intro c hc
    rcases List.mem_append.1 hc with hc | hc
    · exact hok c hc
    · obtain ⟨j, _, hj, hlive, hmem⟩ := flush_calls_mem _ _ _ c _ _ hc
      have hj01 : j = 0 ∨ j = 1 := by
        by_contra hne
        have := hoth j hj (by omega) (by omega)
        omega
      intro xc z hcz
      subst hcz
      rcases hj01 with rfl | rfl
      · left
        rcases hmem with hmem | hmem
        · simp [focused_client_calls, a2, a3, a4] at hmem
          exact hmem
        · simp [overlay_client_calls, a2, a3, hact, hlast] at hmem
      · right
        rcases hmem with hmem | hmem
        · simp [focused_client_calls, b2, b3] at hmem
          exact hmem
        · simp [overlay_client_calls, b3] at hmem

theorem scenario2_inv_update (s : ipc_server) (extra : List xrt_call)
    (h : scenario2_inv s extra) : ipc_server_update_state s = s := by
  obtain ⟨_, _, _, _, _, _, _, _, _, b4, _, _, _, _, hact, hlast, _, _⟩ := h
  unfold ipc_server_update_state
  apply update_server_state_locked_skip
  · rw [hact]; decide
  · rw [hact]; exact b4
  · rw [hact, hlast]

theorem scenario2_inv_run :
    ∀ (steps : List recompute_step) (s : ipc_server) (extra : List xrt_call),
      scenario2_inv s extra → ∃ extra2, scenario2_inv (recompute_run s steps) extra2 := by
  intro steps
  induction steps with
  | nil => intro s extra h; exact ⟨extra, h⟩
  | cons st rest ih =>
    intro s extra h
    cases st with
    | flush =>
      show ∃ extra2, scenario2_inv (recompute_run (flush_state_to_all_clients_locked s) rest)
        extra2
      exact ih _ _ (scenario2_inv_flush s extra h)
    | update_state =>
      show ∃ extra2, scenario2_inv (recompute_run (ipc_server_update_state s) rest) extra2
      rw [scenario2_inv_update s extra h]
      exact ih s extra h

/-- C16 as stated fails: in scenario 2 the regular client 2 (slot 1) is active, visible
and focused, but the `z_order` of its client state is 0, not `INT64_MIN`: the field is a
`uint32_t` and `INT64_MIN` is truncated when it is stored. -/
theorem scenario2_primary_z_order_is_zero :
    scenario2_server.active_client_index = 1 ∧
    (scenario2_server.threads 1).client_state.session_overlay = false ∧
    (scenario2_server.threads 1).client_state.session_visible = true ∧
    (scenario2_server.threads 1).client_state.session_focused = true ∧
    (scenario2_server.threads 1).client_state.z_order = 0 ∧
    (((scenario2_server.threads 1).client_state.z_order : Nat) : Int) ≠ INT64_MIN := by
  refine ⟨rfl, rfl, rfl, rfl, rfl, by decide⟩

/-- C16, amended. In scenario 2, after any list of recomputes (full walks
`flush_state_to_all_clients_locked` or `ipc_server_update_state`), both clients are
visible and focused and client 2 is the active client; the overlay client 1 keeps
`z_order = 5` in its client state and every `set_z_order` pushed for its compositor 11
carries 5; for the regular client 2 every `set_z_order` pushed for its compositor 12 since
its session was created carries `INT64_MIN`, while the `uint32_t` field of its client
state holds 0. -/
theorem scenario2_z_orders (steps : List recompute_step) :
    ((recompute_run scenario2_server steps).threads 0).client_state.session_visible = true ∧
    ((recompute_run scenario2_server steps).threads 0).client_state.session_focused = true ∧
    ((recompute_run scenario2_server steps).threads 0).client_state.z_order = 5 ∧
    ((recompute_run scenario2_server steps).threads 1).client_state.session_visible = true ∧
    ((recompute_run scenario2_server steps).threads 1).client_state.session_focused = true ∧
    ((recompute_run scenario2_server steps).threads 1).client_state.z_order = 0 ∧
    (recompute_run scenario2_server steps).active_client_index = 1 ∧
    (∀ z, xrt_call.syscomp_set_z_order (some 11) z ∈ (recompute_run scenario2_server steps).calls →
      z = 5) ∧
    (∀ z, xrt_call.syscomp_set_z_order (some 12) z ∈
      (recompute_run scenario2_server steps).calls.drop scenario2_created.calls.length →
      z = INT64_MIN) := by
  obtain ⟨extra, a1, a2, a3, a4, a5, a6, b1, b2, b3, b4, b5, b6, b7, hoth, hact, hlast, hcalls,
    hok⟩ := scenario2_inv_run steps scenario2_server [] scenario2_inv_init
  have hsc : scenario2_server.calls = scenario2_created.calls ++
      [.syscomp_set_state (some 11) true true, .syscomp_set_z_order (some 11) 5,
       .comp_predict_frame (some 11),
       .syscomp_set_state (some 11) true true, .syscomp_set_z_order (some 11) 5,
       .syscomp_set_main_app_visibility (some 11) true,
       .syscomp_set_state (some 12) true true, .syscomp_set_z_order (some 12) INT64_MIN,
       .comp_predict_frame (some 12)] := by decide
  have hcr : scenario2_created.calls =
      [.os_thread_start 0, .os_thread_start 1, .u_session_create,
       .syscomp_create_native_compositor example_overlay_info,
       .syscomp_set_state (some 11) false false, .syscomp_set_z_order (some 11) 5,
       .u_session_create, .syscomp_create_native_compositor example_primary_info,
       .syscomp_set_state (some 12) false false, .syscomp_set_z_order (some 12) 0] := by decide
  refine ⟨a5, a6, a4, b6, b7, b5, hact, ?_, ?_⟩
  · intro z hz
    rw [hcalls, hsc, hcr] at hz
    rcases List.mem_append.1 hz with hz | hz
    · simp at hz
      exact hz
    · rcases hok _ hz _ _ rfl with h | h
      · exact h.2
      · have := h.1
        simp at this
  · intro z hz
    rw [hcalls, hsc, List.append_assoc, List.drop_left] at hz
    rcases List.mem_append.1 hz with hz | hz
    · simp at hz
      exact hz
    · rcases hok _ hz _ _ rfl with h | h
      · have := h.1
        simp at this
      · exact h.2

/-! ## Lemmas on the at-most-one-primary invariant -/

theorem update_server_state_fallback_loop_candidate (s : ipc_server) :
    ∀ (fuel i0 : Nat) (acc : Bool × Int),
      (acc.1 = false → ∃ m : Nat, acc.2 = (m : Int) ∧ fallback_candidate s m) →
      (update_server_state_fallback_loop s fuel i0 acc).1 = false →
      ∃ m : Nat, (update_server_state_fallback_loop s fuel i0 acc).2 = (m : Int) ∧
        fallback_candidate s m := by
  intro fuel
  induction fuel with
  | zero => intro i0 acc h1 h2; exact h1 h2
  | succ fuel ih =>
    intro i0 acc h1
    unfold update_server_state_fallback_loop
    by_cases hlt : i0 < IPC_MAX_CLIENTS
    · rw [if_pos hlt]
      apply ih
      by_cases hc : fallback_candidate s i0
      · have hc2 := hc
        unfold fallback_candidate at hc2
        simp only [hc2, and_self, if_true]
        intro _
        exact ⟨i0, rfl, hc⟩
      · have hc2 := hc
        unfold fallback_candidate at hc2
        simp only [hc2, if_false]
        exact h1
    · rw [if_neg hlt]
      exact h1

theorem update_server_state_new_active_spec (s : ipc_server) :
    update_server_state_new_active s < 0 ∨
    ((s.threads (update_server_state_new_active s).toNat).client_state.session_overlay = false ∧
     (s.threads (update_server_state_new_active s).toNat).client_state.session_active = true) := by
  unfold update_server_state_new_active
  by_cases hidle : (update_server_state_fallback_loop s IPC_MAX_CLIENTS 0 (true, -1)).1 = true
  · rw [if_pos hidle]
    left
    decide
  · rw [if_neg hidle]
    split
    · right
      obtain ⟨m, hm, hc⟩ := update_server_state_fallback_loop_candidate s IPC_MAX_CLIENTS 0
        (true, -1) (fun h => by cases h) (by simpa using hidle)
      rw [hm]
      simp only [Int.toNat_ofNat]
      exact ⟨hc.1, hc.2.2⟩
    · rename_i hq
      by_cases ha : s.active_client_index ≥ 0
      · right
        by_contra hcon
        exact hq ⟨ha, hcon⟩
      · left
        omega

theorem client_connected_slot_spec (vs : ipc_server) (cs : Nat)
    (h : client_connected_slot vs = some cs) :
    cs < IPC_MAX_CLIENTS ∧ (vs.threads cs).server_thread_index < 0 ∧
    (∀ j, j < cs → ¬ (vs.threads j).server_thread_index < 0) ∧
    (vs.thread_state cs = ipc_thread_state.IPC_THREAD_READY ∨
      vs.thread_state cs = ipc_thread_state.IPC_THREAD_STOPPING) := by
  obtain ⟨_, b, c⟩ := first_free_spec IPC_MAX_CLIENTS
    (fun i => decide ((vs.threads i).server_thread_index < 0))
  unfold client_connected_slot at h
  simp only [] at h
  split at h
  · cases h
  · split at h
    · cases h
    · rename_i h1 h2
      injection h with h
      subst h
      refine ⟨by omega, ?_, ?_, ?_⟩
      · have := c (by omega)
        simpa using this
      · intro j hj
        have := b j hj
        simpa using this
      · by_contra hcon
        push_neg at hcon
        exact h2 hcon

theorem client_connected_refused (vs : ipc_server) (ipc_handle : xrt_ipc_handle_t)
    (h : client_connected_slot vs = none) :
    ipc_server_handle_client_connected vs ipc_handle =
      { vs with
        connected_client_count := (vs.connected_client_count + 1) % UINT32_SIZE
        calls := vs.calls ++ [.ipc_handle_close ipc_handle] } := by
  unfold client_connected_slot at h
  unfold ipc_server_handle_client_connected
  simp only [] at h ⊢
  split at h
  · rename_i h1
    rw [if_pos h1]
    rfl
  · rename_i h1
    split at h
    · rename_i h2
      rw [if_neg h1, if_pos h2]
      rfl
    · cases h

theorem client_connected_accepted (vs : ipc_server) (ipc_handle : xrt_ipc_handle_t) (cs : Nat)
    (h : client_connected_slot vs = some cs) :
    (ipc_server_handle_client_connected vs ipc_handle).threads =
      Function.update vs.threads cs
        (connected_client_state cs ((vs.id_generator + 1) % UINT32_SIZE) ipc_handle) ∧
    (ipc_server_handle_client_connected vs ipc_handle).id_generator =
      (vs.id_generator + 1) % UINT32_SIZE ∧
    (ipc_server_handle_client_connected vs ipc_handle).connected_client_count =
      (vs.connected_client_count + 1) % UINT32_SIZE ∧
    (ipc_server_handle_client_connected vs ipc_handle).active_client_index =
      vs.active_client_index ∧
    (ipc_server_handle_client_connected vs ipc_handle).last_active_client_index =
      vs.last_active_client_index := by
  unfold client_connected_slot at h
  unfold ipc_server_handle_client_connected connected_client_state
  simp only [] at h ⊢
  split at h
  · cases h
  · rename_i h1
    split at h
    · cases h
    · rename_i h2
      injection h with h
      subst h
      rw [if_neg h1, if_neg h2]
      split <;> simp [ipc_server.set_ics, ipc_server.call]

theorem client_connected_id (vs : ipc_server) (ipc_handle : xrt_ipc_handle_t) (cs : Nat)
    (h : client_connected_slot vs = some cs) :
    ((ipc_server_handle_client_connected vs ipc_handle).threads cs).client_state.id =
      (vs.id_generator + 1) % UINT32_SIZE := by
  rw [(client_connected_accepted vs ipc_handle cs h).1, Function.update_same]
  rfl

theorem connection_history_ids (s : ipc_server) (ids : List Nat)
    (h : connection_history s ids) :
    s.id_generator = ids.length % UINT32_SIZE ∧
    ids = (List.range ids.length).map (fun k => (k + 1) % UINT32_SIZE) := by
  induction h with
  | start s h => exact ⟨by simp [h], by simp⟩
  | accepted s ids ipc_handle cs _ hslot ih =>
    obtain ⟨ih1, ih2⟩ := ih
    rw [client_connected_id s ipc_handle cs hslot,
      (client_connected_accepted s ipc_handle cs hslot).2.1, ih1]
    have hmod : (ids.length % UINT32_SIZE + 1) % UINT32_SIZE =
        (ids.length + 1) % UINT32_SIZE := by
      simp [Nat.add_mod]
    rw [hmod]
    refine ⟨by simp, ?_⟩
    simp only [List.length_append, List.length_singleton, List.range_succ, List.map_append,
      List.map_cons, List.map_nil]
    rw [← ih2]
  | refused s ids ipc_handle _ hslot ih =>
    rw [client_connected_refused s ipc_handle hslot]
    exact ih
  | other s s' ids _ hgen ih =>
    rw [hgen]
    exact ih

/-- C17 as stated fails: when the id generator has reached `UINT32_MAX` (the id of the
connection accepted last), the next connection is accepted into slot 0 and gets the id 0,
which is zero and not greater than the earlier id. -/
theorem client_id_wraps_to_zero :
    example_server_ids_exhausted.id_generator = 4294967295 ∧
    client_connected_slot example_server_ids_exhausted = some 0 ∧
    ((ipc_server_handle_client_connected example_server_ids_exhausted (some 3)).threads 0
      ).client_state.id = 0 ∧
    (ipc_server_handle_client_connected example_server_ids_exhausted (some 3)).id_generator
      = 0 := by
  refine ⟨rfl, by decide, by decide, by decide⟩

/-- C17, amended. Along a server run, as long as at most `2 ^ 32 - 1` connections have
been accepted, the ids given to the accepted connections are `1, 2, 3, ...` in order:
every id is non-zero and strictly greater than every id given earlier, no two
connections have the same id, and the id generator holds the last id given. -/
theorem client_ids_strictly_increase (s : ipc_server) (ids : List Nat)
    (h : connection_history s ids) (hn : ids.length < UINT32_SIZE) :
    ids = (List.range ids.length).map (fun k => k + 1) ∧
    (∀ id, id ∈ ids → id ≠ 0) ∧
    ids.Pairwise (fun a b => a < b) ∧
    ids.Nodup ∧
    s.id_generator = ids.length := by
  obtain ⟨h1, h2⟩ := connection_history_ids s ids h
  have heq : ids = (List.range ids.length).map (fun k => k + 1) := by
    conv_lhs => rw [h2]
    apply List.map_congr_left
    intro k hk
    have hk2 := List.mem_range.1 hk
    exact Nat.mod_eq_of_lt (by omega)
  have hpair : ((List.range ids.length).map (fun k => k + 1)).Pairwise (fun a b => a < b) :=
    List.Pairwise.map _ (fun a b hab => by omega) (List.pairwise_lt_range _)
  refine ⟨heq, ?_, ?_, ?_, ?_⟩
  · intro id hid
    rw [heq] at hid
    obtain ⟨k, _, hk⟩ := List.mem_map.1 hid
    omega
  · rw [heq]
    exact hpair
  · rw [heq]
    exact hpair.imp (fun hab => by omega)
  · rw [h1]
    exact Nat.mod_eq_of_lt hn

/-- Witness of C17, amended: two connections accepted on a fresh server get the ids 1 and
2. -/
theorem client_ids_strictly_increase_witness :
    connection_history
      (ipc_server_handle_client_connected
        (ipc_server_handle_client_connected (init_server_state ipc_server.zero) (some 3))
        (some 4)) [1, 2] ∧
    [1, 2].Pairwise (fun a b => a < b) :=
  have h : connection_history
      (ipc_server_handle_client_connected
        (ipc_server_handle_client_connected (init_server_state ipc_server.zero) (some 3))
        (some 4)) [1, 2] :=
    connection_history.accepted _ [1] (some 4) 1
      (connection_history.accepted _ [] (some 3) 0
        (connection_history.start _ rfl) (by decide)) (by decide)
  ⟨h, (client_ids_strictly_increase _ [1, 2] h (by decide)).2.2.1⟩

/-! ## Lemmas on the local spaces -/

theorem first_free_lt_spec (capacity : Nat) (is_free : Nat → Bool)
    (h : ¬ first_free capacity is_free ≥ capacity) :
    first_free capacity is_free < capacity ∧ is_free (first_free capacity is_free) = true := by
  obtain ⟨_, _, c⟩ := first_free_spec capacity is_free
  exact ⟨by omega, c (by omega)⟩

theorem get_new_localspace_id_ok (IPC_MAX_CLIENT_SPACES : Nat) (s : ipc_server) (t : Nat)
    (L F : Nat) (s1 : ipc_server)
    (h : get_new_localspace_id IPC_MAX_CLIENT_SPACES s t = (.ok (L, F), s1)) :
    L < IPC_MAX_CLIENT_SPACES ∧ F < IPC_MAX_CLIENT_SPACES ∧ L ≠ F ∧
    (s.threads t).xspcs L = none ∧ (s.threads t).xspcs F = none ∧
    ∃ a b, s1 = s.set_ics t { (s.threads t) with
      local_space_overseer_index := a
      local_space_index := L
      local_floor_space_overseer_index := b
      local_floor_space_index := F } := by
  unfold get_new_localspace_id at h
  simp only [] at h
  split at h
  · cases h
  · split at h
    · cases h
    · rename_i hL
      split at h
      · cases h
      · split at h
        · cases h
        · rename_i hF
          simp only [Prod.mk.injEq, Except.ok.injEq] at h
          obtain ⟨⟨hl, hf⟩, hs⟩ := h
          obtain ⟨l1, l2⟩ := first_free_lt_spec _ _ hL
          obtain ⟨f1, f2⟩ := first_free_lt_spec _ _ hF
          simp only [ipc_server.set_ics, Function.update_same, Function.update_idem] at hl hf hs l1 l2 f1 f2
          simp only [Bool.and_eq_true, decide_eq_true_eq, Option.isNone_iff_eq_none] at l2 f2
          subst hl
          subst hf
          refine ⟨l1, f1, fun heq => f2.2 heq.symm, l2, f2.1,
            first_free IPC_MAX_CLIENT_SPACES (fun i => (s.xso.localspace i).isNone),
            first_free IPC_MAX_CLIENT_SPACES (fun i => (s.xso.localfloorspace i).isNone), ?_⟩
          rw [← hs]
          simp [ipc_server.set_ics]

theorem create_localspace_ok (IPC_MAX_CLIENT_SPACES : Nat) (s : ipc_server) (t : Nat)
    (xso_xret : xrt_result_t) (local_xs local_floor_xs : xrt_space) (L F : Nat)
    (s1 : ipc_server)
    (h : create_localspace IPC_MAX_CLIENT_SPACES s t xso_xret local_xs local_floor_xs =
      (.ok (L, F), s1)) :
    L < IPC_MAX_CLIENT_SPACES ∧ F < IPC_MAX_CLIENT_SPACES ∧ L ≠ F ∧
    (s.threads t).xspcs L = none ∧ (s.threads t).xspcs F = none ∧
    (s1.threads t).local_space_index = L ∧ (s1.threads t).local_floor_space_index = F ∧
    (s1.threads t).xspcs L = some local_xs ∧ (s1.threads t).xspcs F = some local_floor_xs ∧
    (∀ k, k ≠ L → k ≠ F → (s1.threads t).xspcs k = (s.threads t).xspcs k) ∧
    s1.xso.localspace (s1.threads t).local_space_overseer_index = some local_xs ∧
    s1.xso.localfloorspace (s1.threads t).local_floor_space_overseer_index =
      some local_floor_xs := by
  unfold create_localspace at h
  cases hg : get_new_localspace_id IPC_MAX_CLIENT_SPACES s t with
  | mk r s0 =>
    rw [hg] at h
    cases r with
    | error e => simp at h
    | ok ids =>
      obtain ⟨l, f⟩ := ids
      simp only [] at h
      split at h
      · simp at h
      · simp only [Prod.mk.injEq, Except.ok.injEq] at h
        obtain ⟨⟨hl, hf⟩, hs⟩ := h
        subst hl
        subst hf
        obtain ⟨g1, g2, g3, g4, g5, a, b, g6⟩ := get_new_localspace_id_ok _ s t l f s0 hg
        subst g6
        subst hs
        refine ⟨g1, g2, g3, g4, g5, ?_, ?_, ?_, ?_, ?_, ?_, ?_⟩ <;>
          simp [ipc_server.set_ics, ipc_server.call, Function.update_noteq g3,
            Function.update_noteq (Ne.symm g3)]
        intro k hk1 hk2
        simp [Function.update_noteq hk1, Function.update_noteq hk2]

theorem create_semantic_id_free (IPC_MAX_CLIENT_SPACES : Nat) (s : ipc_server) (t : Nat)
    (semantic : Option xrt_space) (k : Nat)
    (h : ((create_semantic_id IPC_MAX_CLIENT_SPACES s t semantic).2.threads t).xspcs k = none) :
    (s.threads t).xspcs k = none := by
  unfold create_semantic_id at h
  cases semantic with
  | none => exact h
  | some xs =>
    simp only [] at h
    unfold track_space at h
    cases hg : get_new_space_id IPC_MAX_CLIENT_SPACES (s.threads t) with
    | error e =>
      simp only [hg] at h
      exact h
    | ok id =>
      simp only [hg, ipc_server.set_ics, Function.update_same] at h
      by_cases hk : k = id
      · subst hk
        simp at h
      · rw [Function.update_noteq hk] at h
        exact h

theorem space_destroy_ok (IPC_MAX_CLIENT_SPACES : Nat) (s : ipc_server) (t id : Nat)
    (x : xrt_space) (hid : id < IPC_MAX_CLIENT_SPACES) (hx : (s.threads t).xspcs id = some x) :
    (ipc_handle_space_destroy IPC_MAX_CLIENT_SPACES s t id).1 = XRT_SUCCESS ∧
    ((ipc_handle_space_destroy IPC_MAX_CLIENT_SPACES s t id).2.threads t).xspcs =
      Function.update (s.threads t).xspcs id none ∧
    (ipc_handle_space_destroy IPC_MAX_CLIENT_SPACES s t id).2.xso.localspace =
      (if id = (s.threads t).local_space_index then
        Function.update s.xso.localspace (s.threads t).local_space_overseer_index none
       else s.xso.localspace) ∧
    (ipc_handle_space_destroy IPC_MAX_CLIENT_SPACES s t id).2.xso.localfloorspace =
      (if id = (s.threads t).local_floor_space_index then
        Function.update s.xso.localfloorspace (s.threads t).local_floor_space_overseer_index
          none
       else s.xso.localfloorspace) := by
  have hv : validate_space_id IPC_MAX_CLIENT_SPACES (s.threads t) (id : Int) = .ok x :=
    (validate_space_id_ok_iff _ _ _ _).2 ⟨by omega, by omega, by simpa using hx⟩
  unfold ipc_handle_space_destroy
  simp only [hv]
  by_cases h1 : id = (s.threads t).local_space_index <;>
    by_cases h2 : id = (s.threads t).local_floor_space_index <;>
    simp only [h1, h2, if_true, if_false] <;>
    refine ⟨trivial, ?_, ?_, ?_⟩ <;>
    simp [ipc_server.set_ics, xrt_space_reference_null, ipc_server.call] <;>
    (repeat' split) <;> simp [ipc_server.call]

theorem create_semantic_ids_spec (IPC_MAX_CLIENT_SPACES : Nat) (s : ipc_server) (t : Nat)
    (xso_xret : xrt_result_t) (local_xs local_floor_xs : xrt_space) :
    ∃ s', (∀ k, (s'.threads t).xspcs k = none → (s.threads t).xspcs k = none) ∧
      (ipc_handle_space_create_semantic_ids IPC_MAX_CLIENT_SPACES s t xso_xret local_xs
        local_floor_xs).2.2 =
        (create_localspace IPC_MAX_CLIENT_SPACES s' t xso_xret local_xs local_floor_xs).2 ∧
      (ipc_handle_space_create_semantic_ids IPC_MAX_CLIENT_SPACES s t xso_xret local_xs
        local_floor_xs).2.1.local_ids =
        (match (create_localspace IPC_MAX_CLIENT_SPACES s' t xso_xret local_xs
            local_floor_xs).1 with
          | .ok ids => some ids
          | .error _ => none) ∧
      (ipc_handle_space_create_semantic_ids IPC_MAX_CLIENT_SPACES s t xso_xret local_xs
        local_floor_xs).1 =
        (match (create_localspace IPC_MAX_CLIENT_SPACES s' t xso_xret local_xs
            local_floor_xs).1 with
          | .ok _ => XRT_SUCCESS
          | .error xret => xret) := by
  refine ⟨(create_semantic_id IPC_MAX_CLIENT_SPACES
      (create_semantic_id IPC_MAX_CLIENT_SPACES
        (create_semantic_id IPC_MAX_CLIENT_SPACES
          (create_semantic_id IPC_MAX_CLIENT_SPACES s t s.xso.semantic_root).2 t
          (create_semantic_id IPC_MAX_CLIENT_SPACES s t s.xso.semantic_root).2.xso.semantic_view).2
        t
        (create_semantic_id IPC_MAX_CLIENT_SPACES
          (create_semantic_id IPC_MAX_CLIENT_SPACES s t s.xso.semantic_root).2 t
          (create_semantic_id IPC_MAX_CLIENT_SPACES s t s.xso.semantic_root).2.xso.semantic_view
          ).2.xso.semantic_stage).2
      t
      (create_semantic_id IPC_MAX_CLIENT_SPACES
        (create_semantic_id IPC_MAX_CLIENT_SPACES
          (create_semantic_id IPC_MAX_CLIENT_SPACES s t s.xso.semantic_root).2 t
          (create_semantic_id IPC_MAX_CLIENT_SPACES s t s.xso.semantic_root).2.xso.semantic_view).2
        t
        (create_semantic_id IPC_MAX_CLIENT_SPACES
          (create_semantic_id IPC_MAX_CLIENT_SPACES s t s.xso.semantic_root).2 t
          (create_semantic_id IPC_MAX_CLIENT_SPACES s t s.xso.semantic_root).2.xso.semantic_view
          ).2.xso.semantic_stage).2.xso.semantic_unbounded).2, ?_, ?_⟩
  · intro k hk
    exact create_semantic_id_free _ _ _ _ k
      (create_semantic_id_free _ _ _ _ k
        (create_semantic_id_free _ _ _ _ k (create_semantic_id_free _ _ _ _ k hk)))
  · unfold ipc_handle_space_create_semantic_ids
    simp only []
    split <;> rename_i heq <;> simp [heq]

/-- C18 (the code departs from the claim). First input: a client whose space table of
capacity 4 has one free entry, on an overseer without semantic spaces; the request fails
with `XRT_ERROR_IPC_FAILURE` for want of a second free entry, yet the client's
`local_space_index` has been overwritten (0 before, 3 after). Second input: a client with
an empty table of capacity 3, on an overseer with a root and a view space; the request
fails, yet root and view have been tracked in entries 0 and 1 of `xspcs` and
`local_space_index` is 2. -/
theorem create_semantic_ids_error_mutates_state :
    (ipc_handle_space_create_semantic_ids 4 example_server_one_free_space 0 XRT_SUCCESS 30
      31).1 = XRT_ERROR_IPC_FAILURE ∧
    (example_server_one_free_space.threads 0).local_space_index = 0 ∧
    ((ipc_handle_space_create_semantic_ids 4 example_server_one_free_space 0 XRT_SUCCESS 30
      31).2.2.threads 0).local_space_index = 3 ∧
    (ipc_handle_space_create_semantic_ids 3 example_server_semantic 0 XRT_SUCCESS 30
      31).1 = XRT_ERROR_IPC_FAILURE ∧
    (example_server_semantic.threads 0).xspcs 0 = none ∧
    (example_server_semantic.threads 0).xspcs 1 = none ∧
    ((ipc_handle_space_create_semantic_ids 3 example_server_semantic 0 XRT_SUCCESS 30
      31).2.2.threads 0).xspcs 0 = some 20 ∧
    ((ipc_handle_space_create_semantic_ids 3 example_server_semantic 0 XRT_SUCCESS 30
      31).2.2.threads 0).xspcs 1 = some 21 ∧
    (example_server_semantic.threads 0).local_space_index = 0 ∧
    ((ipc_handle_space_create_semantic_ids 3 example_server_semantic 0 XRT_SUCCESS 30
      31).2.2.threads 0).local_space_index = 2 := by
  refine ⟨rfl, rfl, ?_, rfl, rfl, rfl, ?_, ?_, rfl, ?_⟩ <;> decide

/-- C19. When `ipc_handle_space_create_semantic_ids` succeeds with local id `L` and
local-floor id `F`, then `L` and `F` differ and were free entries of the client's table;
`ipc_handle_space_destroy(L)` succeeds, empties entry `L` and the overseer's
`localspace[local_space_overseer_index]` and leaves `localfloorspace` as it is;
`ipc_handle_space_destroy(F)` succeeds, empties entry `F` and the overseer's
`localfloorspace[local_floor_space_overseer_index]` and leaves `localspace` as it is; and
destroying any other occupied id `k` empties entry `k` only and leaves both overseer
arrays as they are. -/
theorem local_space_destroy_clears_overseer (IPC_MAX_CLIENT_SPACES : Nat) (s : ipc_server)
    (t : Nat) (xso_xret : xrt_result_t) (local_xs local_floor_xs : xrt_space) (L F : Nat)
    (hids : (ipc_handle_space_create_semantic_ids IPC_MAX_CLIENT_SPACES s t xso_xret local_xs
      local_floor_xs).2.1.local_ids = some (L, F)) :
    (ipc_handle_space_create_semantic_ids IPC_MAX_CLIENT_SPACES s t xso_xret local_xs
      local_floor_xs).1 = XRT_SUCCESS ∧
    L ≠ F ∧ (s.threads t).xspcs L = none ∧ (s.threads t).xspcs F = none ∧
    (∀ s1, s1 = (ipc_handle_space_create_semantic_ids IPC_MAX_CLIENT_SPACES s t xso_xret
        local_xs local_floor_xs).2.2 →
      ((ipc_handle_space_destroy IPC_MAX_CLIENT_SPACES s1 t L).1 = XRT_SUCCESS ∧
       ((ipc_handle_space_destroy IPC_MAX_CLIENT_SPACES s1 t L).2.threads t).xspcs L = none ∧
       (ipc_handle_space_destroy IPC_MAX_CLIENT_SPACES s1 t L).2.xso.localspace
         (s1.threads t).local_space_overseer_index = none ∧
       (ipc_handle_space_destroy IPC_MAX_CLIENT_SPACES s1 t L).2.xso.localfloorspace =
         s1.xso.localfloorspace) ∧
      ((ipc_handle_space_destroy IPC_MAX_CLIENT_SPACES s1 t F).1 = XRT_SUCCESS ∧
       ((ipc_handle_space_destroy IPC_MAX_CLIENT_SPACES s1 t F).2.threads t).xspcs F = none ∧
       (ipc_handle_space_destroy IPC_MAX_CLIENT_SPACES s1 t F).2.xso.localfloorspace
         (s1.threads t).local_floor_space_overseer_index = none ∧
       (ipc_handle_space_destroy IPC_MAX_CLIENT_SPACES s1 t F).2.xso.localspace =
         s1.xso.localspace) ∧
      (∀ k x, k < IPC_MAX_CLIENT_SPACES → k ≠ L → k ≠ F → (s1.threads t).xspcs k = some x →
        (ipc_handle_space_destroy IPC_MAX_CLIENT_SPACES s1 t k).1 = XRT_SUCCESS ∧
        ((ipc_handle_space_destroy IPC_MAX_CLIENT_SPACES s1 t k).2.threads t).xspcs =
          Function.update (s1.threads t).xspcs k none ∧
        (ipc_handle_space_destroy IPC_MAX_CLIENT_SPACES s1 t k).2.xso.localspace =
          s1.xso.localspace ∧
        (ipc_handle_space_destroy IPC_MAX_CLIENT_SPACES s1 t k).2.xso.localfloorspace =
          s1.xso.localfloorspace)) := by
  obtain ⟨s', hfree, hst, hloc, hret⟩ := create_semantic_ids_spec IPC_MAX_CLIENT_SPACES s t
    xso_xret local_xs local_floor_xs
  rw [hloc] at hids
  rw [hret, hst]
  cases hcl : create_localspace IPC_MAX_CLIENT_SPACES s' t xso_xret local_xs local_floor_xs with
  | mk r s2 =>
    rw [hcl] at hids
    cases r with
    | error e => simp at hids
    | ok ids =>
      simp only [Option.some.injEq] at hids
      subst hids
      obtain ⟨c1, c2, c3, c4, c5, c6, c7, c8, c9, _, c11, c12⟩ :=
        create_localspace_ok _ s' t xso_xret local_xs local_floor_xs L F s2 hcl
      refine ⟨rfl, c3, hfree L c4, hfree F c5, ?_⟩
      intro s1 hs1
      simp only [] at hs1
      subst hs1
      obtain ⟨dl1, dl2, dl3, dl4⟩ := space_destroy_ok IPC_MAX_CLIENT_SPACES s1 t L local_xs c1 c8
      obtain ⟨df1, df2, df3, df4⟩ := space_destroy_ok IPC_MAX_CLIENT_SPACES s1 t F
        local_floor_xs c2 c9
      refine ⟨⟨dl1, ?_, ?_, ?_⟩, ⟨df1, ?_, ?_, ?_⟩, ?_⟩
      · rw [dl2, Function.update_same]
      · rw [dl3, if_pos c6.symm, Function.update_same]
      · rw [dl4, if_neg (by rw [c7]; exact c3)]
      · rw [df2, Function.update_same]
      · rw [df4, if_pos c7.symm, Function.update_same]
      · rw [df3, if_neg (by rw [c6]; exact Ne.symm c3)]
      · intro k x hk hkL hkF hx
        obtain ⟨d1, d2, d3, d4⟩ := space_destroy_ok IPC_MAX_CLIENT_SPACES s1 t k x hk hx
        refine ⟨d1, d2, ?_, ?_⟩
        · rw [d3, if_neg (by rw [c6]; exact hkL)]
        · rw [d4, if_neg (by rw [c7]; exact hkF)]

/-- Witness of C19: on the example server with a root and a view space and a table of
capacity 4 the request succeeds with `L = 2` and `F = 3`; destroying id 2 empties the
overseer's local space. -/
theorem local_space_destroy_clears_overseer_witness :
    (ipc_handle_space_create_semantic_ids 4 example_server_semantic 0 XRT_SUCCESS 30
      31).2.1.local_ids = some (2, 3) ∧
    (ipc_handle_space_create_semantic_ids 4 example_server_semantic 0 XRT_SUCCESS 30
      31).1 = XRT_SUCCESS ∧
    (ipc_handle_space_destroy 4
      (ipc_handle_space_create_semantic_ids 4 example_server_semantic 0 XRT_SUCCESS 30
        31).2.2 0 2).1 = XRT_SUCCESS :=
  ⟨by decide,
   (local_space_destroy_clears_overseer 4 example_server_semantic 0 XRT_SUCCESS 30 31 2 3
      (by decide)).1,
   (((local_space_destroy_clears_overseer 4 example_server_semantic 0 XRT_SUCCESS 30 31 2 3
      (by decide)).2.2.2.2 _ rfl).1).1⟩

/-! ## Lemmas on the shared memory set-up -/

theorem copy_into_snd {α : Type} (l : List α) (dst : Nat → α) (index : Nat)
    (h : index + l.length < UINT32_SIZE) : (copy_into dst index l).2 = index + l.length := by
  induction l generalizing dst index with
  | nil => rfl
  | cons x rest ih =>
    simp only [List.length_cons] at h
    have h1 : (index + 1) % UINT32_SIZE = index + 1 := Nat.mod_eq_of_lt (by omega)
    simp only [copy_into, h1, List.length_cons]
    rw [ih _ _ (by omega)]
    omega

theorem uint32_sub_add (a n : Nat) (h : a + n < UINT32_SIZE) : uint32_sub (a + n) a = n := by
  unfold uint32_sub
  have : a + n + UINT32_SIZE - a = n + UINT32_SIZE := by omega
  rw [this, Nat.add_mod_right]
  exact Nat.mod_eq_of_lt (by omega)

theorem init_shm_bindings_frame (l : List xrt_binding_profile) (st : init_shm_state) :
    (init_shm_bindings st l).ism.isdevs = st.ism.isdevs ∧
    (init_shm_bindings st l).count = st.count ∧
    (init_shm_bindings st l).input_index = st.input_index ∧
    (init_shm_bindings st l).output_index = st.output_index := by
  induction l generalizing st with
  | nil => exact ⟨rfl, rfl, rfl, rfl⟩
  | cons xbp rest ih =>
    simp only [init_shm_bindings]
    obtain ⟨a, b, c, d⟩ := ih
      { st with
        ism := (handle_binding st.ism xbp st.binding_index st.input_pair_index
          st.output_pair_index).1
        binding_index := (st.binding_index + 1) % UINT32_SIZE
        input_pair_index := (handle_binding st.ism xbp st.binding_index st.input_pair_index
          st.output_pair_index).2.1
        output_pair_index := (handle_binding st.ism xbp st.binding_index st.input_pair_index
          st.output_pair_index).2.2 }
    exact ⟨a.trans rfl, b, c, d⟩

theorem init_shm_bindings_index (l : List xrt_binding_profile) (st : init_shm_state)
    (h : st.binding_index + l.length < UINT32_SIZE) :
    (init_shm_bindings st l).binding_index = st.binding_index + l.length := by
  induction l generalizing st with
  | nil => rfl
  | cons xbp rest ih =>
    simp only [List.length_cons] at h
    have h1 : (st.binding_index + 1) % UINT32_SIZE = st.binding_index + 1 :=
      Nat.mod_eq_of_lt (by omega)
    simp only [init_shm_bindings, List.length_cons]
    rw [ih _ (by simp only [h1]; omega)]
    simp only [h1]
    omega

theorem init_shm_device_spec (N : Nat) (xtracks : Nat → Option xrt_tracking_origin)
    (st : init_shm_state) (xdev : xrt_device)
    (hb : st.binding_index + xdev.binding_profiles.length < UINT32_SIZE)
    (hi : st.input_index + xdev.inputs.length < UINT32_SIZE)
    (ho : st.output_index + xdev.outputs.length < UINT32_SIZE) :
    (init_shm_device N xtracks st xdev).count = (st.count + 1) % UINT32_SIZE ∧
    (init_shm_device N xtracks st xdev).input_index = st.input_index + xdev.inputs.length ∧
    (init_shm_device N xtracks st xdev).output_index = st.output_index + xdev.outputs.length ∧
    (init_shm_device N xtracks st xdev).binding_index =
      st.binding_index + xdev.binding_profiles.length ∧
    (∀ d, d ≠ st.count → (init_shm_device N xtracks st xdev).ism.isdevs d = st.ism.isdevs d) ∧
    ((init_shm_device N xtracks st xdev).ism.isdevs st.count).input_count =
      (if xdev.inputs.length = 0 then (st.ism.isdevs st.count).input_count
       else xdev.inputs.length) ∧
    ((init_shm_device N xtracks st xdev).ism.isdevs st.count).first_input_index =
      (if xdev.inputs.length = 0 then (st.ism.isdevs st.count).first_input_index
       else st.input_index) ∧
    ((init_shm_device N xtracks st xdev).ism.isdevs st.count).output_count =
      (if xdev.outputs.length = 0 then (st.ism.isdevs st.count).output_count
       else xdev.outputs.length) ∧
    ((init_shm_device N xtracks st xdev).ism.isdevs st.count).first_output_index =
      (if xdev.outputs.length = 0 then (st.ism.isdevs st.count).first_output_index
       else st.output_index) ∧
    ((init_shm_device N xtracks st xdev).ism.isdevs st.count).binding_profile_count =
      (if xdev.binding_profiles.length = 0 then (st.ism.isdevs st.count).binding_profile_count
       else xdev.binding_profiles.length) ∧
    ((init_shm_device N xtracks st xdev).ism.isdevs st.count).first_binding_profile_index =
      (if xdev.binding_profiles.length = 0 then
         (st.ism.isdevs st.count).first_binding_profile_index
       else st.binding_index) := by
  have f1 := fun l st => (init_shm_bindings_frame l st).1
  have f2 := fun l st => (init_shm_bindings_frame l st).2.1
  have f3 := fun l st => (init_shm_bindings_frame l st).2.2.1
  have f4 := fun l st => (init_shm_bindings_frame l st).2.2.2
  have f5 : ∀ st1 : init_shm_state, st1.binding_index = st.binding_index →
      (init_shm_bindings st1 xdev.binding_profiles).binding_index =
        st.binding_index + xdev.binding_profiles.length :=
    fun st1 h => by rw [init_shm_bindings_index _ _ (by rw [h]; exact hb), h]
  have gi : ∀ dst, (copy_into dst st.input_index xdev.inputs).2 =
      st.input_index + xdev.inputs.length := fun dst => copy_into_snd _ _ _ hi
  have go : ∀ dst, (copy_into dst st.output_index xdev.outputs).2 =
      st.output_index + xdev.outputs.length := fun dst => copy_into_snd _ _ _ ho
  by_cases cb : xdev.binding_profiles.length = 0 <;>
  by_cases ci : xdev.inputs.length = 0 <;>
  by_cases co : xdev.outputs.length = 0 <;>
  simp [init_shm_device, f1, f2, f3, f4, f5, gi, go, cb, ci, co,
    uint32_sub_add, hb, hi, ho, Function.update_noteq, Function.update_same] <;>
  intro d hd <;>
  simp [Function.update_noteq hd]

theorem ranges_inv_step (first count first2 count2 : Nat → Nat) (index n c : Nat)
    (h : ranges_inv first count index)
    (hother : ∀ d, d ≠ c → first2 d = first d ∧ count2 d = count d)
    (hc : count2 c = if n = 0 then count c else n)
    (hf : first2 c = if n = 0 then first c else index) :
    ranges_inv first2 count2 (index + n) := by
  obtain ⟨h1, h2⟩ := h
  by_cases hn : n = 0
  · rw [if_pos hn] at hc hf
    have e1 : ∀ d, first2 d = first d := fun d => by
      by_cases hd : d = c
      · rw [hd, hf]
      · exact (hother d hd).1
    have e2 : ∀ d, count2 d = count d := fun d => by
      by_cases hd : d = c
      · rw [hd, hc]
      · exact (hother d hd).2
    refine ⟨fun d => ?_, fun d e hde => ?_⟩
    · rw [e1, e2]
      have := h1 d
      omega
    · rw [e1, e2, e1, e2]
      exact h2 d e hde
  · rw [if_neg hn] at hc hf
    refine ⟨fun d => ?_, fun d e hde => ?_⟩
    · by_cases hd : d = c
      · rw [hd, hc, hf]
      · rw [(hother d hd).1, (hother d hd).2]
        have := h1 d
        omega
    · by_cases hd : d = c
      · have he : e ≠ c := fun he => hde (hd.trans he.symm)
        rw [hd, hc, hf, (hother e he).1, (hother e he).2]
        have := h1 e
        omega
      · by_cases he : e = c
        · rw [he, hc, hf, (hother d hd).1, (hother d hd).2]
          have := h1 d
          omega
        · rw [(hother d hd).1, (hother d hd).2, (hother e he).1, (hother e he).2]
          exact h2 d e hde

theorem device_total_le_succ (f : xrt_device → Nat) (s : ipc_server) (i : Nat) :
    device_total f s i ≤ device_total f s (i + 1) := by
  simp only [device_total]
  omega

theorem device_total_mono (f : xrt_device → Nat) (s : ipc_server) (i j : Nat) (h : i ≤ j) :
    device_total f s i ≤ device_total f s j := by
  induction j with
  | zero =>
    have : i = 0 := by omega
    rw [this]
  | succ j ih =>
    by_cases hij : i = j + 1
    · rw [hij]
    · exact (ih (by omega)).trans (device_total_le_succ f s j)

theorem device_total_none (f : xrt_device → Nat) (s : ipc_server) (i : Nat)
    (h : s.idevs i = none) : device_total f s (i + 1) = device_total f s i := by
  simp only [device_total, h]
  omega

theorem device_total_some (f : xrt_device → Nat) (s : ipc_server) (i : Nat) (xdev : xrt_device)
    (h : s.idevs i = some xdev) : device_total f s (i + 1) = device_total f s i + f xdev := by
  simp only [device_total, h]

theorem init_shm_inv_none (s : ipc_server) (i : Nat) (st : init_shm_state)
    (hdev : s.idevs i = none) (h : init_shm_inv s i st) : init_shm_inv s (i + 1) st := by
  obtain ⟨h1, h2, h3, h4, h5, h6, h7⟩ := h
  refine ⟨by omega, ?_, ?_, ?_, h5, h6, h7⟩
  · rw [device_total_none _ s i hdev]
    exact h2
  · rw [device_total_none _ s i hdev]
    exact h3
  · rw [device_total_none _ s i hdev]
    exact h4

theorem init_shm_inv_some (N : Nat) (s : ipc_server) (i : Nat) (st : init_shm_state)
    (xdev : xrt_device) (hdev : s.idevs i = some xdev) (h : init_shm_inv s i st)
    (hi : device_total (fun x => x.inputs.length) s (i + 1) < UINT32_SIZE)
    (ho : device_total (fun x => x.outputs.length) s (i + 1) < UINT32_SIZE)
    (hb : device_total (fun x => x.binding_profiles.length) s (i + 1) < UINT32_SIZE) :
    init_shm_inv s (i + 1) (init_shm_device N s.xtracks st xdev) := by
  obtain ⟨h1, h2, h3, h4, h5, h6, h7⟩ := h
  rw [device_total_some _ s i xdev hdev] at hi ho hb
  rw [← h2] at hi
  rw [← h3] at ho
  rw [← h4] at hb
  obtain ⟨a1, a2, a3, a4, a5, a6, a7, a8, a9, a10, a11⟩ :=
    init_shm_device_spec N s.xtracks st xdev hb hi ho
  refine ⟨?_, ?_, ?_, ?_, ?_, ?_, ?_⟩
  · rw [a1]
    exact (Nat.mod_le _ _).trans (by omega)
  · rw [a2, device_total_some _ s i xdev hdev, h2]
  · rw [a3, device_total_some _ s i xdev hdev, h3]
  · rw [a4, device_total_some _ s i xdev hdev, h4]
  · rw [a2]
    exact ranges_inv_step _ _ _ _ _ _ st.count h5
      (fun d hd => by simp only [a5 d hd, and_self]) a6 a7
  · rw [a3]
    exact ranges_inv_step _ _ _ _ _ _ st.count h6
      (fun d hd => by simp only [a5 d hd, and_self]) a8 a9
  · rw [a4]
    exact ranges_inv_step _ _ _ _ _ _ st.count h7
      (fun d hd => by simp only [a5 d hd, and_self]) a10 a11

theorem init_shm_devices_loop_inv (N : Nat) (s : ipc_server)
    (hi : device_total (fun x => x.inputs.length) s N < UINT32_SIZE)
    (ho : device_total (fun x => x.outputs.length) s N < UINT32_SIZE)
    (hb : device_total (fun x => x.binding_profiles.length) s N < UINT32_SIZE)
    (fuel i : Nat) (acc : init_shm_state × List xrt_call) (hfuel : i + fuel = N)
    (h : init_shm_inv s i acc.1) :
    init_shm_inv s N (init_shm_devices_loop N s fuel i acc).1 := by
  induction fuel generalizing i acc with
  | zero =>
    have : i = N := by omega
    rw [← this]
    exact h
  | succ fuel ih =>
    have hlt : i < N := by omega
    simp only [init_shm_devices_loop, if_pos hlt]
    cases hdev : s.idevs i with
    | none => exact ih (i + 1) acc (by omega) (init_shm_inv_none s i acc.1 hdev h)
    | some xdev =>
      exact ih (i + 1) _ (by omega)
        (init_shm_inv_some N s i acc.1 xdev hdev h
          ((device_total_mono _ s (i + 1) N (by omega)).trans_lt hi)
          ((device_total_mono _ s (i + 1) N (by omega)).trans_lt ho)
          ((device_total_mono _ s (i + 1) N (by omega)).trans_lt hb))

theorem init_shm_device_count (N : Nat) (xtracks : Nat → Option xrt_tracking_origin)
    (st : init_shm_state) (xdev : xrt_device) :
    (init_shm_device N xtracks st xdev).count = (st.count + 1) % UINT32_SIZE := by
  have f2 := fun l st => (init_shm_bindings_frame l st).2.1
  simp only [init_shm_device]
  split_ifs <;> simp [f2]

theorem init_shm_devices_loop_count (N : Nat) (s : ipc_server)
    (fuel i : Nat) (acc : init_shm_state × List xrt_call) (h : acc.1.count ≤ i) :
    (init_shm_devices_loop N s fuel i acc).1.count ≤ i + fuel := by
  induction fuel generalizing i acc with
  | zero => exact h
  | succ fuel ih =>
    simp only [init_shm_devices_loop]
    split
    · cases hdev : s.idevs i with
      | none => exact Nat.le_trans (ih (i + 1) acc (by omega)) (Nat.le_of_eq (by omega))
      | some xdev =>
        refine Nat.le_trans (ih (i + 1) (init_shm_device N s.xtracks acc.1 xdev,
          acc.2 ++ [.device_update_inputs xdev]) ?_) (Nat.le_of_eq (by omega))
        show (init_shm_device N s.xtracks acc.1 xdev).count ≤ i + 1
        rw [init_shm_device_count]
        exact (Nat.mod_le _ _).trans (by omega)
    · omega

theorem init_shm_tracks_loop_count (N : Nat) (s : ipc_server)
    (fuel i : Nat) (acc : (Nat → ipc_shared_tracking_origin) × Nat) (h : acc.2 ≤ i) :
    (init_shm_tracks_loop N s fuel i acc).2 ≤ i + fuel := by
  induction fuel generalizing i acc with
  | zero => exact h
  | succ fuel ih =>
    simp only [init_shm_tracks_loop]
    split
    · cases hx : s.xtracks i with
      | none => exact Nat.le_trans (ih (i + 1) acc (by omega)) (Nat.le_of_eq (by omega))
      | some xtrack =>
        exact Nat.le_trans (ih (i + 1) (Function.update acc.1 acc.2 { type := xtrack.type },
          (acc.2 + 1) % UINT32_SIZE) ((Nat.mod_le _ _).trans (by omega)))
          (Nat.le_of_eq (by omega))
    · omega

theorem init_shm_bindings_itrack_count (l : List xrt_binding_profile) (st : init_shm_state) :
    (init_shm_bindings st l).ism.itrack_count = st.ism.itrack_count := by
  induction l generalizing st with
  | nil => rfl
  | cons xbp rest ih =>
    simp only [init_shm_bindings]
    rw [ih]
    rfl

theorem init_shm_device_itrack_count (N : Nat) (xtracks : Nat → Option xrt_tracking_origin)
    (st : init_shm_state) (xdev : xrt_device) :
    (init_shm_device N xtracks st xdev).ism.itrack_count = st.ism.itrack_count := by
  simp only [init_shm_device]
  split_ifs <;> simp [init_shm_bindings_itrack_count]

theorem init_shm_devices_loop_itrack_count (N : Nat) (s : ipc_server)
    (fuel i : Nat) (acc : init_shm_state × List xrt_call) :
    (init_shm_devices_loop N s fuel i acc).1.ism.itrack_count = acc.1.ism.itrack_count := by
  induction fuel generalizing i acc with
  | zero => rfl
  | succ fuel ih =>
    simp only [init_shm_devices_loop]
    split
    · cases hdev : s.idevs i with
      | none => exact ih (i + 1) acc
      | some xdev =>
        exact (ih (i + 1) _).trans (init_shm_device_itrack_count N s.xtracks acc.1 xdev)
    · rfl

/-! ## C20: the ranges of the device descriptors -/

set_option maxRecDepth 8192 in
/-- Counterexample of C20: for one device with 129 outputs `init_shm` returns 0 with
`isdev_count = 1` and the populated descriptor 0 holding the output range `[0, 129)`, which
does not lie inside the `IPC_SHARED_MAX_OUTPUTS = 128` elements of `outputs`. -/
theorem init_shm_outputs_exceed_array :
    (init_shm 1 example_server_many_outputs (some ipc_shared_memory.zero)).1 = 0 ∧
    (init_shm 1 example_server_many_outputs (some ipc_shared_memory.zero)).2.ism.isdev_count
      = 1 ∧
    ((init_shm 1 example_server_many_outputs (some ipc_shared_memory.zero)).2.ism.isdevs
      0).first_output_index = 0 ∧
    ((init_shm 1 example_server_many_outputs (some ipc_shared_memory.zero)).2.ism.isdevs
      0).output_count = 129 ∧
    ¬ (∀ d,
        d < (init_shm 1 example_server_many_outputs
          (some ipc_shared_memory.zero)).2.ism.isdev_count →
        ((init_shm 1 example_server_many_outputs (some ipc_shared_memory.zero)).2.ism.isdevs
          d).first_output_index +
        ((init_shm 1 example_server_many_outputs (some ipc_shared_memory.zero)).2.ism.isdevs
          d).output_count ≤ IPC_SHARED_MAX_OUTPUTS) := by
  have h1 : (init_shm 1 example_server_many_outputs
      (some ipc_shared_memory.zero)).2.ism.isdev_count = 1 := by decide
  have h2 : ((init_shm 1 example_server_many_outputs
      (some ipc_shared_memory.zero)).2.ism.isdevs 0).first_output_index = 0 := by decide
  have h3 : ((init_shm 1 example_server_many_outputs
      (some ipc_shared_memory.zero)).2.ism.isdevs 0).output_count = 129 := by decide
  refine ⟨rfl, h1, h2, h3, fun h => ?_⟩
  have h4 := h 0 (by rw [h1]; decide)
  rw [h2, h3] at h4
  exact absurd h4 (by decide)

/-- C20, amended: after `init_shm`, `isdev_count` and `itrack_count` are at most
`XRT_SYSTEM_MAX_DEVICES` for every set of devices; when the device descriptors of the fresh
shared memory are zero and the inputs, outputs and binding profiles of all devices together
number at most `IPC_SHARED_MAX_INPUTS`, `IPC_SHARED_MAX_OUTPUTS` and
`IPC_SHARED_MAX_BINDINGS`, the three ranges of every populated descriptor lie inside their
arrays and the ranges of two different populated descriptors share no element. -/
theorem init_shm_ranges (XRT_SYSTEM_MAX_DEVICES : Nat) (s : ipc_server)
    (ism0 : ipc_shared_memory) :
    (init_shm XRT_SYSTEM_MAX_DEVICES s (some ism0)).1 = 0 ∧
    (init_shm XRT_SYSTEM_MAX_DEVICES s (some ism0)).2.ism.isdev_count
      ≤ XRT_SYSTEM_MAX_DEVICES ∧
    (init_shm XRT_SYSTEM_MAX_DEVICES s (some ism0)).2.ism.itrack_count
      ≤ XRT_SYSTEM_MAX_DEVICES ∧
    ((∀ d, ism0.isdevs d = ipc_shared_device.zero) →
     device_total (fun x => x.inputs.length) s XRT_SYSTEM_MAX_DEVICES
       ≤ IPC_SHARED_MAX_INPUTS →
     device_total (fun x => x.outputs.length) s XRT_SYSTEM_MAX_DEVICES
       ≤ IPC_SHARED_MAX_OUTPUTS →
     device_total (fun x => x.binding_profiles.length) s XRT_SYSTEM_MAX_DEVICES
       ≤ IPC_SHARED_MAX_BINDINGS →
     (∀ d, d < (init_shm XRT_SYSTEM_MAX_DEVICES s (some ism0)).2.ism.isdev_count →
        ((init_shm XRT_SYSTEM_MAX_DEVICES s (some ism0)).2.ism.isdevs d).first_input_index +
          ((init_shm XRT_SYSTEM_MAX_DEVICES s (some ism0)).2.ism.isdevs d).input_count
          ≤ IPC_SHARED_MAX_INPUTS ∧
        ((init_shm XRT_SYSTEM_MAX_DEVICES s (some ism0)).2.ism.isdevs d).first_output_index +
          ((init_shm XRT_SYSTEM_MAX_DEVICES s (some ism0)).2.ism.isdevs d).output_count
          ≤ IPC_SHARED_MAX_OUTPUTS ∧
        ((init_shm XRT_SYSTEM_MAX_DEVICES s
            (some ism0)).2.ism.isdevs d).first_binding_profile_index +
          ((init_shm XRT_SYSTEM_MAX_DEVICES s
            (some ism0)).2.ism.isdevs d).binding_profile_count
          ≤ IPC_SHARED_MAX_BINDINGS) ∧
     (∀ d e, d < (init_shm XRT_SYSTEM_MAX_DEVICES s (some ism0)).2.ism.isdev_count →
        e < (init_shm XRT_SYSTEM_MAX_DEVICES s (some ism0)).2.ism.isdev_count → d ≠ e →
        ranges_disjoint
          ((init_shm XRT_SYSTEM_MAX_DEVICES s (some ism0)).2.ism.isdevs d).first_input_index
          ((init_shm XRT_SYSTEM_MAX_DEVICES s (some ism0)).2.ism.isdevs d).input_count
          ((init_shm XRT_SYSTEM_MAX_DEVICES s (some ism0)).2.ism.isdevs e).first_input_index
          ((init_shm XRT_SYSTEM_MAX_DEVICES s (some ism0)).2.ism.isdevs e).input_count ∧
        ranges_disjoint
          ((init_shm XRT_SYSTEM_MAX_DEVICES s (some ism0)).2.ism.isdevs d).first_output_index
          ((init_shm XRT_SYSTEM_MAX_DEVICES s (some ism0)).2.ism.isdevs d).output_count
          ((init_shm XRT_SYSTEM_MAX_DEVICES s (some ism0)).2.ism.isdevs e).first_output_index
          ((init_shm XRT_SYSTEM_MAX_DEVICES s (some ism0)).2.ism.isdevs e).output_count ∧
        ranges_disjoint
          ((init_shm XRT_SYSTEM_MAX_DEVICES s
            (some ism0)).2.ism.isdevs d).first_binding_profile_index
          ((init_shm XRT_SYSTEM_MAX_DEVICES s
            (some ism0)).2.ism.isdevs d).binding_profile_count
          ((init_shm XRT_SYSTEM_MAX_DEVICES s
            (some ism0)).2.ism.isdevs e).first_binding_profile_index
          ((init_shm XRT_SYSTEM_MAX_DEVICES s
            (some ism0)).2.ism.isdevs e).binding_profile_count)) := by
  have hism : (init_shm XRT_SYSTEM_MAX_DEVICES s (some ism0)).2.ism.isdevs =
      (init_shm_devices XRT_SYSTEM_MAX_DEVICES s ism0).1.ism.isdevs := rfl
  have hcount : (init_shm XRT_SYSTEM_MAX_DEVICES s (some ism0)).2.ism.isdev_count =
      (init_shm_devices XRT_SYSTEM_MAX_DEVICES s ism0).1.count := rfl
  have htrack : (init_shm XRT_SYSTEM_MAX_DEVICES s (some ism0)).2.ism.itrack_count =
      (init_shm_tracks_loop XRT_SYSTEM_MAX_DEVICES s XRT_SYSTEM_MAX_DEVICES 0
        (ism0.itracks, 0)).2 :=
    init_shm_devices_loop_itrack_count XRT_SYSTEM_MAX_DEVICES s XRT_SYSTEM_MAX_DEVICES 0 _
  rw [hism, hcount, htrack]
  refine ⟨rfl, ?_, ?_, ?_⟩
  · have := init_shm_devices_loop_count XRT_SYSTEM_MAX_DEVICES s XRT_SYSTEM_MAX_DEVICES 0
      ({ ism := { ism0 with
            itracks := (init_shm_tracks_loop XRT_SYSTEM_MAX_DEVICES s XRT_SYSTEM_MAX_DEVICES 0
              (ism0.itracks, 0)).1
            itrack_count := (init_shm_tracks_loop XRT_SYSTEM_MAX_DEVICES s
              XRT_SYSTEM_MAX_DEVICES 0 (ism0.itracks, 0)).2 },
         count := 0, input_index := 0, output_index := 0, binding_index := 0,
         input_pair_index := 0, output_pair_index := 0 }, []) (Nat.le_refl 0)
    rw [Nat.zero_add] at this
    exact this
  · have := init_shm_tracks_loop_count XRT_SYSTEM_MAX_DEVICES s XRT_SYSTEM_MAX_DEVICES 0
      (ism0.itracks, 0) (Nat.le_refl 0)
    rw [Nat.zero_add] at this
    exact this
  · intro hzero hin hout hbind
    have hM1 : IPC_SHARED_MAX_INPUTS < UINT32_SIZE := by decide
    have hM2 : IPC_SHARED_MAX_OUTPUTS < UINT32_SIZE := by decide
    have hM3 : IPC_SHARED_MAX_BINDINGS < UINT32_SIZE := by decide
    have z : ∀ d, (ism0.isdevs d).first_input_index = 0 ∧ (ism0.isdevs d).input_count = 0 ∧
        (ism0.isdevs d).first_output_index = 0 ∧ (ism0.isdevs d).output_count = 0 ∧
        (ism0.isdevs d).first_binding_profile_index = 0 ∧
        (ism0.isdevs d).binding_profile_count = 0 := fun d => by
      rw [hzero d]
      exact ⟨rfl, rfl, rfl, rfl, rfl, rfl⟩
    have hinv : init_shm_inv s XRT_SYSTEM_MAX_DEVICES
        (init_shm_devices XRT_SYSTEM_MAX_DEVICES s ism0).1 :=
      init_shm_devices_loop_inv XRT_SYSTEM_MAX_DEVICES s
        (Nat.lt_of_le_of_lt hin hM1) (Nat.lt_of_le_of_lt hout hM2)
        (Nat.lt_of_le_of_lt hbind hM3) XRT_SYSTEM_MAX_DEVICES 0 _ (Nat.zero_add _)
        ⟨Nat.le_refl 0, rfl, rfl, rfl,
          ⟨fun d => Nat.le_of_eq (by
              show (ism0.isdevs d).first_input_index + (ism0.isdevs d).input_count = 0
              rw [(z d).1, (z d).2.1]),
            fun d _ _ => Or.inl (z d).2.1⟩,
          ⟨fun d => Nat.le_of_eq (by
              show (ism0.isdevs d).first_output_index + (ism0.isdevs d).output_count = 0
              rw [(z d).2.2.1, (z d).2.2.2.1]),
            fun d _ _ => Or.inl (z d).2.2.2.1⟩,
          ⟨fun d => Nat.le_of_eq (by
              show (ism0.isdevs d).first_binding_profile_index +
                (ism0.isdevs d).binding_profile_count = 0
              rw [(z d).2.2.2.2.1, (z d).2.2.2.2.2]),
            fun d _ _ => Or.inl (z d).2.2.2.2.2⟩⟩
    simp only [init_shm_inv, ranges_inv] at hinv
    obtain ⟨_, e2, e3, e4, ⟨i1, i2⟩, ⟨o1, o2⟩, ⟨b1, b2⟩⟩ := hinv
    refine ⟨fun d _ => ⟨?_, ?_, ?_⟩, fun d e _ _ hde => ⟨?_, ?_, ?_⟩⟩
    · exact (i1 d).trans (by rw [e2]; exact hin)
    · exact (o1 d).trans (by rw [e3]; exact hout)
    · exact (b1 d).trans (by rw [e4]; exact hbind)
    · intro k hk
      have := i2 d e hde
      omega
    · intro k hk
      have := o2 d e hde
      omega
    · intro k hk
      have := b2 d e hde
      omega

/-- Witness of C20, amended: a controller with two inputs, an output and a binding profile
and a tracker with one input, in a zeroed shared memory. -/
theorem init_shm_ranges_witness :
    (∀ d, ipc_shared_memory.zero.isdevs d = ipc_shared_device.zero) ∧
    device_total (fun x => x.inputs.length) example_server_devices 2 = 3 ∧
    (init_shm 2 example_server_devices (some ipc_shared_memory.zero)).2.ism.isdev_count = 2 ∧
    ((init_shm 2 example_server_devices (some ipc_shared_memory.zero)).2.ism.isdevs
      1).first_input_index = 2 ∧
    ranges_disjoint
      ((init_shm 2 example_server_devices
        (some ipc_shared_memory.zero)).2.ism.isdevs 0).first_input_index
      ((init_shm 2 example_server_devices
        (some ipc_shared_memory.zero)).2.ism.isdevs 0).input_count
      ((init_shm 2 example_server_devices
        (some ipc_shared_memory.zero)).2.ism.isdevs 1).first_input_index
      ((init_shm 2 example_server_devices
        (some ipc_shared_memory.zero)).2.ism.isdevs 1).input_count :=
  ⟨fun _ => rfl, by decide, by decide, by decide,
    (((init_shm_ranges 2 example_server_devices ipc_shared_memory.zero).2.2.2
      (fun _ => rfl) (by decide) (by decide) (by decide)).2 0 1 (by decide) (by decide)
      (by decide)).1⟩

/-! ## C21: a swapchain created in a table with a free entry -/

theorem validate_swapchain_state_ok (IPC_MAX_CLIENT_SWAPCHAINS : Nat) (ics : ipc_client_state)
    (hfree : ∃ i, i < IPC_MAX_CLIENT_SWAPCHAINS ∧ (ics.swapchain_data i).active = false) :
    ∃ index, validate_swapchain_state IPC_MAX_CLIENT_SWAPCHAINS ics = .ok index ∧
      index < IPC_MAX_CLIENT_SWAPCHAINS ∧ (ics.swapchain_data index).active = false ∧
      ∀ j, j < index → (ics.swapchain_data j).active = true := by
  obtain ⟨i, hi, hfi⟩ := hfree
  obtain ⟨a, b, c⟩ := first_free_spec IPC_MAX_CLIENT_SWAPCHAINS
    (fun i => !(ics.swapchain_data i).active)
  have hlt : first_free IPC_MAX_CLIENT_SWAPCHAINS (fun i => !(ics.swapchain_data i).active)
      < IPC_MAX_CLIENT_SWAPCHAINS := by
    by_contra hge
    have hb := b i (by omega)
    simp only [hfi, Bool.not_false] at hb
    exact Bool.noConfusion hb
  refine ⟨_, ?_, hlt, ?_, fun j hj => ?_⟩
  · simp only [validate_swapchain_state, ge_iff_le, if_neg (Nat.not_le.mpr hlt)]
  · simpa using c hlt
  · simpa using b j hj

/-- C21. When the client's swapchain table has an inactive entry below
`IPC_MAX_CLIENT_SWAPCHAINS`: if `xrt_comp_create_swapchain` answers `XRT_SUCCESS`,
`ipc_handle_swapchain_create` returns `XRT_SUCCESS` with `out_id` the lowest index whose
entry was inactive and `out_image_count` the image count of the created swapchain; in the
client state that entry is active and holds the width, height and format of the create
info and that image count, `xscs` holds the swapchain at that index, every other entry of
`swapchain_data` and `xscs` is as before, and the `uint32_t` `swapchain_count` is
incremented (by exactly one below `UINT32_MAX`). If the compositor answers an error, that
error is returned, no output is written and every client state is as before. -/
theorem swapchain_create_records_info (IPC_MAX_CLIENT_SWAPCHAINS : Nat) (s : ipc_server)
    (t : Nat) (info : xrt_swapchain_create_info) (comp_xret : xrt_result_t)
    (comp_xsc : xrt_swapchain)
    (hfree : ∃ i, i < IPC_MAX_CLIENT_SWAPCHAINS ∧
      ((s.threads t).swapchain_data i).active = false) :
    (comp_xret = XRT_SUCCESS →
      ∃ index, index < IPC_MAX_CLIENT_SWAPCHAINS ∧
        ((s.threads t).swapchain_data index).active = false ∧
        (∀ j, j < index → ((s.threads t).swapchain_data j).active = true) ∧
        (ipc_handle_swapchain_create IPC_MAX_CLIENT_SWAPCHAINS s t info comp_xret comp_xsc).1
          = XRT_SUCCESS ∧
        (ipc_handle_swapchain_create IPC_MAX_CLIENT_SWAPCHAINS s t info comp_xret comp_xsc).2.1
          = some (index, comp_xsc.image_count) ∧
        (((ipc_handle_swapchain_create IPC_MAX_CLIENT_SWAPCHAINS s t info comp_xret
          comp_xsc).2.2.threads t).swapchain_data index) =
          { active := true, width := info.width, height := info.height, format := info.format,
            image_count := comp_xsc.image_count } ∧
        (((ipc_handle_swapchain_create IPC_MAX_CLIENT_SWAPCHAINS s t info comp_xret
          comp_xsc).2.2.threads t).xscs index) = some comp_xsc ∧
        (∀ j, j ≠ index →
          ((ipc_handle_swapchain_create IPC_MAX_CLIENT_SWAPCHAINS s t info comp_xret
            comp_xsc).2.2.threads t).swapchain_data j = (s.threads t).swapchain_data j ∧
          ((ipc_handle_swapchain_create IPC_MAX_CLIENT_SWAPCHAINS s t info comp_xret
            comp_xsc).2.2.threads t).xscs j = (s.threads t).xscs j) ∧
        ((ipc_handle_swapchain_create IPC_MAX_CLIENT_SWAPCHAINS s t info comp_xret
          comp_xsc).2.2.threads t).swapchain_count =
          ((s.threads t).swapchain_count + 1) % UINT32_SIZE ∧
        ((s.threads t).swapchain_count < UINT32_MAX →
          ((ipc_handle_swapchain_create IPC_MAX_CLIENT_SWAPCHAINS s t info comp_xret
            comp_xsc).2.2.threads t).swapchain_count = (s.threads t).swapchain_count + 1) ∧
        (∀ u, u ≠ t →
          (ipc_handle_swapchain_create IPC_MAX_CLIENT_SWAPCHAINS s t info comp_xret
            comp_xsc).2.2.threads u = s.threads u)) ∧
    (comp_xret ≠ XRT_SUCCESS →
      (ipc_handle_swapchain_create IPC_MAX_CLIENT_SWAPCHAINS s t info comp_xret comp_xsc).1
        = comp_xret ∧
      (ipc_handle_swapchain_create IPC_MAX_CLIENT_SWAPCHAINS s t info comp_xret comp_xsc).2.1
        = none ∧
      (ipc_handle_swapchain_create IPC_MAX_CLIENT_SWAPCHAINS s t info comp_xret
        comp_xsc).2.2.threads = s.threads) := by
  obtain ⟨index, hval, hlt, hinactive, hbelow⟩ :=
    validate_swapchain_state_ok IPC_MAX_CLIENT_SWAPCHAINS (s.threads t) hfree
  constructor
  · intro hok
    refine ⟨index, hlt, hinactive, hbelow, ?_⟩
    simp only [ipc_handle_swapchain_create, hval, hok, ne_eq, not_true_eq_false, if_false,
      ipc_server.set_ics, ipc_server.call, set_swapchain_info, Function.update_same,
      true_and]
    refine ⟨fun j hj => ?_, fun hc => ?_, fun u hu => ?_⟩
    · simp only [Function.update_noteq hj, and_self]
    · exact Nat.mod_eq_of_lt (by
        have : UINT32_MAX + 1 = UINT32_SIZE := by decide
        omega)
    · simp only [Function.update_noteq hu]
  · intro herr
    simp only [ipc_handle_swapchain_create, hval, ne_eq, herr, not_false_eq_true, if_true,
      ipc_server.call, and_self]

/-- Witness of C21: in a table of capacity 8 whose entry 0 is active, the created swapchain
gets id 1. -/
theorem swapchain_create_records_info_witness :
    (∃ i, i < 8 ∧ ((example_server_bad_layer.threads 0).swapchain_data i).active = false) ∧
    (ipc_handle_swapchain_create 8 example_server_bad_layer 0
      { width := 8, height := 4, format := 2 } XRT_SUCCESS
      { handle := 9, image_count := 3 }).2.1 = some (1, 3) ∧
    ((ipc_handle_swapchain_create 8 example_server_bad_layer 0
      { width := 8, height := 4, format := 2 } XRT_SUCCESS
      { handle := 9, image_count := 3 }).2.2.threads 0).swapchain_count = 2 ∧
    (ipc_handle_swapchain_create 8 example_server_bad_layer 0
      { width := 8, height := 4, format := 2 } XRT_ERROR_IPC_FAILURE
      { handle := 9, image_count := 3 }).2.2.threads = example_server_bad_layer.threads :=
  ⟨⟨1, by decide, by decide⟩, by decide, by decide,
   ((swapchain_create_records_info 8 example_server_bad_layer 0
      { width := 8, height := 4, format := 2 } XRT_ERROR_IPC_FAILURE
      { handle := 9, image_count := 3 } ⟨1, by decide, by decide⟩).2 (by decide)).2.2⟩

/-! ## C22: the sync handles of a layer submission -/

theorem only_layer_calls_refl (s : ipc_server) : only_layer_calls s s :=
  ⟨[], by simp, fun _ h => by simp at h⟩

theorem only_layer_calls_call (s : ipc_server) (c : xrt_call) (h : c.is_layer_call = true) :
    only_layer_calls s (s.call c) :=
  ⟨[c], rfl, fun d hd => by
    rw [List.mem_singleton] at hd
    rw [hd]
    exact h⟩

theorem only_layer_calls_trans {a b c : ipc_server} (h1 : only_layer_calls a b)
    (h2 : only_layer_calls b c) : only_layer_calls a c := by
  obtain ⟨cs1, rfl, m1⟩ := h1
  obtain ⟨cs2, rfl, m2⟩ := h2
  refine ⟨cs1 ++ cs2, by simp, fun d hd => ?_⟩
  rcases List.mem_append.mp hd with hd | hd
  · exact m1 d hd
  · exact m2 d hd

theorem _update_layer_only_layer_calls (s : ipc_server) (t : Nat) (xc : xrt_compositor)
    (layer : ipc_layer_entry) : only_layer_calls s (_update_layer s t xc layer).2 := by
  unfold _update_layer
  split
  · unfold _update_projection_layer
    split
    · exact only_layer_calls_refl s
    · split
      · exact only_layer_calls_refl s
      · exact only_layer_calls_call s _ rfl
  · unfold _update_projection_layer_depth
    split
    · exact only_layer_calls_refl s
    · split
      · exact only_layer_calls_refl s
      · exact only_layer_calls_call s _ rfl
  all_goals first
    | exact only_layer_calls_refl s
    | (unfold _update_single_layer
       split
       · exact only_layer_calls_refl s
       · exact only_layer_calls_call s _ rfl)
    | (unfold _update_passthrough_layer
       split
       · exact only_layer_calls_refl s
       · exact only_layer_calls_call s _ rfl)

theorem _update_layers_loop_only_layer_calls (t : Nat) (xc : xrt_compositor)
    (slot : ipc_layer_slot) :
    ∀ (fuel i : Nat) (s : ipc_server),
      only_layer_calls s (_update_layers_loop t xc slot fuel i s).2 := by
  intro fuel
  induction fuel with
  | zero => intro i s; exact only_layer_calls_refl s
  | succ fuel ih =>
    intro i s
    unfold _update_layers_loop
    split
    · have h1 := _update_layer_only_layer_calls s t xc (slot.layers i)
      split
      · rename_i s1 heq
        rw [heq] at h1
        exact h1
      · rename_i s1 heq
        rw [heq] at h1
        exact only_layer_calls_trans h1 (ih (i + 1) s1)
    · exact only_layer_calls_refl s

theorem layer_sync_unref_rest_eq :
    ∀ (handles : List xrt_graphics_sync_handle_t) (s : ipc_server),
      layer_sync_unref_rest s handles =
        { s with calls := s.calls ++ handles.map xrt_call.graphics_sync_unref } := by
  intro handles
  induction handles with
  | nil => intro s; simp [layer_sync_unref_rest]
  | cons h rest ih =>
    intro s
    simp only [layer_sync_unref_rest, ih, ipc_server.call, List.map_cons, List.append_assoc,
      List.singleton_append]

theorem count_graphics_sync_unref (handles : List xrt_graphics_sync_handle_t)
    (h : xrt_graphics_sync_handle_t) :
    (handles.map xrt_call.graphics_sync_unref).count (xrt_call.graphics_sync_unref h) =
      handles.count h := by
  induction handles with
  | nil => rfl
  | cons a rest ih =>
    by_cases ha : a = h
    · subst ha
      simp [ih]
    · have : xrt_call.graphics_sync_unref a ≠ xrt_call.graphics_sync_unref h :=
        fun e => ha (xrt_call.graphics_sync_unref.inj e)
      simp [List.count_cons, ih, ha, this]

theorem layer_sync_first_handle (handles : List xrt_graphics_sync_handle_t) :
    handles.head?.getD none = (match handles with | [] => none | h0 :: _ => h0) := by
  cases handles <;> rfl

/-- C22. For a client with a compositor and every list of sync handles,
`ipc_handle_compositor_layer_sync` records, in order, one `u_graphics_sync_unref` for each
handle at the indices `1 .. handle_count - 1`, then `xrt_comp_layer_begin`, the layer
calls, and `xrt_comp_layer_commit` with `handles[0]`, or with the invalid handle when
there is no handle. Every handle value is released as often as it occurs after index 0:
the handles at the indices from 1 on once each, `handles[0]` not at all. -/
theorem layer_sync_keeps_first_handle (s : ipc_server) (t slot_id : Nat)
    (handles : List xrt_graphics_sync_handle_t) (xc : xrt_compositor)
    (hxc : (s.threads t).xc = some xc) :
    ∃ layer_calls : List xrt_call,
      (∀ c, c ∈ layer_calls → c.is_layer_call = true) ∧
      (ipc_handle_compositor_layer_sync s t slot_id handles).2.2.calls =
        s.calls ++ layer_sync_calls xc handles layer_calls ∧
      (∀ h, (layer_sync_calls xc handles layer_calls).count (.graphics_sync_unref h) =
        handles.tail.count h) ∧
      (∀ h0 rest, handles = h0 :: rest → h0 ∉ rest →
        xrt_call.graphics_sync_unref h0 ∉ layer_sync_calls xc handles layer_calls) := by
  obtain ⟨cs, hcs, hmem⟩ := _update_layers_loop_only_layer_calls t xc
    ((layer_sync_unref_rest s handles.tail).slots slot_id)
    ((layer_sync_unref_rest s handles.tail).slots slot_id).layer_count 0
    ((layer_sync_unref_rest s handles.tail).call (.comp_layer_begin xc))
  have hcount : ∀ h, (layer_sync_calls xc handles cs).count (.graphics_sync_unref h) =
      handles.tail.count h := by
    intro h
    have hz : cs.count (.graphics_sync_unref h) = 0 :=
      List.count_eq_zero.mpr (fun hin => by
        have := hmem _ hin
        exact Bool.noConfusion this)
    simp only [layer_sync_calls, List.count_append, count_graphics_sync_unref, hz]
    simp [List.count_cons]
  refine ⟨cs, hmem, ?_, hcount, ?_⟩
  · simp only [ipc_handle_compositor_layer_sync, hxc, _update_layers, hcs,
      layer_sync_first_handle]
    simp only [ipc_server.call, layer_sync_unref_rest_eq, layer_sync_calls, List.append_assoc]
  · intro h0 rest hh hnot hin
    have h1 := hcount h0
    have h2 : 0 < (layer_sync_calls xc handles cs).count (.graphics_sync_unref h0) :=
      List.count_pos_iff.mpr hin
    rw [h1, hh, List.tail_cons, List.count_eq_zero.mpr hnot] at h2
    exact Nat.lt_irrefl 0 h2

/-- Witness of C22: three handles on the example server; the commit gets handle 4, and
handles 5 and 6 are released. -/
theorem layer_sync_keeps_first_handle_witness :
    (example_server_bad_layer.threads 0).xc = some 1 ∧
    (ipc_handle_compositor_layer_sync example_server_bad_layer 0 0
      [some 4, some 5, some 6]).2.2.calls =
      [.graphics_sync_unref (some 5), .graphics_sync_unref (some 6), .comp_layer_begin 1,
       .comp_layer_single .quad 1 { handle := 1, view_count := 2 }
         { handle := 7, image_count := 3 },
       .comp_layer_commit 1 (some 4)] ∧
    ∃ layer_calls : List xrt_call,
      (ipc_handle_compositor_layer_sync example_server_bad_layer 0 0
        [some 4, some 5, some 6]).2.2.calls =
        example_server_bad_layer.calls ++
          layer_sync_calls 1 [some 4, some 5, some 6] layer_calls :=
  ⟨rfl, rfl,
    (layer_sync_keeps_first_handle example_server_bad_layer 0 0 [some 4, some 5, some 6] 1
      rfl).elim (fun cs h => ⟨cs, h.2.1⟩)⟩

/-! ## C23: activating an overlay session -/

theorem handle_focused_client_events_eq (s : ipc_server) (t : Nat) (active_id prev : Int) :
    handle_focused_client_events s t active_id prev =
      { s with
        threads := Function.update s.threads t (focused_client_state (s.threads t) active_id)
        calls := s.calls ++ focused_client_calls (s.threads t) active_id } := by
  unfold handle_focused_client_events focused_client_state focused_client_calls
  by_cases h1 : (s.threads t).server_thread_index = active_id <;>
    by_cases h2 : (s.threads t).client_state.session_overlay = true <;>
    by_cases h3 : (s.threads t).xc = none <;>
    simp [h1, h2, h3, ipc_server.set_ics, ipc_server.call]

theorem handle_overlay_client_events_eq (s : ipc_server) (t : Nat) (active_id prev : Int) :
    handle_overlay_client_events s t active_id prev =
      { s with calls := s.calls ++ overlay_client_calls (s.threads t) active_id prev } := by
  obtain ⟨cs, hcs⟩ := handle_overlay_client_events_only_calls s t active_id prev
  have h := handle_overlay_client_events_calls s t active_id prev
  rw [hcs] at h ⊢
  simp only [] at h
  rw [h]

theorem focused_client_calls_target (ics : ipc_client_state) (active_id : Int) (c : xrt_call)
    (h : c ∈ focused_client_calls ics active_id) : c.state_target = some ics.xc := by
  unfold focused_client_calls at h
  split at h
  · simp only [List.mem_cons, List.mem_singleton, List.not_mem_nil, or_false] at h
    rcases h with h | h <;> rw [h] <;> rfl
  · simp at h

theorem overlay_client_calls_target (ics : ipc_client_state) (active_id prev : Int)
    (c : xrt_call) (h : c ∈ overlay_client_calls ics active_id prev) :
    c.state_target = some ics.xc := by
  unfold overlay_client_calls at h
  split at h
  · simp at h
  · split at h
    · simp at h
    · simp only [List.mem_append] at h
      rcases h with (h | h) | h <;> split at h <;>
        simp only [List.mem_cons, List.mem_singleton, List.not_mem_nil, or_false] at h
      · rcases h with h | h <;> rw [h] <;> rfl
      · rw [h]; rfl
      · rw [h]; rfl

/-- C23. `ipc_server_activate_session` on a client whose `session_overlay` is set (its
`uint32_t` `z_order` below `2 ^ 32`) leaves `active_client_index`,
`last_active_client_index` and the state of every other client as they were; the server
changes in the state of that client and in the recorded calls only, and every call it
records is a state push addressed to that client's own compositor. The client ends with
`session_active` set; when the session was not yet active, its `session_active`,
`session_visible` and `session_focused` become true and its `z_order` and every other
field stay, and when it was already active nothing changes at all. -/
theorem activate_overlay_session_frame (s : ipc_server) (t : Nat)
    (hov : (s.threads t).client_state.session_overlay = true)
    (hz : (s.threads t).client_state.z_order < UINT32_SIZE) :
    (ipc_server_activate_session s t).active_client_index = s.active_client_index ∧
    (ipc_server_activate_session s t).last_active_client_index = s.last_active_client_index ∧
    (∀ u, u ≠ t → (ipc_server_activate_session s t).threads u = s.threads u) ∧
    (∃ cs, (∀ c, c ∈ cs → c.state_target = some (s.threads t).xc) ∧
      ipc_server_activate_session s t =
        { s with
          threads := (ipc_server_activate_session s t).threads
          calls := s.calls ++ cs }) ∧
    ((ipc_server_activate_session s t).threads t).client_state.session_active = true ∧
    ((s.threads t).client_state.session_active = false →
      (ipc_server_activate_session s t).threads t =
        { (s.threads t) with
          client_state := { (s.threads t).client_state with
            session_active := true
            session_visible := true
            session_focused := true } }) ∧
    ((s.threads t).client_state.session_active = true →
      ipc_server_activate_session s t = s) := by
  by_cases hact : (s.threads t).client_state.session_active = true
  · have hnoop : ipc_server_activate_session s t = s := by
      simp only [ipc_server_activate_session, hact, if_true]
    rw [hnoop]
    refine ⟨rfl, rfl, fun _ _ => rfl, ⟨[], fun c hc => by simp at hc, by simp⟩, hact,
      fun h => ?_, fun _ => rfl⟩
    rw [hact] at h
    exact Bool.noConfusion h
  · have hact2 : (s.threads t).client_state.session_active = false := by
      simpa using hact
    have hzo : to_uint32 ((s.threads t).client_state.z_order : Int) =
        (s.threads t).client_state.z_order := to_uint32_of_lt _ hz
    have heq : ipc_server_activate_session s t =
        { s with
          threads := Function.update s.threads t
            { (s.threads t) with
              client_state := { (s.threads t).client_state with
                session_active := true
                session_visible := true
                session_focused := true } }
          calls := s.calls ++
            (focused_client_calls
              { (s.threads t) with
                client_state := { (s.threads t).client_state with session_active := true } }
              s.active_client_index ++
            overlay_client_calls
              { (s.threads t) with
                client_state := { (s.threads t).client_state with
                  session_active := true
                  session_visible := true
                  session_focused := true } }
              s.active_client_index s.last_active_client_index) } := by
      simp only [ipc_server_activate_session, hact2, Bool.false_eq_true, if_false,
        ipc_server.set_ics, Function.update_same, hov, if_true,
        handle_overlay_client_events_eq, handle_focused_client_events_eq,
        focused_client_state, Bool.or_true, hzo, Function.update_idem, List.append_assoc]
    rw [heq]
    refine ⟨rfl, rfl, fun u hu => ?_, ⟨_, fun c hc => ?_, rfl⟩, ?_, fun _ => ?_,
      fun h => absurd h hact⟩
    · simp only [Function.update_noteq hu]
    · rcases List.mem_append.mp hc with hc | hc
      · exact focused_client_calls_target _ _ c hc
      · exact overlay_client_calls_target _ _ _ c hc
    · simp only [Function.update_same]
    · simp only [Function.update_same]

/-- Witness of C23: the overlay client of slot 1 is activated next to the focused regular
client of slot 0. -/
theorem activate_overlay_session_frame_witness :
    (example_server_overlay_inactive.threads 1).client_state.session_overlay = true ∧
    (ipc_server_activate_session example_server_overlay_inactive 1).calls =
      [.syscomp_set_state (some 2) true true, .syscomp_set_z_order (some 2) 5,
       .syscomp_set_main_app_visibility (some 2) false,
       .syscomp_set_main_app_visibility (some 2) true] ∧
    ((ipc_server_activate_session example_server_overlay_inactive 1).threads
      1).client_state.z_order = 5 ∧
    (ipc_server_activate_session example_server_overlay_inactive 1).active_client_index = 0 ∧
    (∀ u, u ≠ 1 → (ipc_server_activate_session example_server_overlay_inactive 1).threads u =
      example_server_overlay_inactive.threads u) :=
  ⟨rfl, by decide, by decide,
    (activate_overlay_session_frame example_server_overlay_inactive 1 rfl (by decide)).1,
    (activate_overlay_session_frame example_server_overlay_inactive 1 rfl (by decide)).2.2.1⟩

/-! ## C24: swapchain ids of a submitted layer -/

/-- C24 (the code departs from the claim). With a swapchain table of 8 entries, a quad, a
projection and a projection-depth layer name the swapchain ids 9 and 10. Two servers hold
the same table (swapchain 0 only) and differ in the words behind it: where these are zero,
each layer update returns `false` and records no call; where they are not, each returns
`true` and hands what it read behind the table to the compositor. The ids are compared
with `NULL` entries only, never with `IPC_MAX_CLIENT_SWAPCHAINS`. -/
theorem layer_update_reads_past_swapchain_table :
    (∀ i, i < 8 → (example_server_bad_layer.threads 0).xscs i =
      (example_server_past_table.threads 0).xscs i) ∧
    (∀ type, 8 ≤ (example_layer_past_table type).swapchain_ids 0 ∧
      8 ≤ (example_layer_past_table type).swapchain_ids 1) ∧
    (_update_layer example_server_bad_layer 0 1
      (example_layer_past_table XRT_LAYER_QUAD)).1 = false ∧
    (_update_layer example_server_bad_layer 0 1
      (example_layer_past_table XRT_LAYER_PROJECTION)).1 = false ∧
    (_update_layer example_server_bad_layer 0 1
      (example_layer_past_table XRT_LAYER_PROJECTION_DEPTH)).1 = false ∧
    (_update_layer example_server_past_table 0 1
      (example_layer_past_table XRT_LAYER_QUAD)).1 = true ∧
    (_update_layer example_server_past_table 0 1
      (example_layer_past_table XRT_LAYER_QUAD)).2.calls =
      [.comp_layer_single .quad 1 { handle := 1, view_count := 2 }
        { handle := 99, image_count := 1 }] ∧
    (_update_layer example_server_past_table 0 1
      (example_layer_past_table XRT_LAYER_PROJECTION)).1 = true ∧
    (_update_layer example_server_past_table 0 1
      (example_layer_past_table XRT_LAYER_PROJECTION)).2.calls =
      [.comp_layer_projection 1 { handle := 1, view_count := 2 }
        [{ handle := 99, image_count := 1 }, { handle := 100, image_count := 1 }]] ∧
    (_update_layer example_server_past_table 0 1
      (example_layer_past_table XRT_LAYER_PROJECTION_DEPTH)).1 = true ∧
    (_update_layer example_server_past_table 0 1
      (example_layer_past_table XRT_LAYER_PROJECTION_DEPTH)).2.calls =
      [.comp_layer_projection_depth 1 { handle := 1, view_count := 2 }
        [{ handle := 99, image_count := 1 }] [{ handle := 100, image_count := 1 }]] := by
  refine ⟨by decide, fun _ => ⟨Nat.le_add_right 8 1, Nat.le_add_right 8 2⟩, rfl, rfl, rfl, rfl, rfl, rfl, rfl,
    rfl, rfl⟩

/-! ## C25: the tracked plane detections -/

theorem plane_detections_from_congr (ids ids2 : Nat → Nat)
    (xdevs xdevs2 : Nat → Option xrt_device) (n i : Nat)
    (h : ∀ j, i ≤ j → j < i + n → ids2 j = ids j ∧ xdevs2 j = xdevs j) :
    plane_detections_from ids2 xdevs2 i n = plane_detections_from ids xdevs i n := by
  induction n generalizing i with
  | zero => rfl
  | succ n ih =>
    simp only [plane_detections_from]
    rw [(h i (Nat.le_refl i) (by omega)).1, (h i (Nat.le_refl i) (by omega)).2,
      ih (i + 1) (fun j h1 h2 => h j (by omega) (by omega))]

theorem plane_detections_from_length (ids : Nat → Nat) (xdevs : Nat → Option xrt_device)
    (n i : Nat) : (plane_detections_from ids xdevs i n).length = n := by
  induction n generalizing i with
  | zero => rfl
  | succ n ih => simp only [plane_detections_from, List.length_cons, ih]

theorem plane_detections_from_succ (ids : Nat → Nat) (xdevs : Nat → Option xrt_device)
    (n i : Nat) :
    plane_detections_from ids xdevs i (n + 1) =
      plane_detections_from ids xdevs i n ++ [(ids (i + n), xdevs (i + n))] := by
  induction n generalizing i with
  | zero => rfl
  | succ n ih =>
    rw [plane_detections_from, ih (i + 1)]
    simp only [plane_detections_from, List.cons_append]
    have : i + 1 + n = i + (n + 1) := by omega
    rw [this]

theorem destroy_plane_detection_loop_found (pid count : Nat) :
    ∀ (fuel i : Nat) (ids : Nat → Nat) (xdevs : Nat → Option xrt_device),
      i + fuel = count →
      (destroy_plane_detection_loop pid count fuel i (true, ids, xdevs)).1 = true ∧
      (∀ j, j < i →
        (destroy_plane_detection_loop pid count fuel i (true, ids, xdevs)).2.1 j = ids j ∧
        (destroy_plane_detection_loop pid count fuel i (true, ids, xdevs)).2.2 j = xdevs j) ∧
      plane_detections_from
        (destroy_plane_detection_loop pid count fuel i (true, ids, xdevs)).2.1
        (destroy_plane_detection_loop pid count fuel i (true, ids, xdevs)).2.2 i (fuel - 1) =
        plane_detections_from ids xdevs (i + 1) (fuel - 1) := by
  intro fuel
  induction fuel with
  | zero =>
    intro i ids xdevs _
    exact ⟨rfl, fun _ _ => ⟨rfl, rfl⟩, rfl⟩
  | succ fuel ih =>
    intro i ids xdevs hfuel
    have hlt : i < count := by omega
    by_cases hnext : i + 1 < count
    · have hstep : destroy_plane_detection_loop pid count (fuel + 1) i (true, ids, xdevs) =
          destroy_plane_detection_loop pid count fuel (i + 1)
            (true, Function.update ids i (ids (i + 1)),
              Function.update xdevs i (xdevs (i + 1))) := by
        simp only [destroy_plane_detection_loop, if_pos hlt, ite_self, hnext, and_self, if_true]
      rw [hstep]
      obtain ⟨a, b, c⟩ := ih (i + 1) (Function.update ids i (ids (i + 1)))
        (Function.update xdevs i (xdevs (i + 1))) (by omega)
      refine ⟨a, fun j hj => ?_, ?_⟩
      · have := b j (by omega)
        rw [Function.update_noteq (by omega), Function.update_noteq (by omega)] at this
        exact this
      · obtain ⟨f, rfl⟩ : ∃ f, fuel = f + 1 := ⟨fuel - 1, by omega⟩
        have hi := b i (by omega)
        rw [Function.update_same, Function.update_same] at hi
        simp only [Nat.add_sub_cancel] at c ⊢
        rw [plane_detections_from, c, hi.1, hi.2]
        conv_rhs => rw [plane_detections_from]
        rw [plane_detections_from_congr ids _ xdevs _ f (i + 1 + 1) (fun j h1 _ => by
          rw [Function.update_noteq (by omega), Function.update_noteq (by omega)]
          exact ⟨rfl, rfl⟩)]
    · have hzero : fuel = 0 := by omega
      subst hzero
      have hstep : destroy_plane_detection_loop pid count (0 + 1) i (true, ids, xdevs) =
          (true, ids, xdevs) := by
        simp only [destroy_plane_detection_loop, if_pos hlt, ite_self, hnext, and_false,
          if_false]
      rw [hstep]
      exact ⟨rfl, fun _ _ => ⟨rfl, rfl⟩, rfl⟩

theorem destroy_plane_detection_loop_spec (pid count : Nat) :
    ∀ (fuel i : Nat) (ids : Nat → Nat) (xdevs : Nat → Option xrt_device),
      i + fuel = count →
      (∀ j, j < i →
        (destroy_plane_detection_loop pid count fuel i (false, ids, xdevs)).2.1 j = ids j ∧
        (destroy_plane_detection_loop pid count fuel i (false, ids, xdevs)).2.2 j = xdevs j) ∧
      ((destroy_plane_detection_loop pid count fuel i (false, ids, xdevs)).1 = true →
        (∃ e, e ∈ plane_detections_from ids xdevs i fuel ∧ e.1 = pid) ∧
        plane_detections_from
          (destroy_plane_detection_loop pid count fuel i (false, ids, xdevs)).2.1
          (destroy_plane_detection_loop pid count fuel i (false, ids, xdevs)).2.2 i
          (fuel - 1) =
          (plane_detections_from ids xdevs i fuel).eraseP (fun e => decide (e.1 = pid))) ∧
      ((destroy_plane_detection_loop pid count fuel i (false, ids, xdevs)).1 = false →
        (destroy_plane_detection_loop pid count fuel i (false, ids, xdevs)).2.1 = ids ∧
        (destroy_plane_detection_loop pid count fuel i (false, ids, xdevs)).2.2 = xdevs ∧
        ∀ e, e ∈ plane_detections_from ids xdevs i fuel → e.1 ≠ pid) := by
  intro fuel
  induction fuel with
  | zero =>
    intro i ids xdevs _
    refine ⟨fun _ _ => ⟨rfl, rfl⟩, fun h => ?_, fun _ => ⟨rfl, rfl, fun e he => ?_⟩⟩
    · exact Bool.noConfusion h
    · simp [plane_detections_from] at he
  | succ fuel ih =>
    intro i ids xdevs hfuel
    have hlt : i < count := by omega
    by_cases hid : ids i = pid
    · have hstep : destroy_plane_detection_loop pid count (fuel + 1) i (false, ids, xdevs) =
          destroy_plane_detection_loop pid count (fuel + 1) i (true, ids, xdevs) := by
        simp only [destroy_plane_detection_loop, if_pos hlt, hid, if_true, ite_self]
      rw [hstep]
      obtain ⟨a, b, c⟩ := destroy_plane_detection_loop_found pid count (fuel + 1) i ids xdevs
        hfuel
      refine ⟨b, fun _ => ⟨⟨(ids i, xdevs i), ?_, hid⟩, ?_⟩, fun h => ?_⟩
      · simp [plane_detections_from]
      · rw [c]
        simp only [Nat.add_sub_cancel]
        conv_rhs => rw [plane_detections_from]
        rw [List.eraseP_cons_of_pos (by simp [hid])]
      · rw [a] at h
        exact Bool.noConfusion h
    · have hstep : destroy_plane_detection_loop pid count (fuel + 1) i (false, ids, xdevs) =
          destroy_plane_detection_loop pid count fuel (i + 1) (false, ids, xdevs) := by
        simp only [destroy_plane_detection_loop, if_pos hlt, hid, if_false,
          Bool.false_eq_true, false_and]
      rw [hstep]
      obtain ⟨a, b, c⟩ := ih (i + 1) ids xdevs (by omega)
      refine ⟨fun j hj => a j (by omega), fun h => ?_, fun h => ?_⟩
      · obtain ⟨⟨e, he, hep⟩, hb⟩ := b h
        refine ⟨⟨e, ?_, hep⟩, ?_⟩
        · rw [plane_detections_from]
          exact List.mem_cons_of_mem _ he
        · have hpos : 0 < fuel := by
            have := List.length_pos_of_mem he
            rw [plane_detections_from_length] at this
            exact this
          obtain ⟨f, rfl⟩ : ∃ f, fuel = f + 1 := ⟨fuel - 1, by omega⟩
          simp only [Nat.add_sub_cancel] at hb ⊢
          rw [plane_detections_from, hb, (a i (by omega)).1, (a i (by omega)).2]
          conv_rhs => rw [plane_detections_from]
          rw [List.eraseP_cons_of_neg (by simp [hid])]
      · obtain ⟨c1, c2, c3⟩ := c h
        refine ⟨c1, c2, fun e he => ?_⟩
        rw [plane_detections_from] at he
        rcases List.mem_cons.mp he with he | he
        · rw [he]
          exact hid
        · exact c3 e he

theorem plane_detection_destroy_spec (s : ipc_server) (t id pid : Nat)
    (dev_xret : xrt_result_t) :
    tracked_plane_detections
      ((ipc_handle_device_destroy_plane_detection_ext s t id pid dev_xret).2.threads t) =
      (tracked_plane_detections (s.threads t)).eraseP (fun e => decide (e.1 = pid)) ∧
    ((∃ e, e ∈ tracked_plane_detections (s.threads t) ∧ e.1 = pid) →
      ((ipc_handle_device_destroy_plane_detection_ext s t id pid dev_xret).2.threads
        t).plane_detection_count + 1 = (s.threads t).plane_detection_count) ∧
    ((∀ e, e ∈ tracked_plane_detections (s.threads t) → e.1 ≠ pid) →
      ((ipc_handle_device_destroy_plane_detection_ext s t id pid dev_xret).2.threads
        t).plane_detection_count = (s.threads t).plane_detection_count ∧
      tracked_plane_detections
        ((ipc_handle_device_destroy_plane_detection_ext s t id pid dev_xret).2.threads t) =
        tracked_plane_detections (s.threads t)) ∧
    ((ipc_handle_device_destroy_plane_detection_ext s t id pid dev_xret).2.threads
      t).plane_detection_size = (s.threads t).plane_detection_size ∧
    ((ipc_handle_device_destroy_plane_detection_ext s t id pid dev_xret).2.threads
      t).plane_detection_count ≤ (s.threads t).plane_detection_count ∧
    (ipc_handle_device_destroy_plane_detection_ext s t id pid dev_xret).2.idevs = s.idevs := by
  obtain ⟨_, b, c⟩ := destroy_plane_detection_loop_spec pid (s.threads t).plane_detection_count
    (s.threads t).plane_detection_count 0 (s.threads t).plane_detection_ids
    (s.threads t).plane_detection_xdev (Nat.zero_add _)
  have hthreads : (ipc_handle_device_destroy_plane_detection_ext s t id pid dev_xret).2.threads t
      = (if (destroy_plane_detection_loop pid (s.threads t).plane_detection_count
            (s.threads t).plane_detection_count 0
            (false, (s.threads t).plane_detection_ids, (s.threads t).plane_detection_xdev)).1
          then
            { (s.threads t) with
              plane_detection_ids := (destroy_plane_detection_loop pid
                (s.threads t).plane_detection_count (s.threads t).plane_detection_count 0
                (false, (s.threads t).plane_detection_ids,
                  (s.threads t).plane_detection_xdev)).2.1
              plane_detection_xdev := (destroy_plane_detection_loop pid
                (s.threads t).plane_detection_count (s.threads t).plane_detection_count 0
                (false, (s.threads t).plane_detection_ids,
                  (s.threads t).plane_detection_xdev)).2.2
              plane_detection_count := (s.threads t).plane_detection_count - 1 }
          else
            { (s.threads t) with
              plane_detection_ids := (destroy_plane_detection_loop pid
                (s.threads t).plane_detection_count (s.threads t).plane_detection_count 0
                (false, (s.threads t).plane_detection_ids,
                  (s.threads t).plane_detection_xdev)).2.1
              plane_detection_xdev := (destroy_plane_detection_loop pid
                (s.threads t).plane_detection_count (s.threads t).plane_detection_count 0
                (false, (s.threads t).plane_detection_ids,
                  (s.threads t).plane_detection_xdev)).2.2 }) := by
    simp only [ipc_handle_device_destroy_plane_detection_ext, ipc_server.set_ics,
      ipc_server.call]
    split <;> simp only [Function.update_same]
  have hidevs : (ipc_handle_device_destroy_plane_detection_ext s t id pid dev_xret).2.idevs
      = s.idevs := by
    simp only [ipc_handle_device_destroy_plane_detection_ext, ipc_server.set_ics,
      ipc_server.call]
    split <;> rfl
  rw [hthreads]
  cases hr : (destroy_plane_detection_loop pid (s.threads t).plane_detection_count
      (s.threads t).plane_detection_count 0
      (false, (s.threads t).plane_detection_ids, (s.threads t).plane_detection_xdev)).1 with
  | true =>
    obtain ⟨⟨e, he, hep⟩, hb⟩ := b hr
    have hpos : 0 < (s.threads t).plane_detection_count := by
      have := List.length_pos_of_mem he
      rw [plane_detections_from_length] at this
      exact this
    rw [if_pos rfl]
    refine ⟨hb, fun _ => Nat.sub_add_cancel hpos, fun hno => ?_, rfl, Nat.sub_le _ _, hidevs⟩
    exact absurd hep (hno e he)
  | false =>
    obtain ⟨c1, c2, c3⟩ := c hr
    rw [if_neg Bool.false_ne_true]
    have hsame : tracked_plane_detections
        { (s.threads t) with
          plane_detection_ids := (destroy_plane_detection_loop pid
            (s.threads t).plane_detection_count (s.threads t).plane_detection_count 0
            (false, (s.threads t).plane_detection_ids,
              (s.threads t).plane_detection_xdev)).2.1
          plane_detection_xdev := (destroy_plane_detection_loop pid
            (s.threads t).plane_detection_count (s.threads t).plane_detection_count 0
            (false, (s.threads t).plane_detection_ids,
              (s.threads t).plane_detection_xdev)).2.2 } =
        tracked_plane_detections (s.threads t) := by
      simp only [tracked_plane_detections, c1, c2]
    refine ⟨?_, fun hex => ?_, fun _ => ⟨rfl, hsame⟩, rfl, Nat.le_refl _, hidevs⟩
    · rw [hsame]
      exact (List.eraseP_of_forall_not (fun e he => by simpa using c3 e he)).symm
    · obtain ⟨e, he, hep⟩ := hex
      exact absurd hep (c3 e he)

theorem plane_detection_begin_spec (s : ipc_server) (t id pid : Nat)
    (dev_xret : xrt_result_t) (dev_out_id : Nat) :
    tracked_plane_detections
      ((ipc_handle_device_begin_plane_detection_ext s t id pid dev_xret dev_out_id).2.2.threads
        t) =
      (if dev_xret = XRT_SUCCESS ∧ dev_out_id ≠ 0 then
        tracked_plane_detections (s.threads t) ++ [(dev_out_id, s.idevs id)]
       else tracked_plane_detections (s.threads t)) ∧
    ((ipc_handle_device_begin_plane_detection_ext s t id pid dev_xret dev_out_id).2.2.threads
      t).plane_detection_count ≤
      ((ipc_handle_device_begin_plane_detection_ext s t id pid dev_xret dev_out_id).2.2.threads
        t).plane_detection_size ∧
    (ipc_handle_device_begin_plane_detection_ext s t id pid dev_xret dev_out_id).2.2.idevs
      = s.idevs := by
  have happ : plane_detections_from
      (Function.update (s.threads t).plane_detection_ids (s.threads t).plane_detection_count
        dev_out_id)
      (Function.update (s.threads t).plane_detection_xdev (s.threads t).plane_detection_count
        (s.idevs id)) 0 ((s.threads t).plane_detection_count + 1) =
      plane_detections_from (s.threads t).plane_detection_ids
        (s.threads t).plane_detection_xdev 0 (s.threads t).plane_detection_count ++
        [(dev_out_id, s.idevs id)] := by
    rw [plane_detections_from_succ, Nat.zero_add, Function.update_same, Function.update_same,
      plane_detections_from_congr (s.threads t).plane_detection_ids _
        (s.threads t).plane_detection_xdev _ _ 0 (fun j _ h2 => by
          rw [Function.update_noteq (by omega), Function.update_noteq (by omega)]
          exact ⟨rfl, rfl⟩)]
  by_cases hgrow : (s.threads t).plane_detection_count + 1 > (s.threads t).plane_detection_size <;>
  by_cases hret : dev_xret = XRT_SUCCESS <;>
  by_cases hout : dev_out_id = 0 <;>
  simp [ipc_handle_device_begin_plane_detection_ext, ipc_server.set_ics, ipc_server.call,
    get_xdev, hgrow, hret, hout, tracked_plane_detections, happ] <;>
  omega

theorem plane_detection_run_spec (t : Nat) :
    ∀ (reqs : List plane_detection_request) (s : ipc_server),
      (s.threads t).plane_detection_count ≤ (s.threads t).plane_detection_size →
      tracked_plane_detections ((plane_detection_run t s reqs).threads t) =
        plane_detections_spec s.idevs (tracked_plane_detections (s.threads t)) reqs ∧
      ((plane_detection_run t s reqs).threads t).plane_detection_count ≤
        ((plane_detection_run t s reqs).threads t).plane_detection_size := by
  intro reqs
  induction reqs with
  | nil => intro s h; exact ⟨rfl, h⟩
  | cons r rest ih =>
    intro s h
    cases r with
    | begin_detection id pid dev_xret dev_out_id =>
      obtain ⟨a, b, c⟩ := plane_detection_begin_spec s t id pid dev_xret dev_out_id
      obtain ⟨d, e⟩ := ih _ b
      simp only [plane_detection_run, plane_detections_spec]
      rw [d, a, c]
      exact ⟨rfl, e⟩
    | destroy_detection id pid dev_xret =>
      obtain ⟨a, _, _, b, c, f⟩ := plane_detection_destroy_spec s t id pid dev_xret
      obtain ⟨d, e⟩ := ih (ipc_handle_device_destroy_plane_detection_ext s t id pid dev_xret).2
        (by rw [b]; exact c.trans h)
      simp only [plane_detection_run, plane_detections_spec]
      rw [d, a, f]
      exact ⟨rfl, e⟩

/-- C25. For a client whose `plane_detection_count` is at most its `plane_detection_size`
(a fresh client has both zero) and every list of begin and destroy requests, whatever the
device answers: the tracked list `plane_detection_ids[0 .. plane_detection_count)` with
the paired `plane_detection_xdev` entries is the list the specification describes (a begin
answered with success and a non-zero id appends it, a destroy removes the first entry with
the given id and keeps the order of the others), `plane_detection_count` is its length and
is at most `plane_detection_size`. One destroy request decrements the count by one when
the id is tracked and changes neither the count nor the list when it is not. -/
theorem plane_detections_tracked (s : ipc_server) (t : Nat)
    (reqs : List plane_detection_request)
    (h : (s.threads t).plane_detection_count ≤ (s.threads t).plane_detection_size) :
    tracked_plane_detections ((plane_detection_run t s reqs).threads t) =
      plane_detections_spec s.idevs (tracked_plane_detections (s.threads t)) reqs ∧
    ((plane_detection_run t s reqs).threads t).plane_detection_count =
      (plane_detections_spec s.idevs (tracked_plane_detections (s.threads t)) reqs).length ∧
    ((plane_detection_run t s reqs).threads t).plane_detection_count ≤
      ((plane_detection_run t s reqs).threads t).plane_detection_size ∧
    (∀ id pid dev_xret,
      tracked_plane_detections
        ((ipc_handle_device_destroy_plane_detection_ext s t id pid dev_xret).2.threads t) =
        (tracked_plane_detections (s.threads t)).eraseP (fun e => decide (e.1 = pid)) ∧
      ((∃ e, e ∈ tracked_plane_detections (s.threads t) ∧ e.1 = pid) →
        ((ipc_handle_device_destroy_plane_detection_ext s t id pid dev_xret).2.threads
          t).plane_detection_count + 1 = (s.threads t).plane_detection_count) ∧
      ((∀ e, e ∈ tracked_plane_detections (s.threads t) → e.1 ≠ pid) →
        ((ipc_handle_device_destroy_plane_detection_ext s t id pid dev_xret).2.threads
          t).plane_detection_count = (s.threads t).plane_detection_count ∧
        tracked_plane_detections
          ((ipc_handle_device_destroy_plane_detection_ext s t id pid dev_xret).2.threads t) =
          tracked_plane_detections (s.threads t))) := by
  obtain ⟨a, b⟩ := plane_detection_run_spec t reqs s h
  refine ⟨a, ?_, b, fun id pid dev_xret => ?_⟩
  · rw [← a]
    exact (plane_detections_from_length _ _ _ _).symm
  · obtain ⟨c, d, e, _⟩ := plane_detection_destroy_spec s t id pid dev_xret
    exact ⟨c, d, e⟩

/-- Witness of C25: a fresh client begins the detections 7 and 8 on device 0, a begin that
fails, a begin answered with id 0, a destroy of an untracked id and a destroy of 7; the
tracked list is `[8]`. -/
theorem plane_detections_tracked_witness :
    (example_server_one_client.threads 0).plane_detection_count ≤
      (example_server_one_client.threads 0).plane_detection_size ∧
    plane_detections_spec example_server_one_client.idevs
      (tracked_plane_detections (example_server_one_client.threads 0))
      [.begin_detection 0 1 XRT_SUCCESS 7, .begin_detection 0 2 XRT_SUCCESS 8,
       .begin_detection 0 3 XRT_ERROR_IPC_FAILURE 9, .begin_detection 0 4 XRT_SUCCESS 0,
       .destroy_detection 0 5 XRT_SUCCESS, .destroy_detection 0 7 XRT_SUCCESS] =
      [(8, some { handle := 1, view_count := 2 })] ∧
    tracked_plane_detections ((plane_detection_run 0 example_server_one_client
      [.begin_detection 0 1 XRT_SUCCESS 7, .begin_detection 0 2 XRT_SUCCESS 8,
       .begin_detection 0 3 XRT_ERROR_IPC_FAILURE 9, .begin_detection 0 4 XRT_SUCCESS 0,
       .destroy_detection 0 5 XRT_SUCCESS, .destroy_detection 0 7 XRT_SUCCESS]).threads 0) =
      plane_detections_spec example_server_one_client.idevs
        (tracked_plane_detections (example_server_one_client.threads 0))
        [.begin_detection 0 1 XRT_SUCCESS 7, .begin_detection 0 2 XRT_SUCCESS 8,
         .begin_detection 0 3 XRT_ERROR_IPC_FAILURE 9, .begin_detection 0 4 XRT_SUCCESS 0,
         .destroy_detection 0 5 XRT_SUCCESS, .destroy_detection 0 7 XRT_SUCCESS] :=
  ⟨by decide, by decide,
    (plane_detections_tracked example_server_one_client 0
      [.begin_detection 0 1 XRT_SUCCESS 7, .begin_detection 0 2 XRT_SUCCESS 8,
       .begin_detection 0 3 XRT_ERROR_IPC_FAILURE 9, .begin_detection 0 4 XRT_SUCCESS 0,
       .destroy_detection 0 5 XRT_SUCCESS, .destroy_detection 0 7 XRT_SUCCESS]
      (by decide)).1⟩

/-! ## C26: space destroy and the local spaces of the overseer -/

/-- C26 (the code departs from the claim). A connection starts with
`local_space_index = local_floor_space_index = 0` and both overseer indices 0, and
`ipc_handle_space_destroy` does not reset them. First run: the client of slot 0 has never
created local spaces and owns the pose space id 0; its `ipc_handle_space_destroy(0)`
succeeds and clears the entries 0 of `localspace` and `localfloorspace`, which hold the
local spaces of the client of slot 1. Second run: the client of slot 0 has destroyed its
local space, the client of slot 1 got the freed overseer entry 0, and a pose space reuses
space id 0 of the first client; destroying it clears the overseer entry of the other
client again. -/
theorem space_destroy_clears_foreign_local_space :
    (example_server_foreign_local_space.threads 0).xspcs 0 = some 60 ∧
    (example_server_foreign_local_space.threads 0).local_space_index = 0 ∧
    (example_server_foreign_local_space.threads 0).local_floor_space_index = 0 ∧
    (example_server_foreign_local_space.threads 1).xspcs 0 = some 50 ∧
    (example_server_foreign_local_space.threads 1).xspcs 1 = some 51 ∧
    example_server_foreign_local_space.xso.localspace 0 = some 50 ∧
    example_server_foreign_local_space.xso.localfloorspace 0 = some 51 ∧
    (ipc_handle_space_destroy 8 example_server_foreign_local_space 0 0).1 = XRT_SUCCESS ∧
    (ipc_handle_space_destroy 8 example_server_foreign_local_space 0 0).2.xso.localspace 0
      = none ∧
    (ipc_handle_space_destroy 8 example_server_foreign_local_space 0 0).2.xso.localfloorspace 0
      = none ∧
    (example_server_reused_space_id.threads 0).xspcs 0 = some 60 ∧
    (example_server_reused_space_id.threads 0).local_space_index = 0 ∧
    (example_server_reused_space_id.threads 1).xspcs 0 = some 70 ∧
    (example_server_reused_space_id.threads 1).local_space_overseer_index = 0 ∧
    example_server_reused_space_id.xso.localspace 0 = some 70 ∧
    (ipc_handle_space_destroy 8 example_server_reused_space_id 0 0).1 = XRT_SUCCESS ∧
    (ipc_handle_space_destroy 8 example_server_reused_space_id 0 0).2.xso.localspace 0
      = none := by
  refine ⟨?_, ?_, ?_, ?_, ?_, ?_, ?_, ?_, ?_, ?_, ?_, ?_, ?_, ?_, ?_, ?_, ?_⟩ <;> decide!

/-! ## C27: a connection that finds no free thread slot -/

/-- C27 (the code departs from the claim). On a fresh server eight connections are
accepted: all `IPC_MAX_CLIENTS` slots are in use and `connected_client_count` is 8. The
ninth connection is refused (its handle is closed, the id generator and every slot stay as
they are), yet `connected_client_count` is 9: the counter is incremented before the search
for a free slot and the refusing return does not take the increment back. -/
theorem client_connected_refused_still_counted :
    (∀ i, i < IPC_MAX_CLIENTS →
      (example_server_eight_clients.threads i).server_thread_index = (i : Int)) ∧
    example_server_eight_clients.connected_client_count = 8 ∧
    example_server_eight_clients.id_generator = 8 ∧
    client_connected_slot example_server_eight_clients = none ∧
    ipc_server_handle_client_connected example_server_eight_clients (some 18) =
      { example_server_eight_clients with
        connected_client_count := 9
        calls := example_server_eight_clients.calls ++ [.ipc_handle_close (some 18)] } ∧
    (ipc_server_handle_client_connected example_server_eight_clients
      (some 18)).connected_client_count = 9 := by
  have h1 : client_connected_slot example_server_eight_clients = none := by decide!
  have h2 : example_server_eight_clients.connected_client_count = 8 := by decide!
  have h3 := client_connected_refused example_server_eight_clients (some 18) h1
  have h9 : (8 + 1) % UINT32_SIZE = 9 := by decide
  rw [h2, h9] at h3
  refine ⟨by decide!, h2, by decide!, h1, h3, ?_⟩
  rw [h3]

/-! ## C28: inputs of a client or device whose io is not active -/

/-- C29 (the code departs from the claim). The server holds one device, with two inputs,
at index 1 of its device table and none at index 0. `init_shm` fills the descriptors with
`isdevs[count++]`: the device is described by `isdevs[0]` (two inputs from input 0) and
`isdevs[1]` stays zero. The handlers read `isdevs[device_id]`:
`ipc_handle_device_update_input` for device id 1, with io active, finds `input_count = 0`
and copies nothing, so the shared inputs keep the values of the start; for device id 0,
whose descriptor is the populated one, the server has no device. -/
theorem init_shm_descriptor_index_differs :
    example_server_device_gap.idevs 0 = none ∧
    (example_server_device_gap.idevs 1).map (fun xdev => (xdev.name, xdev.inputs.length))
      = some (7, 2) ∧
    (init_shm 2 example_server_device_gap (some ipc_shared_memory.zero)).1 = 0 ∧
    (init_shm 2 example_server_device_gap (some ipc_shared_memory.zero)).2.ism.isdev_count
      = 1 ∧
    (init_shm 2 example_server_device_gap (some ipc_shared_memory.zero)).2.ism.isdevs 0 =
      { ipc_shared_device.zero with name := 7, input_count := 2, first_input_index := 0 } ∧
    (init_shm 2 example_server_device_gap (some ipc_shared_memory.zero)).2.ism.isdevs 1 =
      ipc_shared_device.zero ∧
    ((init_shm 2 example_server_device_gap (some ipc_shared_memory.zero)).2.ism.isdevs
      1).input_count ≠ 2 ∧
    (ipc_handle_device_update_input 1
      (init_shm 2 example_server_device_gap (some ipc_shared_memory.zero)).2 0 1 XRT_SUCCESS
      example_inputs_updated).map (fun r => (r.1, r.2.ism.inputs 0, r.2.ism.inputs 1)) =
      some (XRT_SUCCESS, { active := true, timestamp := 0, name := 21, value := 0 },
        { active := true, timestamp := 0, name := 22, value := 0 }) ∧
    ipc_handle_device_update_input 1
      (init_shm 2 example_server_device_gap (some ipc_shared_memory.zero)).2 0 0 XRT_SUCCESS
      example_inputs_updated = none := by
  refine ⟨rfl, rfl, rfl, ?_, ?_, ?_, ?_, ?_, rfl⟩ <;> decide!

/-! ## C30: a write that wraps past the end of the ring buffer -/

/-- C30 (the code departs from the claim). A resampler of 8 samples has
`read_index = 3` and `write_index = 6` after a write of 5 samples and a read of 3: 2
samples can be read and 4 can be written. A write of 3 samples at the resampler's own rate
returns 3 and leaves `write_index = 0`: the sample copied to the start of the buffer is
not counted in, and a read returns 4 samples, not 5. A write of 10 samples returns 5,
more than the free space of 4, and a read again returns 4 samples. -/
theorem resampler_write_wrap_loses_samples :
    example_resampler.num_samples = 8 ∧
    example_resampler.read_index = 3 ∧
    example_resampler.write_index = 6 ∧
    u_resampler_free example_resampler = 4 ∧
    u_resampler_readable example_resampler = 2 ∧
    (u_resampler_write example_resampler (fun i => 11 + i) 3 true).map
      (fun r => (r.1, r.2.read_index, r.2.write_index, u_resampler_readable r.2)) =
      some (3, 3, 0, 4) ∧
    (u_resampler_write example_resampler (fun i => 11 + i) 3 true).map
      (fun r => (u_resampler_read r.2 8).2.1) = some [3, 4, 5, 11] ∧
    (u_resampler_write example_resampler (fun i => 11 + i) 3 true).map
      (fun r => (List.range 8).map r.2.samples) = some [13, 1, 2, 3, 4, 5, 11, 12] ∧
    (u_resampler_write example_resampler (fun i => 11 + i) 10 true).map
      (fun r => (r.1, r.2.read_index, r.2.write_index, u_resampler_readable r.2)) =
      some (5, 3, 0, 4) := by
  refine ⟨rfl, ?_, ?_, ?_, ?_, ?_, ?_, ?_, ?_⟩ <;> decide!

end VRuska
